import Mathlib

/-! # GRDDL/XSLT parser of raptor (`src/raptor_xslt.c`): embedding and properties

The C functions are embedded as Lean functions with the same names.  C strings
are the lists of their characters before the terminating NUL, nullable
pointers are `Option`s, `int` results are `Int`s.  The ordinal check and the
blank node identifier functions of `src/raptor_general.c` follow the GRDDL
parser.  The ordinal check has no result where its `int` arithmetic
overflows; the counter of the blank node identifiers is wrapped to 32 bits.
-/

set_option linter.unusedVariables false

namespace Raptor

/-! ## C library string functions used by the recognition scorer -/

/-- The NUL character, which ends a C string. -/
def NUL : Char := Char.ofNat 0

/-- The C string stored at a pointer: the characters before the first NUL. -/
def c_str (p : List Char) : List Char :=
  p.takeWhile (fun c => c ≠ NUL)

/-- The comparison loop of `strcmp` on the characters of two strings: zero
when both end together, otherwise the difference of the first two characters
that differ, the end of a string counting as 0. -/
def strcmp_chars : List Char → List Char → Int
  | [], [] => 0
  | [], b :: _ => 0 - (b.toNat : Int)
  | a :: _, [] => (a.toNat : Int)
  | a :: as, b :: bs =>
    if a = b then strcmp_chars as bs else (a.toNat : Int) - (b.toNat : Int)

/-- The C library `strcmp`. -/
def strcmp (s1 s2 : List Char) : Int :=
  strcmp_chars (c_str s1) (c_str s2)

/-- The search loop of `strstr`: the tail of `haystack` starting at the first
occurrence of `needle`, or NULL (`none`) when there is none. -/
def strstr_chars : List Char → List Char → Option (List Char)
  | [], needle => if needle = [] then some [] else none
  | h :: hs, needle =>
    if needle.isPrefixOf (h :: hs) then some (h :: hs) else strstr_chars hs needle

/-- The C library `strstr`. -/
def strstr (haystack needle : List Char) : Option (List Char) :=
  strstr_chars (c_str haystack) (c_str needle)

/-! ## The recognition scorer -/

/-- `raptor_xslt_parse_recognise_syntax` (raptor_xslt.c:518-540).  The factory
argument is not read and is left out. -/
def raptor_xslt_parse_recognise_syntax (buffer : List Nat) (len : Nat)
    (identifier : Option (List Char)) (suffix : Option (List Char))
    (mime_type : Option (List Char)) : Int :=
  let score : Int := 0
  let score : Int :=
    match suffix with
    | some sfx =>
      let score := if strcmp sfx "xhtml".toList = 0 then 7 else score
      let score := if strcmp sfx "html".toList = 0 then 2 else score
      score
    | none => score
  let score : Int :=
    match identifier with
    | some ident =>
      if (strstr ident "xhtml".toList).isSome then score + 5 else score
    | none => score
  score

/-- The score as the spec words it: 7 for the suffix `xhtml`, 2 for the suffix
`html`, nothing for any other or an absent suffix, and 5 more when the
identifier is present and contains `xhtml`. -/
def spec_score (identifier suffix : Option (List Char)) : Int :=
  (if suffix.map c_str = some "xhtml".toList then 7
    else if suffix.map c_str = some "html".toList then 2 else 0)
  + (match identifier with
    | some ident => if "xhtml".toList <:+: c_str ident then 5 else 0
    | none => 0)

/-! ## Data of the GRDDL parser -/

/-- A document tree built by libxml2.  The code only passes the handle on. -/
structure xmlDoc where
  ident : Nat
deriving DecidableEq, Repr

/-- The first child of a node; only its `content` field is read
(raptor_xslt.c:485). -/
structure xmlNodeChild where
  content : Option String
deriving DecidableEq, Repr

/-- The fields of a libxml2 node that `raptor_xslt_parse_chunk` reads: the
node type and the pointer to the first child (NULL when the node has no
child). -/
structure xmlNode where
  ident : Nat
  type : Int
  children : Option xmlNodeChild
deriving DecidableEq, Repr

/-- The libxml2 node type of attribute nodes. -/
def XML_ATTRIBUTE_NODE : Int := 2

/-- The result object of an XPath evaluation; `nodesetval` is NULL or the
node table `nodeTab[0..nodeNr)`. -/
structure xmlXPathObject where
  nodesetval : Option (List xmlNode)
deriving DecidableEq, Repr

/-- The libxml2 macro `xmlXPathNodeSetIsEmpty`. -/
def xmlXPathNodeSetIsEmpty (nodes : Option (List xmlNode)) : Bool :=
  match nodes with
  | none => true
  | some tab => tab.isEmpty

/-- A compiled stylesheet of libxslt, known by handle. -/
structure xsltStylesheet where
  ident : Nat
deriving DecidableEq, Repr

/-- Which of the two incremental XML parses a libxml2 call belongs to: the
parse of the document (`xslt_parser->ctxt`) or of a fetched sheet
(`xslt_ctxt`). -/
inductive CtxtOwner where
  | document
  | sheet
deriving DecidableEq, Repr

/-- A libxml2 push parser context, represented by what the code has given it:
the bytes passed at creation and every later `xmlParseChunk` call (bytes and
terminate flag), in order. -/
structure xmlParserCtxt where
  created : List Nat
  fed : List (List Nat × Int)
deriving DecidableEq, Repr

/-- The state after one more `xmlParseChunk(ctxt, chunk, size, terminate)`. -/
def xmlParserCtxt.push (c : xmlParserCtxt) (chunk : List Nat) (terminate : Int) :
    xmlParserCtxt :=
  { c with fed := c.fed ++ [(chunk, terminate)] }

/-- The number of end-of-stream signals a context has been given. -/
def xmlParserCtxt.terminations (c : xmlParserCtxt) : Nat :=
  (c.fed.filter (fun f => f.2 ≠ 0)).length

/-- One call made by the code, in the order of execution.
`xmlXPathEvalExpression` records the object the evaluation gave, and the two
calls on the nested RDF/XML parser record what they returned.
`grddl_transform` is a call of `raptor_xslt_run_grddl_transform_uri`.  It and
`xmlXPathEvalExpression` also record the index `expri` of the rule of
`match_table` being processed. -/
inductive Event where
  | xmlCreatePushParserCtxt (owner : CtxtOwner) (chunk : List Nat)
      (filename : Option String)
  | xmlParseChunk (owner : CtxtOwner) (chunk : List Nat) (terminate : Int)
  | raptor_parser_error (message : String)
  | raptor_parser_warning (message : String)
  | xmlXPathNewContext (doc : xmlDoc)
  | xmlXPathRegisterNs (pfx : String) (ns_uri : String)
  | xmlXPathEvalExpression (expri : Nat) (xpathExpr : String)
      (xpathObj : Option xmlXPathObject)
  | grddl_transform (expri : Nat) (xslt_uri : Option String)
  | raptor_www_fetch (uri : Option String)
  | raptor_www_abort (reason : String)
  | xsltParseStylesheetDoc (xslt_doc : Option xmlDoc)
  | xsltApplyStylesheet (sheet : xsltStylesheet) (doc : xmlDoc)
  | xsltSaveResultToString (res : xmlDoc) (sheet : xsltStylesheet)
  | raptor_start_parse (base_uri : Option String) (rc : Int)
  | raptor_parse_chunk (buffer : List Nat) (len : Nat) (is_end : Int) (rc : Int)
deriving DecidableEq, Repr

/-- The calls made so far, oldest first. -/
abbrev Log := List Event

/-- What `raptor_www_fetch` does with a resource: the byte blocks it hands to
the write-bytes handler, in order, and its result when the handler does not
abort the transfer, and when it does. -/
structure WwwTransfer where
  deliveries : List (List Nat)
  status : Int
  status_aborted : Int
deriving DecidableEq, Repr

/-- The collaborators outside `raptor_xslt.c` (libxml2, libxslt, the raptor
URI, WWW and parser modules).  What each of them answers may depend on all the
calls made before it, so every one that is not a pure function takes the log.

`failed` is the value of `rdf_parser->failed` when it is read: the field is
never written in `raptor_xslt.c`, only by code that the collaborators call
back (handlers registered on the parser). -/
structure Env where
  raptor_new_uri : String → Option String
  raptor_new_uri_relative_to_base : Option String → Option String → Option String
  xmlCreatePushParserCtxt : Log → CtxtOwner → List Nat → Option String → Bool
  xmlParseChunk : Log → CtxtOwner → xmlParserCtxt → List Nat → Int → Int
  myDoc : Log → CtxtOwner → xmlParserCtxt → Option xmlDoc
  xmlXPathNewContext : Log → xmlDoc → Bool
  xmlXPathEvalExpression : Log → String → xmlDoc → Option xmlXPathObject
  xmlNodeGetBase : xmlDoc → xmlNode → Option String
  raptor_www_fetch : Log → Option String → WwwTransfer
  xsltParseStylesheetDoc : Log → Option xmlDoc → Option xsltStylesheet
  xsltApplyStylesheet : Log → xsltStylesheet → xmlDoc → Option xmlDoc
  xsltSaveResultToString : Log → xmlDoc → xsltStylesheet → Option (List Nat)
  raptor_start_parse : Log → Option String → Int
  raptor_parse_chunk : Log → List Nat → Nat → Int → Int
  failed : Log → Bool

/-- The run of a C function: it returns a value, or it dereferences a null
pointer, after which its behaviour is undefined.  Both carry the log. -/
inductive Exec (α : Type) where
  | ret (val : α) (log : Log)
  | fault (log : Log)
deriving DecidableEq, Repr

/-- The calls made by a run. -/
def Exec.log {α : Type} : Exec α → Log
  | .ret _ l => l
  | .fault l => l

/-- The value a run returns, if it returns. -/
def Exec.val? {α : Type} : Exec α → Option α
  | .ret v _ => some v
  | .fault _ => none

/-- The run returns: it does not stop at a null pointer. -/
@[reducible]
def Exec.returns {α : Type} (x : Exec α) : Prop :=
  x.val?.isSome = true

/-- `struct raptor_xslt_parser_context_s` (raptor_xslt.c:101-116).  The SAX
handler block and the nested RDF/XML parser are seen through the calls made
on them. -/
structure raptor_xslt_parser_context where
  ctxt : Option xmlParserCtxt
  xpathCtx : Option xmlDoc
  xpathObj : Option xmlXPathObject
deriving DecidableEq, Repr

/-- The fields of the parser object that the GRDDL parser uses. -/
structure raptor_parser_s where
  base_uri : Option String
  context : raptor_xslt_parser_context
deriving DecidableEq, Repr

/-- One entry of `match_table`. -/
structure match_entry where
  xpath : Option String
  xslt_sheet_uri : Option String
deriving DecidableEq, Repr

/-- `match_table` (raptor_xslt.c:176-226), the closing `{NULL, 0}` entry
included. -/
def match_table : List match_entry :=
  [ { xpath := some "/html:html/html:head[contains(@profile,\"http://www.w3.org/2003/g/data-view\")]/html:link[@rel=\"transformation\"]/@href",
      xslt_sheet_uri := none },
    { xpath := some "/html:html/html:head[contains(@profile,\"http://www.w3.org/2003/g/data-view\")]/../..//html:a[@rel=\"transformation\"]/@href",
      xslt_sheet_uri := none },
    { xpath := some "//@dataview:transformation",
      xslt_sheet_uri := none },
    { xpath := some "/html:html/html:head/html:link[@href=\"http://purl.org/dc/elements/1.1/\"]",
      xslt_sheet_uri := some "http://www.w3.org/2000/06/dc-extract/dc-extract.xsl" },
    { xpath := some "/html:html/html:head[contains(@profile,\"http://purl.org/NET/erdf/profile\")]",
      xslt_sheet_uri := some "http://purl.org/NET/erdf/extract-rdf.xsl" },
    { xpath := some "//*[@class=\"vevent\"]",
      xslt_sheet_uri := some "http://www.w3.org/2002/12/cal/glean-hcal.xsl" },
    { xpath := none,
      xslt_sheet_uri := none } ]

/-! ## Running one transform -/

/-- `raptor_xslt_run_grddl_transform_doc` (raptor_xslt.c:262-321): returns
`ret` and the log.  The results of `raptor_start_parse` and of
`raptor_parse_chunk` on the nested RDF/XML parser are not assigned to
anything (lines 306-307). -/
def raptor_xslt_run_grddl_transform_doc (env : Env) (rdfp : raptor_parser_s)
    (xslt_uri : Option String) (xslt_doc : Option xmlDoc) (doc : xmlDoc)
    (log : Log) : Int × Log :=
  let ret : Int := 0
  let sheet := env.xsltParseStylesheetDoc log xslt_doc
  let log := log ++ [Event.xsltParseStylesheetDoc xslt_doc]
  match sheet with
  | none =>
    (1, log ++ [Event.raptor_parser_error "Failed to parse stylesheet in '%s'"])
  | some sheet =>
    let res := env.xsltApplyStylesheet log sheet doc
    let log := log ++ [Event.xsltApplyStylesheet sheet doc]
    match res with
    | none =>
      (1, log ++ [Event.raptor_parser_error "Failed to apply stylesheet in '%s'"])
    | some res =>
      let doc_txt := env.xsltSaveResultToString log res sheet
      let doc_txt_len : Nat := (doc_txt.getD []).length
      let log := log ++ [Event.xsltSaveResultToString res sheet]
      if doc_txt.isNone || doc_txt_len = 0 then
        (ret, log ++ [Event.raptor_parser_warning "XSLT returned an empty document"])
      else
        let log := log ++ [Event.raptor_start_parse rdfp.base_uri
          (env.raptor_start_parse log rdfp.base_uri)]
        let log := log ++ [Event.raptor_parse_chunk (doc_txt.getD []) doc_txt_len 1
          (env.raptor_parse_chunk log (doc_txt.getD []) doc_txt_len 1)]
        (ret, log)

/-- `raptor_xslt_uri_parse_bytes` (raptor_xslt.c:229-256), the write-bytes
handler given to the fetch: from the context pointer and one block of bytes to
the new context pointer, whether `raptor_www_abort` was called, and the log. -/
def raptor_xslt_uri_parse_bytes (env : Env) (www_uri : Option String)
    (ctxt_ptr : Option xmlParserCtxt) (ptr : List Nat) (log : Log) :
    Option xmlParserCtxt × Bool × Log :=
  let step : Int × Option xmlParserCtxt × Log :=
    match ctxt_ptr with
    | none =>
      let ok := env.xmlCreatePushParserCtxt log CtxtOwner.sheet ptr www_uri
      let log := log ++ [Event.xmlCreatePushParserCtxt CtxtOwner.sheet ptr www_uri]
      if ok then ((0 : Int), some { created := ptr, fed := [] }, log)
      else ((1 : Int), none, log)
    | some c =>
      let rc := env.xmlParseChunk log CtxtOwner.sheet c ptr 0
      (rc, some (c.push ptr 0), log ++ [Event.xmlParseChunk CtxtOwner.sheet ptr 0])
  if step.1 ≠ 0 then
    (step.2.1, true, step.2.2 ++ [Event.raptor_www_abort "Parsing failed"])
  else
    (step.2.1, false, step.2.2)

/-- The blocks of a transfer go to the handler one after the other, until the
handler aborts the transfer. -/
def www_deliver (env : Env) (www_uri : Option String) :
    List (List Nat) → Option xmlParserCtxt → Log → Option xmlParserCtxt × Bool × Log
  | [], ctxt_ptr, log => (ctxt_ptr, false, log)
  | ptr :: rest, ctxt_ptr, log =>
    let r := raptor_xslt_uri_parse_bytes env www_uri ctxt_ptr ptr log
    if r.2.1 then r else www_deliver env www_uri rest r.1 r.2.2

/-- Modelled from the spec: `raptor_www_fetch` of the WWW module, which is not
part of the sources at hand.  The fetch contract of the spec is
`fetch(uri, on_bytes) -> 0|non-zero`, where `on_bytes` may fire several times
and the handler can abort the transfer; the result is the second component. -/
def raptor_www_fetch (env : Env) (uri : Option String)
    (ctxt_ptr : Option xmlParserCtxt) (log : Log) :
    Option xmlParserCtxt × Int × Log :=
  let transfer := env.raptor_www_fetch log uri
  let r := www_deliver env uri transfer.deliveries ctxt_ptr
    (log ++ [Event.raptor_www_fetch uri])
  (r.1, if r.2.1 then transfer.status_aborted else transfer.status, r.2.2)

/-- `raptor_xslt_run_grddl_transform_uri` (raptor_xslt.c:325-364).  Reading
`xslt_ctxt->myDoc` at line 353 when `xslt_ctxt` is still NULL is a fault. -/
def raptor_xslt_run_grddl_transform_uri (env : Env) (rdfp : raptor_parser_s)
    (xslt_uri : Option String) (doc : xmlDoc) (log : Log) : Exec Int :=
  let xslt_ctxt : Option xmlParserCtxt := none
  let fetched := raptor_www_fetch env xslt_uri xslt_ctxt log
  let xslt_ctxt := fetched.1
  let log := fetched.2.2
  if fetched.2.1 ≠ 0 then
    Exec.ret 1 log
  else
    let log := log ++ [Event.xmlParseChunk CtxtOwner.sheet [] 1]
    match xslt_ctxt with
    | none => Exec.fault log
    | some c =>
      let c := c.push [] 1
      let r := raptor_xslt_run_grddl_transform_doc env rdfp xslt_uri
        (env.myDoc log CtxtOwner.sheet c) doc log
      Exec.ret r.1 r.2

/-! ## The rule table matcher -/

/-- The loop over the matched nodes of a rule without a fixed sheet URI
(raptor_xslt.c:474-503), from node `i` on: `nodes` are the nodes still to be
visited and `ret` the current value of the variable `ret`.  Reading
`node->children->content` at line 485 when `node->children` is NULL is a
fault. -/
def grddl_node_loop (env : Env) (rdfp : raptor_parser_s) (doc : xmlDoc)
    (expri : Nat) : List xmlNode → Int → Log → Exec Int
  | [], ret, log => Exec.ret ret log
  | node :: rest, ret, log =>
    if node.type ≠ XML_ATTRIBUTE_NODE then
      grddl_node_loop env rdfp doc expri rest ret
        (log ++ [Event.raptor_parser_error "Got unexpected node type %d"])
    else
      let base_uri_string := env.xmlNodeGetBase doc node
      match node.children with
      | none => Exec.fault log
      | some child =>
        let uri_string := child.content
        let base_uri : Option String :=
          match base_uri_string with
          | some b => env.raptor_new_uri b
          | none =>
            match rdfp.base_uri with
            | some b => some b
            | none => none
        let uri := env.raptor_new_uri_relative_to_base base_uri uri_string
        match raptor_xslt_run_grddl_transform_uri env rdfp uri doc
            (log ++ [Event.grddl_transform expri uri]) with
        | Exec.fault l => Exec.fault l
        | Exec.ret r l => grddl_node_loop env rdfp doc expri rest r l

/-- The part of the loop body for a rule whose match set is not empty
(raptor_xslt.c:460-504): the new value of `ret`. -/
def grddl_rule_matched (env : Env) (rdfp : raptor_parser_s) (doc : xmlDoc)
    (expri : Nat) (entry : match_entry) (nodes : List xmlNode) (ret : Int)
    (log : Log) : Exec Int :=
  match entry.xslt_sheet_uri with
  | some uri_string =>
    let base_uri := rdfp.base_uri
    let uri := env.raptor_new_uri_relative_to_base base_uri (some uri_string)
    raptor_xslt_run_grddl_transform_uri env rdfp uri doc
      (log ++ [Event.grddl_transform expri uri])
  | none => grddl_node_loop env rdfp doc expri nodes ret log

/-- How the loop over `match_table` is left. -/
inductive LoopExit where
  | done (ret : Int) (xpathObj : Option xmlXPathObject)
  | returned (val : Int) (xpathObj : Option xmlXPathObject)
deriving DecidableEq, Repr

/-- The loop over `match_table` (raptor_xslt.c:437-509), from the entry with
index `expri` on, `table` being the entries from there.  `done` is leaving the
loop by its condition or by `break`; `returned` is the `return 1` inside the
loop.  The table ends with an entry without `xpath`, so the case of an empty
`table` is never reached from `match_table`. -/
def grddl_rule_loop (env : Env) (rdfp : raptor_parser_s) (doc : xmlDoc) :
    List match_entry → Nat → Int → Option xmlXPathObject → Log → Exec LoopExit
  | [], _, ret, obj, log => Exec.ret (LoopExit.done ret obj) log
  | entry :: table, expri, ret, obj, log =>
    match entry.xpath with
    | none => Exec.ret (LoopExit.done ret obj) log
    | some xpathExpr =>
      let xpathObj := env.xmlXPathEvalExpression log xpathExpr doc
      let log := log ++ [Event.xmlXPathEvalExpression expri xpathExpr xpathObj]
      match xpathObj with
      | none =>
        Exec.ret (LoopExit.returned 1 none)
          (log ++ [Event.raptor_parser_error
            "Unable to evaluate XPath expression \"%s\""])
      | some o =>
        let nodes := o.nodesetval
        if nodes.isNone || xmlXPathNodeSetIsEmpty nodes then
          grddl_rule_loop env rdfp doc table (expri + 1) ret (some o) log
        else
          match grddl_rule_matched env rdfp doc expri entry (nodes.getD []) ret log with
          | Exec.fault l => Exec.fault l
          | Exec.ret ret l =>
            if env.failed l || ret ≠ 0 then
              Exec.ret (LoopExit.done ret (some o)) l
            else
              grddl_rule_loop env rdfp doc table (expri + 1) ret (some o) l

/-- The bytes of a chunk `(s, len)`: none behind a NULL pointer. -/
def chunk_bytes (s : Option (List Nat)) (len : Nat) : List Nat :=
  (s.getD []).take len

/-- The first part of `raptor_xslt_parse_chunk` (raptor_xslt.c:384-405): the
push parser context is created from the first chunk, or the chunk is fed to
the context that exists.  The result is `xslt_parser->ctxt` afterwards (NULL
when the creation failed) and the log. -/
def grddl_parse_feed (env : Env) (rdfp : raptor_parser_s)
    (s : Option (List Nat)) (len : Nat) (is_end : Int) (log : Log) :
    Option xmlParserCtxt × Log :=
  match rdfp.context.ctxt with
  | none =>
    let uri_string := rdfp.base_uri
    let ok := env.xmlCreatePushParserCtxt log CtxtOwner.document
      (chunk_bytes s len) uri_string
    let log := log ++ [Event.xmlCreatePushParserCtxt CtxtOwner.document
      (chunk_bytes s len) uri_string]
    if ok then
      let c : xmlParserCtxt := { created := chunk_bytes s len, fed := [] }
      if is_end ≠ 0 then
        (some (c.push [] is_end),
          log ++ [Event.xmlParseChunk CtxtOwner.document [] is_end])
      else (some c, log)
    else (none, log)
  | some c =>
    if (s.isSome && len ≠ 0) || is_end ≠ 0 then
      (some (c.push (chunk_bytes s len) is_end),
        log ++ [Event.xmlParseChunk CtxtOwner.document (chunk_bytes s len) is_end])
    else (some c, log)

/-- The last part of `raptor_xslt_parse_chunk` (raptor_xslt.c:411-514), run
at the end of the stream: the tree is taken from the context `c`, the XPath
context is made and the rules of `match_table` are tried. -/
def grddl_parse_finish (env : Env) (rdfp : raptor_parser_s) (c : xmlParserCtxt)
    (log : Log) : Exec (Int × raptor_parser_s) :=
  let ret : Int := 0
  match env.myDoc log CtxtOwner.document c with
  | none =>
    Exec.ret (1, rdfp)
      (log ++ [Event.raptor_parser_error "Failed to create XML DOM for document"])
  | some doc =>
    let made := env.xmlXPathNewContext log doc
    let log := log ++ [Event.xmlXPathNewContext doc]
    if !made then
      Exec.ret (1, { rdfp with context := { rdfp.context with xpathCtx := none } })
        (log ++ [Event.raptor_parser_error
          "Failed to create XPath context for document"])
    else
      let rdfp := { rdfp with context := { rdfp.context with xpathCtx := some doc } }
      let log := log ++ [Event.xmlXPathRegisterNs "html" "http://www.w3.org/1999/xhtml",
        Event.xmlXPathRegisterNs "dataview" "http://www.w3.org/2003/g/data-view#"]
      match grddl_rule_loop env rdfp doc match_table 0 ret rdfp.context.xpathObj log with
      | Exec.fault l => Exec.fault l
      | Exec.ret (LoopExit.returned v obj) l =>
        Exec.ret (v, { rdfp with context := { rdfp.context with xpathObj := obj } }) l
      | Exec.ret (LoopExit.done ret obj) l =>
        let rdfp := { rdfp with context := { rdfp.context with xpathObj := obj } }
        if env.failed l then Exec.ret (1, rdfp) l
        else Exec.ret (if ret ≠ 0 then 1 else 0, rdfp) l

/-- `raptor_xslt_parse_chunk` (raptor_xslt.c:367-515): the result and the
parser object after the call. -/
def raptor_xslt_parse_chunk (env : Env) (rdfp : raptor_parser_s)
    (s : Option (List Nat)) (len : Nat) (is_end : Int) (log : Log) :
    Exec (Int × raptor_parser_s) :=
  let opened := grddl_parse_feed env rdfp s len is_end log
  let log := opened.2
  match opened.1 with
  | none =>
    Exec.ret (1, rdfp) (log ++ [Event.raptor_parser_error "Failed to create XML parser"])
  | some c =>
    let rdfp := { rdfp with context := { rdfp.context with ctxt := some c } }
    if is_end = 0 then Exec.ret (0, rdfp) log
    else grddl_parse_finish env rdfp c log

/-! ## A document pushed in several chunks -/

/-- The calls a run has added to the log it started from. -/
def new_calls {α : Type} (log : Log) (x : Exec α) : Log :=
  x.log.drop log.length

/-- The result code of a push, if the push returns. -/
def result_code (x : Exec (Int × raptor_parser_s)) : Option Int :=
  x.val?.map Prod.fst

/-! ## Reading the log -/

/-- The log `l2` is `l1` followed by calls that all satisfy `P`. -/
def LogExt (P : Event → Prop) (l1 l2 : Log) : Prop :=
  ∃ d : Log, l2 = l1 ++ d ∧ ∀ e ∈ d, P e

/-- The rule index a call is recorded with, if any. -/
def Event.rule? : Event → Option Nat
  | Event.xmlXPathEvalExpression expri _ _ => some expri
  | Event.grddl_transform expri _ => some expri
  | _ => none

/-- The calls that running one transform can make, for a parser with base URI
`base_uri`: the sheet is fetched and parsed, compiled, applied and saved, an
error or the warning of an empty result is reported, and the nested RDF/XML
parser is started with `base_uri` when a saved result is not empty and fed one
whole, non-empty saved result with the end flag set. -/
def TaskEvent (env : Env) (base_uri : Option String) : Event → Prop
  | Event.xmlCreatePushParserCtxt owner _ _ => owner = CtxtOwner.sheet
  | Event.xmlParseChunk owner _ _ => owner = CtxtOwner.sheet
  | Event.raptor_parser_error message =>
    message = "Failed to parse stylesheet in '%s'"
      ∨ message = "Failed to apply stylesheet in '%s'"
  | Event.raptor_parser_warning message => message = "XSLT returned an empty document"
  | Event.raptor_www_fetch _ => True
  | Event.raptor_www_abort _ => True
  | Event.xsltParseStylesheetDoc _ => True
  | Event.xsltApplyStylesheet _ _ => True
  | Event.xsltSaveResultToString _ _ => True
  | Event.raptor_start_parse b _ =>
    b = base_uri
      ∧ ∃ l res sheet buffer,
          env.xsltSaveResultToString l res sheet = some buffer ∧ buffer ≠ []
  | Event.raptor_parse_chunk buffer len is_end _ =>
    len = buffer.length ∧ is_end = 1 ∧ buffer ≠ []
      ∧ ∃ l res sheet, env.xsltSaveResultToString l res sheet = some buffer
  | _ => False

/-- The calls that the loop over `match_table` can make from rule `expri` on:
those of a transform, an XPath evaluation or the start of a transform for a
rule from `expri` on, and the two error reports of the loop. -/
def LoopEvent (env : Env) (base_uri : Option String) (expri : Nat) (e : Event) : Prop :=
  TaskEvent env base_uri e
  ∨ (∃ k, e.rule? = some k ∧ expri ≤ k)
  ∨ e = Event.raptor_parser_error "Got unexpected node type %d"
  ∨ e = Event.raptor_parser_error "Unable to evaluate XPath expression \"%s\""

/-- The XPath evaluations in a log: rule index and expression, in order. -/
def xpath_evals (log : Log) : List (Nat × String) :=
  log.filterMap fun e =>
    match e with
    | Event.xmlXPathEvalExpression expri xpathExpr _ => some (expri, xpathExpr)
    | _ => none

/-- The non-empty match sets that the evaluations of rule `i` gave, in order. -/
def matches_of (i : Nat) (log : Log) : List (List xmlNode) :=
  log.filterMap fun e =>
    match e with
    | Event.xmlXPathEvalExpression expri _ (some o) =>
      if expri = i ∧ xmlXPathNodeSetIsEmpty o.nodesetval = false
      then some (o.nodesetval.getD []) else none
    | _ => none

/-- The sheet URIs of the transforms started for rule `i`, in order. -/
def tasks_of (i : Nat) (log : Log) : List (Option String) :=
  log.filterMap fun e =>
    match e with
    | Event.grddl_transform expri xslt_uri => if expri = i then some xslt_uri else none
    | _ => none

/-- The sheet URIs of all the transforms started, in order. -/
def tasks (log : Log) : List (Option String) :=
  log.filterMap fun e =>
    match e with
    | Event.grddl_transform _ xslt_uri => some xslt_uri
    | _ => none

/-- The number of reports of an unexpected node type in a log. -/
def unexpected_node_reports (log : Log) : Nat :=
  (log.filter fun e =>
    decide (e = Event.raptor_parser_error "Got unexpected node type %d")).length

/-- What the document's push parser was given, call by call: the bytes of the
creating call (no end signal) and the bytes and terminate flag of each
`xmlParseChunk`. -/
def document_feeds (log : Log) : List (List Nat × Int) :=
  log.filterMap fun e =>
    match e with
    | Event.xmlCreatePushParserCtxt CtxtOwner.document chunk _ => some (chunk, 0)
    | Event.xmlParseChunk CtxtOwner.document chunk terminate => some (chunk, terminate)
    | _ => none

/-- The calls made on the nested RDF/XML parser, in order. -/
def rdfxml_calls (log : Log) : Log :=
  log.filter fun e =>
    match e with
    | Event.raptor_start_parse _ _ => true
    | Event.raptor_parse_chunk _ _ _ _ => true
    | _ => false

/-- The nodes of a match set that are not attribute nodes, in order. -/
def other_nodes (nodes : List xmlNode) : List xmlNode :=
  nodes.filter fun n => decide (n.type ≠ XML_ATTRIBUTE_NODE)

/-- The sheet URI for a matched attribute node as lines 484-496 compute it:
the text of the first child, resolved against the base of the node, else of
the document. -/
def node_sheet_uri (env : Env) (rdfp : raptor_parser_s) (doc : xmlDoc)
    (node : xmlNode) : Option String :=
  env.raptor_new_uri_relative_to_base
    (match env.xmlNodeGetBase doc node with
      | some b => env.raptor_new_uri b
      | none => rdfp.base_uri)
    (node.children.bind fun child => child.content)

/-- The attribute nodes of a match set, in order. -/
def attribute_nodes (nodes : List xmlNode) : List xmlNode :=
  nodes.filter fun n => decide (n.type = XML_ATTRIBUTE_NODE)

/-- The calls that the loop body can make for the matched rule `expri`: those
of a transform, the start of a transform for this rule, and the report of an
unexpected node type. -/
def BodyEvent (env : Env) (base_uri : Option String) (expri : Nat) (e : Event) : Prop :=
  TaskEvent env base_uri e
  ∨ (∃ u, e = Event.grddl_transform expri u)
  ∨ e = Event.raptor_parser_error "Got unexpected node type %d"

/-- The rules of a table from index `expri` on, up to the closing entry: index
and XPath expression. -/
def table_rules : Nat → List match_entry → List (Nat × String)
  | _, [] => []
  | expri, entry :: table =>
    match entry.xpath with
    | none => []
    | some xpathExpr => (expri, xpathExpr) :: table_rules (expri + 1) table

/-- The calls of the first part of `raptor_xslt_parse_chunk`: the creation of
the document's push parser context and the feeds to it. -/
def FeedEvent : Event → Prop
  | Event.xmlCreatePushParserCtxt owner _ _ => owner = CtxtOwner.document
  | Event.xmlParseChunk owner _ _ => owner = CtxtOwner.document
  | _ => False

/-- The calls of `raptor_xslt_parse_chunk` outside the feed and the loop over
the rules: the making of the XPath context and the error reports. -/
def SetupEvent : Event → Prop
  | Event.xmlXPathNewContext _ => True
  | Event.xmlXPathRegisterNs _ _ => True
  | Event.raptor_parser_error message =>
    message = "Failed to create XML parser"
      ∨ message = "Failed to create XML DOM for document"
      ∨ message = "Failed to create XPath context for document"
  | _ => False

/-- The calls of `raptor_xslt_parse_chunk` that come after the feed. -/
def FinishEvent (env : Env) (base_uri : Option String) (e : Event) : Prop :=
  SetupEvent e ∨ LoopEvent env base_uri 0 e

/-! ## Conditions on the collaborators -/

/-- No transform dereferences a null sheet context: every call of
`raptor_xslt_run_grddl_transform_uri` returns. -/
def TasksReturn (env : Env) : Prop :=
  ∀ (p : raptor_parser_s) (u : Option String) (d : xmlDoc) (l : Log),
    ∃ r l2, raptor_xslt_run_grddl_transform_uri env p u d l = Exec.ret r l2

/-- Every transform returns success. -/
def TasksSucceed (env : Env) : Prop :=
  ∀ (p : raptor_parser_s) (u : Option String) (d : xmlDoc) (l : Log),
    ∃ l2, raptor_xslt_run_grddl_transform_uri env p u d l = Exec.ret 0 l2

/-- Every attribute node among `nodes` has a first child, so that line 485
can read its content. -/
def NodesReadable (nodes : List xmlNode) : Prop :=
  ∀ n ∈ nodes, n.type = XML_ATTRIBUTE_NODE → n.children.isSome = true

/-- Every attribute node of every match set has a first child. -/
def MatchesReadable (env : Env) : Prop :=
  ∀ (l : Log) (x : String) (d : xmlDoc) (o : xmlXPathObject),
    env.xmlXPathEvalExpression l x d = some o → NodesReadable (o.nodesetval.getD [])

/-- Every XPath evaluation gives a result object. -/
def XPathSucceeds (env : Env) : Prop :=
  ∀ (l : Log) (x : String) (d : xmlDoc), (env.xmlXPathEvalExpression l x d).isSome = true

/-- The failed flag of the parser is never found set. -/
def NeverFailed (env : Env) : Prop :=
  ∀ l : Log, env.failed l = false

/-- Every sheet fetch succeeds and leaves a parser context for the sheet. -/
def SheetsArrive (env : Env) : Prop :=
  ∀ (u : Option String) (l : Log),
    ∃ c lf, raptor_www_fetch env u none l = (some c, 0, lf)

/-- Every sheet compiles. -/
def SheetsCompile (env : Env) : Prop :=
  ∀ (l : Log) (d : Option xmlDoc), (env.xsltParseStylesheetDoc l d).isSome = true

/-- Every sheet applies. -/
def SheetsApply (env : Env) : Prop :=
  ∀ (l : Log) (sheet : xsltStylesheet) (d : xmlDoc),
    (env.xsltApplyStylesheet l sheet d).isSome = true

/-- Every saved transform result is absent or of length zero. -/
def ResultsEmpty (env : Env) : Prop :=
  ∀ (l : Log) (res : xmlDoc) (sheet : xsltStylesheet),
    (env.xsltSaveResultToString l res sheet).getD [] = []

/-! ## Sample documents and collaborators -/

/-- An attribute node whose value is `value`. -/
def sample_attribute (ident : Nat) (value : String) : xmlNode :=
  { ident := ident, type := XML_ATTRIBUTE_NODE, children := some { content := some value } }

/-- An element node (libxml2 type 1) without children. -/
def sample_element (ident : Nat) : xmlNode :=
  { ident := ident, type := 1, children := none }

/-- A parser object before the first push, for the document
`http://ex/doc.html`. -/
def sample_rdfp : raptor_parser_s :=
  { base_uri := some "http://ex/doc.html",
    context := { ctxt := none, xpathCtx := none, xpathObj := none } }

/-- Collaborators for a document in which the third rule matches an attribute
node with value `sheet.xsl` and an element node, and the hCalendar rule matches
two elements.  Every sheet arrives in one block and compiles and applies, and
every transform result is empty. -/
def sample_env : Env where
  raptor_new_uri := fun b => some b
  raptor_new_uri_relative_to_base := fun _ u => u
  xmlCreatePushParserCtxt := fun _ _ _ _ => true
  xmlParseChunk := fun _ _ _ _ _ => 0
  myDoc := fun _ owner _ =>
    match owner with
    | CtxtOwner.document => some { ident := 0 }
    | CtxtOwner.sheet => some { ident := 1 }
  xmlXPathNewContext := fun _ _ => true
  xmlXPathEvalExpression := fun _ x _ =>
    if x = "//@dataview:transformation" then
      some { nodesetval := some [sample_attribute 1 "sheet.xsl", sample_element 2] }
    else if x = "//*[@class=\"vevent\"]" then
      some { nodesetval := some [sample_element 3, sample_element 4] }
    else some { nodesetval := none }
  xmlNodeGetBase := fun _ _ => none
  raptor_www_fetch := fun _ _ => { deliveries := [[60, 120]], status := 0, status_aborted := 1 }
  xsltParseStylesheetDoc := fun _ _ => some { ident := 7 }
  xsltApplyStylesheet := fun _ _ _ => some { ident := 8 }
  xsltSaveResultToString := fun _ _ _ => none
  raptor_start_parse := fun _ _ => 0
  raptor_parse_chunk := fun _ _ _ _ => 0
  failed := fun _ => false

/-- Collaborators for a document in which the first rule matches two attribute
nodes, with values `a.xsl` and `b.xsl`, and no other rule matches.  The fetch
of `a.xsl` fails; every other sheet arrives, compiles and applies, its result
is two bytes long, and the nested parser accepts it. -/
def fetch_fail_env : Env where
  raptor_new_uri := fun b => some b
  raptor_new_uri_relative_to_base := fun _ u => u
  xmlCreatePushParserCtxt := fun _ _ _ _ => true
  xmlParseChunk := fun _ _ _ _ _ => 0
  myDoc := fun _ owner _ =>
    match owner with
    | CtxtOwner.document => some { ident := 0 }
    | CtxtOwner.sheet => some { ident := 1 }
  xmlXPathNewContext := fun _ _ => true
  xmlXPathEvalExpression := fun _ x _ =>
    if x = "/html:html/html:head[contains(@profile,\"http://www.w3.org/2003/g/data-view\")]/html:link[@rel=\"transformation\"]/@href" then
      some { nodesetval := some [sample_attribute 1 "a.xsl", sample_attribute 2 "b.xsl"] }
    else some { nodesetval := none }
  xmlNodeGetBase := fun _ _ => none
  raptor_www_fetch := fun _ u =>
    if u = some "a.xsl" then { deliveries := [], status := 1, status_aborted := 1 }
    else { deliveries := [[60, 120]], status := 0, status_aborted := 1 }
  xsltParseStylesheetDoc := fun _ _ => some { ident := 7 }
  xsltApplyStylesheet := fun _ _ _ => some { ident := 8 }
  xsltSaveResultToString := fun _ _ _ => some [60, 114]
  raptor_start_parse := fun _ _ => 0
  raptor_parse_chunk := fun _ _ _ _ => 0
  failed := fun _ => false

/-- Collaborators for a document in which only the third rule matches: an
attribute node with value `a.xsl`, an element, and an attribute node with
value `b.xsl`.  The fetch of `a.xsl` fails, and the sheet `b.xsl` arrives,
compiles and applies to an empty result. -/
def dropped_failure_env : Env where
  raptor_new_uri := fun b => some b
  raptor_new_uri_relative_to_base := fun _ u => u
  xmlCreatePushParserCtxt := fun _ _ _ _ => true
  xmlParseChunk := fun _ _ _ _ _ => 0
  myDoc := fun _ owner _ =>
    match owner with
    | CtxtOwner.document => some { ident := 0 }
    | CtxtOwner.sheet => some { ident := 1 }
  xmlXPathNewContext := fun _ _ => true
  xmlXPathEvalExpression := fun _ x _ =>
    if x = "//@dataview:transformation" then
      some { nodesetval := some [sample_attribute 1 "a.xsl", sample_element 2,
        sample_attribute 3 "b.xsl"] }
    else some { nodesetval := none }
  xmlNodeGetBase := fun _ _ => none
  raptor_www_fetch := fun _ u =>
    if u = some "a.xsl" then { deliveries := [], status := 1, status_aborted := 1 }
    else { deliveries := [[60, 120]], status := 0, status_aborted := 1 }
  xsltParseStylesheetDoc := fun _ _ => some { ident := 7 }
  xsltApplyStylesheet := fun _ _ _ => some { ident := 8 }
  xsltSaveResultToString := fun _ _ _ => none
  raptor_start_parse := fun _ _ => 0
  raptor_parse_chunk := fun _ _ _ _ => 0
  failed := fun _ => false

/-- Collaborators for a document in which only the Dublin Core rule matches,
one element.  The sheet arrives, compiles and applies, its result is two bytes
long, and the nested RDF/XML parser fails on it: `raptor_parse_chunk` returns
1.  The failed flag of the outer parser stays unset. -/
def rdfxml_fail_env : Env where
  raptor_new_uri := fun b => some b
  raptor_new_uri_relative_to_base := fun _ u => u
  xmlCreatePushParserCtxt := fun _ _ _ _ => true
  xmlParseChunk := fun _ _ _ _ _ => 0
  myDoc := fun _ owner _ =>
    match owner with
    | CtxtOwner.document => some { ident := 0 }
    | CtxtOwner.sheet => some { ident := 1 }
  xmlXPathNewContext := fun _ _ => true
  xmlXPathEvalExpression := fun _ x _ =>
    if x = "/html:html/html:head/html:link[@href=\"http://purl.org/dc/elements/1.1/\"]" then
      some { nodesetval := some [sample_element 1] }
    else some { nodesetval := none }
  xmlNodeGetBase := fun _ _ => none
  raptor_www_fetch := fun _ _ => { deliveries := [[60, 120]], status := 0, status_aborted := 1 }
  xsltParseStylesheetDoc := fun _ _ => some { ident := 7 }
  xsltApplyStylesheet := fun _ _ _ => some { ident := 8 }
  xsltSaveResultToString := fun _ _ _ => some [60, 114]
  raptor_start_parse := fun _ _ => 0
  raptor_parse_chunk := fun _ _ _ _ => 1
  failed := fun _ => false

/-- Collaborators for a document in which only the third rule matches, an
attribute node with value `sheet.xsl` whose own base is `http://other/base/`.
A relative reference is resolved by appending it to the base.  The sheet
arrives, compiles and applies, and its result is two bytes long. -/
def based_env : Env where
  raptor_new_uri := fun b => some b
  raptor_new_uri_relative_to_base := fun base u =>
    match base, u with
    | some b, some r => some (b ++ r)
    | _, _ => u
  xmlCreatePushParserCtxt := fun _ _ _ _ => true
  xmlParseChunk := fun _ _ _ _ _ => 0
  myDoc := fun _ owner _ =>
    match owner with
    | CtxtOwner.document => some { ident := 0 }
    | CtxtOwner.sheet => some { ident := 1 }
  xmlXPathNewContext := fun _ _ => true
  xmlXPathEvalExpression := fun _ x _ =>
    if x = "//@dataview:transformation" then
      some { nodesetval := some [sample_attribute 1 "sheet.xsl"] }
    else some { nodesetval := none }
  xmlNodeGetBase := fun _ _ => some "http://other/base/"
  raptor_www_fetch := fun _ _ => { deliveries := [[60, 120]], status := 0, status_aborted := 1 }
  xsltParseStylesheetDoc := fun _ _ => some { ident := 7 }
  xsltApplyStylesheet := fun _ _ _ => some { ident := 8 }
  xsltSaveResultToString := fun _ _ _ => some [60, 114]
  raptor_start_parse := fun _ _ => 0
  raptor_parse_chunk := fun _ _ _ _ => 0
  failed := fun _ => false

/-- Collaborators for a document in which the first rule matches an attribute
node with value `a.xsl`, the evaluation of the third rule gives no result
object, and every other rule matches an element.  Every sheet arrives,
compiles and applies, and every transform result is empty. -/
def xpath_fail_env : Env where
  raptor_new_uri := fun b => some b
  raptor_new_uri_relative_to_base := fun _ u => u
  xmlCreatePushParserCtxt := fun _ _ _ _ => true
  xmlParseChunk := fun _ _ _ _ _ => 0
  myDoc := fun _ owner _ =>
    match owner with
    | CtxtOwner.document => some { ident := 0 }
    | CtxtOwner.sheet => some { ident := 1 }
  xmlXPathNewContext := fun _ _ => true
  xmlXPathEvalExpression := fun _ x _ =>
    if x = "/html:html/html:head[contains(@profile,\"http://www.w3.org/2003/g/data-view\")]/html:link[@rel=\"transformation\"]/@href" then
      some { nodesetval := some [sample_attribute 1 "a.xsl"] }
    else if x = "//@dataview:transformation" then none
    else some { nodesetval := some [sample_element 2] }
  xmlNodeGetBase := fun _ _ => none
  raptor_www_fetch := fun _ _ => { deliveries := [[60, 120]], status := 0, status_aborted := 1 }
  xsltParseStylesheetDoc := fun _ _ => some { ident := 7 }
  xsltApplyStylesheet := fun _ _ _ => some { ident := 8 }
  xsltSaveResultToString := fun _ _ _ => none
  raptor_start_parse := fun _ _ => 0
  raptor_parse_chunk := fun _ _ _ _ => 0
  failed := fun _ => false

/-- Collaborators for a document whose bytes give no tree: the document's
push parser holds no document after the end of the stream. -/
def no_tree_env : Env where
  raptor_new_uri := fun b => some b
  raptor_new_uri_relative_to_base := fun _ u => u
  xmlCreatePushParserCtxt := fun _ _ _ _ => true
  xmlParseChunk := fun _ _ _ _ _ => 1
  myDoc := fun _ _ _ => none
  xmlXPathNewContext := fun _ _ => true
  xmlXPathEvalExpression := fun _ _ _ => some { nodesetval := some [sample_element 1] }
  xmlNodeGetBase := fun _ _ => none
  raptor_www_fetch := fun _ _ => { deliveries := [[60, 120]], status := 0, status_aborted := 1 }
  xsltParseStylesheetDoc := fun _ _ => some { ident := 7 }
  xsltApplyStylesheet := fun _ _ _ => some { ident := 8 }
  xsltSaveResultToString := fun _ _ _ => none
  raptor_start_parse := fun _ _ => 0
  raptor_parse_chunk := fun _ _ _ _ => 0
  failed := fun _ => false

/-- A sequence of calls of `raptor_xslt_parse_chunk` on one parser object,
each with its own chunk `(s, len)` and `is_end`.  Every call is made, whatever
the calls before it returned; the result is the list of the result codes and
the parser object after the last call. -/
def push_calls (env : Env) :
    raptor_parser_s → List (Option (List Nat) × Nat × Int) → Log →
      Exec (List Int × raptor_parser_s)
  | rdfp, [], log => Exec.ret ([], rdfp) log
  | rdfp, c :: rest, log =>
    match raptor_xslt_parse_chunk env rdfp c.1 c.2.1 c.2.2 log with
    | Exec.fault l => Exec.fault l
    | Exec.ret (rc, rdfp2) l =>
      match push_calls env rdfp2 rest l with
      | Exec.fault l2 => Exec.fault l2
      | Exec.ret (rcs, rdfp3) l2 => Exec.ret (rc :: rcs, rdfp3) l2

/-- The number of finalizations in a log: the XPath context is made once in
each, after the tree was taken and before the rules are tried. -/
def finalizations (log : Log) : Nat :=
  (log.filter fun e =>
    match e with
    | Event.xmlXPathNewContext _ => true
    | _ => false).length

/-- The number of calls of a sequence that have `is_end` set. -/
def end_calls (calls : List (Option (List Nat) × Nat × Int)) : Nat :=
  (calls.filter fun c => decide (c.2.2 ≠ 0)).length

/-- The textual value of a matched node as line 485 reads it: the content of
the node's first child. -/
def node_value (node : xmlNode) : Option String :=
  node.children.bind fun child => child.content

/-- The base URI for the transform of a matched node in the words of the
spec: the node's own base when it has one, else the document's base when
there is one, else none.  The node's base comes from `xmlNodeGetBase` as a
string and is made a URI by `raptor_new_uri`. -/
def spec_transform_base (env : Env) (rdfp : raptor_parser_s) (doc : xmlDoc)
    (node : xmlNode) : Option String :=
  if (env.xmlNodeGetBase doc node).isSome then
    (env.xmlNodeGetBase doc node).bind env.raptor_new_uri
  else if rdfp.base_uri.isSome then rdfp.base_uri
  else none

/-- Collaborators for the document of scenario A: the first rule matches one
attribute node with value `sheet.xsl`, which has no base of its own, and no
other rule matches.  A relative reference is resolved by putting it in the
place of the last path segment of the base.  The sheet arrives, compiles and
applies, and its result is empty. -/
def scenario_a_env : Env where
  raptor_new_uri := fun b => some b
  raptor_new_uri_relative_to_base := fun base u =>
    match base, u with
    | some b, some r =>
      some (String.mk (b.toList.reverse.dropWhile fun ch => ch ≠ '/').reverse ++ r)
    | _, _ => u
  xmlCreatePushParserCtxt := fun _ _ _ _ => true
  xmlParseChunk := fun _ _ _ _ _ => 0
  myDoc := fun _ owner _ =>
    match owner with
    | CtxtOwner.document => some { ident := 0 }
    | CtxtOwner.sheet => some { ident := 1 }
  xmlXPathNewContext := fun _ _ => true
  xmlXPathEvalExpression := fun _ x _ =>
    if x = "/html:html/html:head[contains(@profile,\"http://www.w3.org/2003/g/data-view\")]/html:link[@rel=\"transformation\"]/@href" then
      some { nodesetval := some [sample_attribute 1 "sheet.xsl"] }
    else some { nodesetval := none }
  xmlNodeGetBase := fun _ _ => none
  raptor_www_fetch := fun _ _ => { deliveries := [[60, 120]], status := 0, status_aborted := 1 }
  xsltParseStylesheetDoc := fun _ _ => some { ident := 7 }
  xsltApplyStylesheet := fun _ _ _ => some { ident := 8 }
  xsltSaveResultToString := fun _ _ _ => none
  raptor_start_parse := fun _ _ => 0
  raptor_parse_chunk := fun _ _ _ _ => 0
  failed := fun _ => false

/-- Collaborators for a document in which only the Dublin Core rule matches,
one element, and the sheet is an empty resource: the fetch succeeds (it
returns 0) without handing any bytes to the write-bytes handler. -/
def empty_sheet_env : Env where
  raptor_new_uri := fun b => some b
  raptor_new_uri_relative_to_base := fun _ u => u
  xmlCreatePushParserCtxt := fun _ _ _ _ => true
  xmlParseChunk := fun _ _ _ _ _ => 0
  myDoc := fun _ owner _ =>
    match owner with
    | CtxtOwner.document => some { ident := 0 }
    | CtxtOwner.sheet => some { ident := 1 }
  xmlXPathNewContext := fun _ _ => true
  xmlXPathEvalExpression := fun _ x _ =>
    if x = "/html:html/html:head/html:link[@href=\"http://purl.org/dc/elements/1.1/\"]" then
      some { nodesetval := some [sample_element 1] }
    else some { nodesetval := none }
  xmlNodeGetBase := fun _ _ => none
  raptor_www_fetch := fun _ _ => { deliveries := [], status := 0, status_aborted := 1 }
  xsltParseStylesheetDoc := fun _ d =>
    match d with
    | some _ => some { ident := 7 }
    | none => none
  xsltApplyStylesheet := fun _ _ _ => some { ident := 8 }
  xsltSaveResultToString := fun _ _ _ => none
  raptor_start_parse := fun _ _ => 0
  raptor_parse_chunk := fun _ _ _ _ => 0
  failed := fun _ => false

/-- Collaborators for a sheet whose bytes arrive but do not parse into a
document: the fetch succeeds, the sheet's push parser has a context and holds
no tree, and `xsltParseStylesheetDoc` gives no sheet for a missing
document. -/
def unparsed_sheet_env : Env where
  raptor_new_uri := fun b => some b
  raptor_new_uri_relative_to_base := fun _ u => u
  xmlCreatePushParserCtxt := fun _ _ _ _ => true
  xmlParseChunk := fun _ _ _ _ _ => 0
  myDoc := fun _ owner _ =>
    match owner with
    | CtxtOwner.document => some { ident := 0 }
    | CtxtOwner.sheet => none
  xmlXPathNewContext := fun _ _ => true
  xmlXPathEvalExpression := fun _ x _ =>
    if x = "/html:html/html:head/html:link[@href=\"http://purl.org/dc/elements/1.1/\"]" then
      some { nodesetval := some [sample_element 1] }
    else some { nodesetval := none }
  xmlNodeGetBase := fun _ _ => none
  raptor_www_fetch := fun _ _ => { deliveries := [[60, 120]], status := 0, status_aborted := 1 }
  xsltParseStylesheetDoc := fun _ d =>
    match d with
    | some _ => some { ident := 7 }
    | none => none
  xsltApplyStylesheet := fun _ _ _ => some { ident := 8 }
  xsltSaveResultToString := fun _ _ _ => none
  raptor_start_parse := fun _ _ => 0
  raptor_parse_chunk := fun _ _ _ _ => 0
  failed := fun _ => false

/-- The value of a C `int` computation whose exact result is `x`: `x` wrapped
to 32 bits in two's complement. -/
def int32 (x : Int) : Int :=
  (x + 2147483648) % 4294967296 - 2147483648

/-- The result of an `int` operation whose exact value is `x`: `x` when it is
in the range of a 32-bit `int`.  Outside it the operation overflows, which is
undefined behaviour in C: there is no result. -/
def int_result (x : Int) : Option Int :=
  if -2147483648 ≤ x ∧ x ≤ 2147483647 then some x else none

/-- The loop of `raptor_check_ordinal` (raptor_general.c:668-675) from the
characters `name` on, `ordinal` being the current value of the variable.  The
loop ends at the NUL that ends the string.  The characters are `unsigned
char`s, compared and subtracted as `int`s.  The result is `none` when
`ordinal *= 10` or `ordinal += (c - '0')` overflows: the behaviour is
undefined from there on, and what a build returns depends on the compiler. -/
def raptor_check_ordinal_loop : List Char → Int → Option Int
  | [], ordinal => some ordinal
  | c :: name, ordinal =>
    if c = NUL then some ordinal
    else if c.toNat < '0'.toNat ∨ c.toNat > '9'.toNat then some (-1)
    else
      let ordinal := if ordinal < 0 then 0 else ordinal
      match int_result (ordinal * 10) with
      | none => none
      | some ordinal =>
        match int_result (ordinal + ((c.toNat : Int) - ('0'.toNat : Int))) with
        | none => none
        | some ordinal => raptor_check_ordinal_loop name ordinal

/-- `raptor_check_ordinal` (raptor_general.c:662-677): the value returned, or
`none` when the computation overflows an `int`. -/
def raptor_check_ordinal (name : List Char) : Option Int :=
  raptor_check_ordinal_loop name (-1)

/-- The integer that a string of decimal digits denotes, read from the left
starting from `acc`. -/
def digits_value (acc : Nat) (digits : List Char) : Nat :=
  digits.foldl (fun a c => a * 10 + (c.toNat - '0'.toNat)) acc

/-- A character from `'0'` to `'9'`. -/
@[reducible]
def is_digit (c : Char) : Prop :=
  '0'.toNat ≤ c.toNat ∧ c.toNat ≤ '9'.toNat

/-- The fields of `raptor_world` that the blank node identifier functions of
`raptor_general.c` read and write.  The structure is declared in a header
that is not among the sources; the types are those of the uses: the base is
an `int`, the prefix a string or NULL, its length a `size_t`.  A handler set
by the user is a function from the user's id (or NULL) to the generated id
(or NULL), its user data included. -/
structure raptor_world where
  generate_bnodeid_handler : Option (Option (List Char) → Option (List Char))
  default_generate_bnodeid_handler_base : Int
  default_generate_bnodeid_handler_prefix : Option (List Char)
  default_generate_bnodeid_handler_prefix_length : Nat

/-- The C library `strlen`. -/
def strlen (s : List Char) : Nat :=
  (c_str s).length

/-- The characters that `sprintf` writes for `%d`: a minus sign for a negative
number, then the decimal digits. -/
def sprintf_d (i : Int) : List Char :=
  if i < 0 then '-' :: Nat.toDigits 10 i.natAbs else Nat.toDigits 10 i.toNat

/-- The loop `while(tmpid /= 10) length++;` of the default handler
(raptor_general.c:282-283): the value of `length` after it.  The division of
C truncates towards zero. -/
def bnodeid_length_loop (tmpid : Int) (length : Int) : Int :=
  if h : tmpid.tdiv 10 ≠ 0 then bnodeid_length_loop (tmpid.tdiv 10) (length + 1) else length
termination_by tmpid.natAbs
decreasing_by
  have h1 : (tmpid.tdiv 10).natAbs = tmpid.natAbs / 10 := by
    rw [Int.natAbs_tdiv]
    rfl
  rw [h1]
  have h2 : tmpid.natAbs ≠ 0 := by
    intro h0
    apply h
    have : tmpid = 0 := Int.natAbs_eq_zero.mp h0
    subst this
    rfl
  omega

/-- The buffer length that the default handler computes for the new counter
value `id` (raptor_general.c:280-288). -/
def bnodeid_buffer_length (world : raptor_world) (id : Int) : Int :=
  let tmpid := id
  let length : Int := 2
  let length := bnodeid_length_loop tmpid length
  match world.default_generate_bnodeid_handler_prefix with
  | some _ => int32 (length + world.default_generate_bnodeid_handler_prefix_length)
  | none => int32 (length + 5)

/-- `raptor_world_default_generate_bnodeid_handler` (raptor_general.c:265-303):
the string returned (NULL when the allocation fails) and the world afterwards.
`RAPTOR_MALLOC` tells whether an allocation of the given length succeeds.
The stored prefix is held as its characters; `memcpy` takes the first
`default_generate_bnodeid_handler_prefix_length` of them and `sprintf` writes
the number behind them. -/
def raptor_world_default_generate_bnodeid_handler (RAPTOR_MALLOC : Int → Bool)
    (world : raptor_world) (user_bnodeid : Option (List Char)) :
    Option (List Char) × raptor_world :=
  match user_bnodeid with
  | some user => (some user, world)
  | none =>
    let id := int32 (world.default_generate_bnodeid_handler_base + 1)
    let world := { world with default_generate_bnodeid_handler_base := id }
    let length := bnodeid_buffer_length world id
    if !RAPTOR_MALLOC length then (none, world)
    else
      match world.default_generate_bnodeid_handler_prefix with
      | some pfx =>
        (some (pfx.take world.default_generate_bnodeid_handler_prefix_length ++ sprintf_d id),
          world)
      | none => (some ("genid".toList ++ sprintf_d id), world)

/-- `raptor_world_internal_generate_id` (raptor_general.c:320-330). -/
def raptor_world_internal_generate_id (RAPTOR_MALLOC : Int → Bool) (world : raptor_world)
    (user_bnodeid : Option (List Char)) : Option (List Char) × raptor_world :=
  match world.generate_bnodeid_handler with
  | some handler => (handler user_bnodeid, world)
  | none => raptor_world_default_generate_bnodeid_handler RAPTOR_MALLOC world user_bnodeid

/-- `raptor_world_generate_bnodeid` (raptor_general.c:314-318). -/
def raptor_world_generate_bnodeid (RAPTOR_MALLOC : Int → Bool) (world : raptor_world) :
    Option (List Char) × raptor_world :=
  raptor_world_internal_generate_id RAPTOR_MALLOC world none

/-- `raptor_world_set_generate_bnodeid_parameters` (raptor_general.c:352-380),
`pfx` being the argument `prefix`: the world afterwards.  The copy of the
prefix is the C string at `pfx`. -/
def raptor_world_set_generate_bnodeid_parameters (RAPTOR_MALLOC : Int → Bool)
    (world : raptor_world) (pfx : Option (List Char)) (base : Int) : raptor_world :=
  let base := int32 (base - 1)
  let base := if base < 0 then 0 else base
  match pfx with
  | some p =>
    let length := strlen p
    if !RAPTOR_MALLOC (length + 1) then world
    else
      { world with
        default_generate_bnodeid_handler_prefix := some (c_str p),
        default_generate_bnodeid_handler_prefix_length := length,
        default_generate_bnodeid_handler_base := base }
  | none =>
    { world with
      default_generate_bnodeid_handler_prefix := none,
      default_generate_bnodeid_handler_prefix_length := 0,
      default_generate_bnodeid_handler_base := base }

/-- The world after `n` calls of `raptor_world_generate_bnodeid`. -/
def after_bnodeids (RAPTOR_MALLOC : Int → Bool) : Nat → raptor_world → raptor_world
  | 0, world => world
  | n + 1, world =>
    after_bnodeids RAPTOR_MALLOC n (raptor_world_generate_bnodeid RAPTOR_MALLOC world).2

/-- A world as `raptor_new_world` makes it, all fields zero: no handler of
the user, no prefix, counter 0. -/
def sample_world : raptor_world :=
  { generate_bnodeid_handler := none,
    default_generate_bnodeid_handler_base := 0,
    default_generate_bnodeid_handler_prefix := none,
    default_generate_bnodeid_handler_prefix_length := 0 }

/-- The prefix that the default handler puts in front of the number. -/
def bnodeid_prefix_chars (world : raptor_world) : List Char :=
  match world.default_generate_bnodeid_handler_prefix with
  | some pfx => pfx.take world.default_generate_bnodeid_handler_prefix_length
  | none => "genid".toList

/-- The prefix length that the default handler adds to `length`. -/
def bnodeid_prefix_length (world : raptor_world) : Nat :=
  match world.default_generate_bnodeid_handler_prefix with
  | some _ => world.default_generate_bnodeid_handler_prefix_length
  | none => 5

/-- The stored prefix length is the length of the stored prefix, as
`raptor_world_set_generate_bnodeid_parameters` leaves them. -/
def prefix_length_stored (world : raptor_world) : Prop :=
  ∀ p, world.default_generate_bnodeid_handler_prefix = some p →
    p.length = world.default_generate_bnodeid_handler_prefix_length

/-! ## Properties of the recognition scorer -/

theorem c_str_no_nul (p : List Char) : ∀ c ∈ c_str p, c ≠ NUL := by
  intro c hc
  have h := List.mem_takeWhile_imp hc
  simpa using h

theorem nul_toNat : NUL.toNat = 0 := by decide

theorem char_toNat_ne_zero {c : Char} (h : c ≠ NUL) : (c.toNat : Int) ≠ 0 := by
  intro h0
  apply h
  apply Char.ext
  apply UInt32.ext
  have h1 : c.toNat = 0 := by exact_mod_cast h0
  simpa [Char.toNat, NUL] using h1

theorem strcmp_chars_eq_zero_iff (a b : List Char) (ha : ∀ c ∈ a, c ≠ NUL)
    (hb : ∀ c ∈ b, c ≠ NUL) : strcmp_chars a b = 0 ↔ a = b := by
  induction a generalizing b with
  | nil =>
    cases b with
    | nil => simp [strcmp_chars]
    | cons y ys =>
      have hy := char_toNat_ne_zero (hb y (List.mem_cons_self _ _))
      simp [strcmp_chars, hy]
  | cons x xs ih =>
    cases b with
    | nil =>
      have hx := char_toNat_ne_zero (ha x (List.mem_cons_self _ _))
      simp [strcmp_chars, hx]
    | cons y ys =>
      by_cases hxy : x = y
      · subst hxy
        have := ih ys (fun c hc => ha c (List.mem_cons_of_mem _ hc))
          (fun c hc => hb c (List.mem_cons_of_mem _ hc))
        simp [strcmp_chars, this]
      · have hne : (x.toNat : Int) - (y.toNat : Int) ≠ 0 := by
          intro h
          apply hxy
          apply Char.ext
          apply UInt32.ext
          have h1 : x.toNat = y.toNat := by omega
          simpa [Char.toNat] using h1
        simp [strcmp_chars, hxy, hne]

theorem strcmp_eq_zero_iff (s1 s2 : List Char) : strcmp s1 s2 = 0 ↔ c_str s1 = c_str s2 :=
  strcmp_chars_eq_zero_iff _ _ (c_str_no_nul s1) (c_str_no_nul s2)

theorem strstr_chars_isSome_iff (h n : List Char) :
    (strstr_chars h n).isSome = true ↔ n <:+: h := by
  induction h with
  | nil =>
    by_cases hn : n = []
    · simp [strstr_chars, hn]
    · simp [strstr_chars, hn]
  | cons x xs ih =>
    by_cases hp : n.isPrefixOf (x :: xs) = true
    · have hp2 : n <+: x :: xs := List.isPrefixOf_iff_prefix.mp hp
      simp [strstr_chars, hp, hp2.isInfix]
    · have hp2 : ¬ n <+: x :: xs := fun h => hp (List.isPrefixOf_iff_prefix.mpr h)
      simp only [strstr_chars, hp, if_false, Bool.false_eq_true, ih]
      rw [List.infix_cons_iff]
      simp [hp2]

theorem c_str_literal_xhtml : c_str "xhtml".toList = "xhtml".toList := by decide

theorem c_str_literal_html : c_str "html".toList = "html".toList := by decide

theorem strstr_isSome_iff (h : List Char) :
    (strstr h "xhtml".toList).isSome = true ↔ "xhtml".toList <:+: c_str h := by
  unfold strstr
  rw [c_str_literal_xhtml]
  exact strstr_chars_isSome_iff _ _

/-- C1: for every buffer, length, identifier, suffix and mime type the scorer
returns the suffix part (7 for `xhtml`, 2 for `html`, else 0) plus the
identifier part (5 when the identifier is present and contains `xhtml`, else
0); the result does not depend on the buffer, its length or the mime type;
suffix `xhtml` with an identifier containing `xhtml` gives 12, suffix `html`
with an identifier without `xhtml` (or none) gives 2, and neither suffix nor
identifier gives 0. -/
theorem recognise_syntax_score (buffer : List Nat) (len : Nat)
    (identifier suffix mime_type : Option (List Char)) :
    raptor_xslt_parse_recognise_syntax buffer len identifier suffix mime_type
        = spec_score identifier suffix
    ∧ (∀ (buffer2 : List Nat) (len2 : Nat) (mime_type2 : Option (List Char)),
        raptor_xslt_parse_recognise_syntax buffer2 len2 identifier suffix mime_type2
          = raptor_xslt_parse_recognise_syntax buffer len identifier suffix mime_type)
    ∧ (∀ ident : List Char, "xhtml".toList <:+: c_str ident →
        raptor_xslt_parse_recognise_syntax buffer len (some ident)
          (some "xhtml".toList) mime_type = 12)
    ∧ (∀ ident : List Char, ¬ "xhtml".toList <:+: c_str ident →
        raptor_xslt_parse_recognise_syntax buffer len (some ident)
          (some "html".toList) mime_type = 2)
    ∧ raptor_xslt_parse_recognise_syntax buffer len none (some "html".toList) mime_type = 2
    ∧ raptor_xslt_parse_recognise_syntax buffer len none none mime_type = 0 := by
  have key : ∀ (b : List Nat) (l : Nat) (i sfx m : Option (List Char)),
      raptor_xslt_parse_recognise_syntax b l i sfx m = spec_score i sfx := by
    intro b l i sfx m
    have hne : ¬ ("xhtml".toList = "html".toList) := by decide
    unfold raptor_xslt_parse_recognise_syntax spec_score
    cases sfx <;> cases i <;>
      simp only [strcmp_eq_zero_iff, strstr_isSome_iff, c_str_literal_xhtml,
        c_str_literal_html, Option.map, Option.some.injEq] <;>
      split_ifs <;>
      first
        | rfl
        | (exfalso; apply hne; simp_all)
  refine ⟨key _ _ _ _ _, ?_, ?_, ?_, ?_, ?_⟩
  · intro b2 l2 m2
    rw [key, key]
  · intro ident h
    rw [key]
    unfold spec_score
    simp only [Option.map, c_str_literal_xhtml, if_pos h, if_true]
    rfl
  · intro ident h
    rw [key]
    have hne : ¬ (some "html".toList = some "xhtml".toList) := by decide
    unfold spec_score
    simp only [Option.map, c_str_literal_html, if_neg h, if_neg hne, if_true]
    rfl
  · rw [key]
    have hne : ¬ (some "html".toList = some "xhtml".toList) := by decide
    unfold spec_score
    simp only [Option.map, c_str_literal_html, if_neg hne, if_true]
    rfl
  · rw [key]
    rfl

/-- C1 at concrete inputs: suffix `xhtml` and identifier `a.xhtml` give 12,
suffix `html` and identifier `a.html` give 2. -/
theorem recognise_syntax_score_witness :
    raptor_xslt_parse_recognise_syntax [60, 104] 2 (some "a.xhtml".toList)
        (some "xhtml".toList) (some "text/html".toList) = 12
    ∧ raptor_xslt_parse_recognise_syntax [60, 104] 2 (some "a.html".toList)
        (some "html".toList) none = 2 :=
  ⟨(recognise_syntax_score [60, 104] 2 (some "a.xhtml".toList) (some "xhtml".toList)
      (some "text/html".toList)).2.2.1 "a.xhtml".toList (by decide),
   (recognise_syntax_score [60, 104] 2 (some "a.html".toList) (some "html".toList)
      none).2.2.2.1 "a.html".toList (by decide)⟩

/-! ## How the log grows -/

theorem LogExt.refl (P : Event → Prop) (l : Log) : LogExt P l l :=
  ⟨[], by simp, by simp⟩

theorem LogExt.snoc {P : Event → Prop} {l1 l2 : Log} (h : LogExt P l1 l2)
    {e : Event} (he : P e) : LogExt P l1 (l2 ++ [e]) := by
  obtain ⟨d, rfl, hd⟩ := h
  refine ⟨d ++ [e], by simp, ?_⟩
  intro x hx
  rcases List.mem_append.mp hx with hx | hx
  · exact hd x hx
  · rw [List.mem_singleton.mp hx]
    exact he

theorem LogExt.trans {P : Event → Prop} {l1 l2 l3 : Log} (h12 : LogExt P l1 l2)
    (h23 : LogExt P l2 l3) : LogExt P l1 l3 := by
  obtain ⟨d, rfl, hd⟩ := h12
  obtain ⟨d2, rfl, hd2⟩ := h23
  refine ⟨d ++ d2, by simp, ?_⟩
  intro x hx
  rcases List.mem_append.mp hx with hx | hx
  · exact hd x hx
  · exact hd2 x hx

theorem LogExt.mono {P Q : Event → Prop} {l1 l2 : Log} (hPQ : ∀ e, P e → Q e)
    (h : LogExt P l1 l2) : LogExt Q l1 l2 := by
  obtain ⟨d, rfl, hd⟩ := h
  exact ⟨d, rfl, fun e he => hPQ e (hd e he)⟩

theorem LogExt.single (P : Event → Prop) (l : Log) {e : Event} (he : P e) :
    LogExt P l (l ++ [e]) :=
  (LogExt.refl P l).snoc he

theorem transform_doc_ext (env : Env) (rdfp : raptor_parser_s) (xslt_uri : Option String)
    (xslt_doc : Option xmlDoc) (doc : xmlDoc) (log : Log) :
    LogExt (TaskEvent env rdfp.base_uri) log
      (raptor_xslt_run_grddl_transform_doc env rdfp xslt_uri xslt_doc doc log).2 := by
  unfold raptor_xslt_run_grddl_transform_doc
  simp only []
  cases h1 : env.xsltParseStylesheetDoc log xslt_doc with
  | none => exact ((LogExt.refl _ _).snoc (by simp [TaskEvent])).snoc (by simp [TaskEvent])
  | some sheet =>
    simp only []
    cases h2 : env.xsltApplyStylesheet (log ++ [Event.xsltParseStylesheetDoc xslt_doc])
        sheet doc with
    | none =>
      exact (((LogExt.refl _ _).snoc (by simp [TaskEvent])).snoc
        (by simp [TaskEvent])).snoc (by simp [TaskEvent])
    | some res =>
      simp only []
      have h3pre : LogExt (TaskEvent env rdfp.base_uri) log
          (log ++ [Event.xsltParseStylesheetDoc xslt_doc] ++
            [Event.xsltApplyStylesheet sheet doc] ++
            [Event.xsltSaveResultToString res sheet]) :=
        (((LogExt.refl _ _).snoc (by simp [TaskEvent])).snoc
          (by simp [TaskEvent])).snoc (by simp [TaskEvent])
      cases h3 : env.xsltSaveResultToString
          (log ++ [Event.xsltParseStylesheetDoc xslt_doc] ++
            [Event.xsltApplyStylesheet sheet doc]) res sheet with
      | none =>
        simp only [Option.isNone_none, Bool.true_or, if_true]
        exact h3pre.snoc (by simp [TaskEvent])
      | some buffer =>
        by_cases hb : buffer = []
        · simp only [hb, Option.isNone_some, Option.getD_some, List.length_nil,
            decide_True, Bool.or_true, if_true]
          exact h3pre.snoc (by simp [TaskEvent])
        · have hlen : ¬ buffer.length = 0 := fun h => hb (List.length_eq_zero.mp h)
          simp only [Option.isNone_some, Option.getD_some, hlen, decide_False,
            Bool.or_self, Bool.false_eq_true, if_false]
          refine (h3pre.snoc ?_).snoc ?_
          · exact ⟨rfl, _, _, _, _, h3, hb⟩
          · exact ⟨rfl, rfl, hb, _, _, _, h3⟩

theorem uri_parse_bytes_ext (env : Env) (base_uri www_uri : Option String)
    (ctxt_ptr : Option xmlParserCtxt) (ptr : List Nat) (log : Log) :
    LogExt (TaskEvent env base_uri) log
      (raptor_xslt_uri_parse_bytes env www_uri ctxt_ptr ptr log).2.2 := by
  unfold raptor_xslt_uri_parse_bytes
  cases ctxt_ptr with
  | none =>
    simp only []
    split <;> split <;>
      first
        | exact ((LogExt.refl _ _).snoc (by simp [TaskEvent])).snoc (by simp [TaskEvent])
        | exact (LogExt.refl _ _).snoc (by simp [TaskEvent])
  | some c =>
    simp only []
    split
    · exact ((LogExt.refl _ _).snoc (by simp [TaskEvent])).snoc (by simp [TaskEvent])
    · exact (LogExt.refl _ _).snoc (by simp [TaskEvent])

theorem www_deliver_ext (env : Env) (base_uri www_uri : Option String)
    (blocks : List (List Nat)) (ctxt_ptr : Option xmlParserCtxt) (log : Log) :
    LogExt (TaskEvent env base_uri) log (www_deliver env www_uri blocks ctxt_ptr log).2.2 := by
  induction blocks generalizing ctxt_ptr log with
  | nil => exact LogExt.refl _ _
  | cons ptr rest ih =>
    unfold www_deliver
    simp only []
    split
    · exact uri_parse_bytes_ext env base_uri www_uri ctxt_ptr ptr log
    · exact (uri_parse_bytes_ext env base_uri www_uri ctxt_ptr ptr log).trans (ih _ _)

theorem www_fetch_ext (env : Env) (base_uri uri : Option String)
    (ctxt_ptr : Option xmlParserCtxt) (log : Log) :
    LogExt (TaskEvent env base_uri) log (raptor_www_fetch env uri ctxt_ptr log).2.2 := by
  unfold raptor_www_fetch
  exact (LogExt.single _ _ (by simp [TaskEvent])).trans (www_deliver_ext _ _ _ _ _ _)

theorem transform_uri_ext (env : Env) (rdfp : raptor_parser_s) (xslt_uri : Option String)
    (doc : xmlDoc) (log : Log) :
    LogExt (TaskEvent env rdfp.base_uri) log
      (raptor_xslt_run_grddl_transform_uri env rdfp xslt_uri doc log).log := by
  unfold raptor_xslt_run_grddl_transform_uri
  simp only []
  have hf := www_fetch_ext env rdfp.base_uri xslt_uri none log
  split
  · exact hf
  · have hf2 := hf.snoc (e := Event.xmlParseChunk CtxtOwner.sheet [] 1) (by simp [TaskEvent])
    split
    · exact hf2
    · exact hf2.trans (transform_doc_ext _ _ _ _ _ _)

theorem filterMap_none_of_forall {β : Type} (f : Event → Option β) (d : Log)
    (h : ∀ e ∈ d, f e = none) : d.filterMap f = [] := by
  induction d with
  | nil => rfl
  | cons e rest ih =>
    have he := h e (List.mem_cons_self _ _)
    rw [List.filterMap_cons, he]
    exact ih (fun x hx => h x (List.mem_cons_of_mem _ hx))

theorem taskEvent_rule {env : Env} (base_uri : Option String) (e : Event) (h : TaskEvent env base_uri e) :
    e.rule? = none := by
  cases e <;> simp_all [TaskEvent, Event.rule?]

theorem bodyEvent_loopEvent {env : Env} (base_uri : Option String) (expri : Nat) (e : Event)
    (h : BodyEvent env base_uri expri e) : LoopEvent env base_uri expri e := by
  rcases h with h | ⟨u, rfl⟩ | h
  · exact Or.inl h
  · exact Or.inr (Or.inl ⟨expri, rfl, le_refl _⟩)
  · exact Or.inr (Or.inr (Or.inl h))

theorem loopEvent_succ {env : Env} (base_uri : Option String) (expri : Nat) (e : Event)
    (h : LoopEvent env base_uri (expri + 1) e) : LoopEvent env base_uri expri e := by
  rcases h with h | ⟨k, hk, hle⟩ | h
  · exact Or.inl h
  · exact Or.inr (Or.inl ⟨k, hk, by omega⟩)
  · exact Or.inr (Or.inr h)

theorem xpath_evals_append (l1 l2 : Log) :
    xpath_evals (l1 ++ l2) = xpath_evals l1 ++ xpath_evals l2 := by
  simp [xpath_evals]

theorem matches_of_append (i : Nat) (l1 l2 : Log) :
    matches_of i (l1 ++ l2) = matches_of i l1 ++ matches_of i l2 := by
  simp [matches_of]

theorem tasks_of_append (i : Nat) (l1 l2 : Log) :
    tasks_of i (l1 ++ l2) = tasks_of i l1 ++ tasks_of i l2 := by
  simp [tasks_of]

theorem tasks_append (l1 l2 : Log) : tasks (l1 ++ l2) = tasks l1 ++ tasks l2 := by
  simp [tasks]

theorem document_feeds_append (l1 l2 : Log) :
    document_feeds (l1 ++ l2) = document_feeds l1 ++ document_feeds l2 := by
  simp [document_feeds]

theorem rdfxml_calls_append (l1 l2 : Log) :
    rdfxml_calls (l1 ++ l2) = rdfxml_calls l1 ++ rdfxml_calls l2 := by
  simp [rdfxml_calls]

theorem unexpected_node_reports_append (l1 l2 : Log) :
    unexpected_node_reports (l1 ++ l2)
      = unexpected_node_reports l1 + unexpected_node_reports l2 := by
  simp [unexpected_node_reports]

theorem xpath_evals_task {env : Env} (base_uri : Option String) (d : Log)
    (h : ∀ e ∈ d, TaskEvent env base_uri e) : xpath_evals d = [] := by
  apply filterMap_none_of_forall
  intro e he
  have := h e he
  cases e <;> simp_all [TaskEvent]

theorem matches_of_task {env : Env} (base_uri : Option String) (i : Nat) (d : Log)
    (h : ∀ e ∈ d, TaskEvent env base_uri e) : matches_of i d = [] := by
  apply filterMap_none_of_forall
  intro e he
  have := h e he
  cases e <;> simp_all [TaskEvent]

theorem tasks_of_task {env : Env} (base_uri : Option String) (i : Nat) (d : Log)
    (h : ∀ e ∈ d, TaskEvent env base_uri e) : tasks_of i d = [] := by
  apply filterMap_none_of_forall
  intro e he
  have := h e he
  cases e <;> simp_all [TaskEvent]

theorem tasks_task {env : Env} (base_uri : Option String) (d : Log)
    (h : ∀ e ∈ d, TaskEvent env base_uri e) : tasks d = [] := by
  apply filterMap_none_of_forall
  intro e he
  have := h e he
  cases e <;> simp_all [TaskEvent]

theorem document_feeds_task {env : Env} (base_uri : Option String) (d : Log)
    (h : ∀ e ∈ d, TaskEvent env base_uri e) : document_feeds d = [] := by
  apply filterMap_none_of_forall
  intro e he
  have := h e he
  cases e <;> simp_all [TaskEvent]

theorem unexpected_node_reports_task {env : Env} (base_uri : Option String) (d : Log)
    (h : ∀ e ∈ d, TaskEvent env base_uri e) : unexpected_node_reports d = 0 := by
  unfold unexpected_node_reports
  rw [List.length_eq_zero, List.filter_eq_nil_iff]
  intro e he
  have := h e he
  cases e <;> simp_all [TaskEvent]
  rcases this with h1 | h1 <;> simp [h1]

/-! ## The loop over the matched nodes -/

theorem exec_ret_log {α : Type} {x : Exec α} {v : α} {l : Log} (h : x = Exec.ret v l) :
    x.log = l := by
  rw [h]; rfl

theorem node_loop_cons_skip (env : Env) (rdfp : raptor_parser_s) (doc : xmlDoc)
    (expri : Nat) (node : xmlNode) (rest : List xmlNode) (ret : Int) (log : Log)
    (hty : node.type ≠ XML_ATTRIBUTE_NODE) :
    grddl_node_loop env rdfp doc expri (node :: rest) ret log
      = grddl_node_loop env rdfp doc expri rest ret
          (log ++ [Event.raptor_parser_error "Got unexpected node type %d"]) := by
  rw [grddl_node_loop]
  simp only [hty, ne_eq, not_false_eq_true, if_true]

theorem node_loop_cons_fault (env : Env) (rdfp : raptor_parser_s) (doc : xmlDoc)
    (expri : Nat) (node : xmlNode) (rest : List xmlNode) (ret : Int) (log : Log)
    (hty : node.type = XML_ATTRIBUTE_NODE) (hch : node.children = none) :
    grddl_node_loop env rdfp doc expri (node :: rest) ret log = Exec.fault log := by
  rw [grddl_node_loop]
  simp only [hty, ne_eq, not_true_eq_false, if_false, hch]

theorem node_loop_cons_attr (env : Env) (rdfp : raptor_parser_s) (doc : xmlDoc)
    (expri : Nat) (node : xmlNode) (rest : List xmlNode) (ret : Int) (log : Log)
    (hty : node.type = XML_ATTRIBUTE_NODE) (child : xmlNodeChild)
    (hch : node.children = some child) :
    grddl_node_loop env rdfp doc expri (node :: rest) ret log
      = match raptor_xslt_run_grddl_transform_uri env rdfp
            (node_sheet_uri env rdfp doc node) doc
            (log ++ [Event.grddl_transform expri (node_sheet_uri env rdfp doc node)]) with
        | Exec.fault l => Exec.fault l
        | Exec.ret r l => grddl_node_loop env rdfp doc expri rest r l := by
  have huri : env.raptor_new_uri_relative_to_base
      (match env.xmlNodeGetBase doc node with
        | some b => env.raptor_new_uri b
        | none =>
          match rdfp.base_uri with
          | some b => some b
          | none => none) child.content = node_sheet_uri env rdfp doc node := by
    unfold node_sheet_uri
    rw [hch]
    cases env.xmlNodeGetBase doc node <;> cases rdfp.base_uri <;> rfl
  rw [grddl_node_loop]
  simp only [hty, ne_eq, not_true_eq_false, if_false, hch, huri]

theorem node_loop_ext (env : Env) (rdfp : raptor_parser_s) (doc : xmlDoc) (expri : Nat)
    (nodes : List xmlNode) (ret : Int) (log : Log) :
    LogExt (BodyEvent env rdfp.base_uri expri) log
      (grddl_node_loop env rdfp doc expri nodes ret log).log := by
  induction nodes generalizing ret log with
  | nil => exact LogExt.refl _ _
  | cons node rest ih =>
    by_cases hty : node.type = XML_ATTRIBUTE_NODE
    · cases hch : node.children with
      | none =>
        rw [node_loop_cons_fault env rdfp doc expri node rest ret log hty hch]
        exact LogExt.refl _ _
      | some child =>
        rw [node_loop_cons_attr env rdfp doc expri node rest ret log hty child hch]
        have h1 : LogExt (BodyEvent env rdfp.base_uri expri) log
            (log ++ [Event.grddl_transform expri (node_sheet_uri env rdfp doc node)]) :=
          LogExt.single _ log (Or.inr (Or.inl ⟨_, rfl⟩))
        have h2 := (transform_uri_ext env rdfp (node_sheet_uri env rdfp doc node) doc
          (log ++ [Event.grddl_transform expri (node_sheet_uri env rdfp doc node)])).mono
          (fun e he => (Or.inl he : BodyEvent env rdfp.base_uri expri e))
        cases ht : raptor_xslt_run_grddl_transform_uri env rdfp
            (node_sheet_uri env rdfp doc node) doc
            (log ++ [Event.grddl_transform expri (node_sheet_uri env rdfp doc node)]) with
        | fault l =>
          rw [ht] at h2
          exact h1.trans h2
        | ret r l =>
          rw [ht] at h2
          exact (h1.trans h2).trans (ih _ _)
    · rw [node_loop_cons_skip env rdfp doc expri node rest ret log hty]
      exact (LogExt.single _ _ (Or.inr (Or.inr rfl))).trans (ih _ _)

theorem node_loop_spec (env : Env) (rdfp : raptor_parser_s) (doc : xmlDoc) (expri : Nat)
    (htr : TasksReturn env) (nodes : List xmlNode) (hn : NodesReadable nodes)
    (ret : Int) (log : Log) :
    ∃ r d, grddl_node_loop env rdfp doc expri nodes ret log = Exec.ret r (log ++ d)
      ∧ (∀ e ∈ d, BodyEvent env rdfp.base_uri expri e)
      ∧ tasks_of expri d = (attribute_nodes nodes).map (node_sheet_uri env rdfp doc)
      ∧ unexpected_node_reports d + (attribute_nodes nodes).length = nodes.length := by
  induction nodes generalizing ret log with
  | nil =>
    exact ⟨ret, [], by simp [grddl_node_loop], by simp, by simp [tasks_of, attribute_nodes],
      by simp [unexpected_node_reports, attribute_nodes]⟩
  | cons node rest ih =>
    have hrest : NodesReadable rest := fun n hn2 => hn n (List.mem_cons_of_mem _ hn2)
    by_cases hty : node.type = XML_ATTRIBUTE_NODE
    · have hch := hn node (List.mem_cons_self _ _) hty
      obtain ⟨child, hchild⟩ := Option.isSome_iff_exists.mp hch
      obtain ⟨r1, l1, h1⟩ := htr rdfp (node_sheet_uri env rdfp doc node) doc
        (log ++ [Event.grddl_transform expri (node_sheet_uri env rdfp doc node)])
      have hext := transform_uri_ext env rdfp (node_sheet_uri env rdfp doc node) doc
        (log ++ [Event.grddl_transform expri (node_sheet_uri env rdfp doc node)])
      rw [exec_ret_log h1] at hext
      obtain ⟨dt, rfl, hdt⟩ := hext
      obtain ⟨r, d, hrun, hd, htasks, hcount⟩ := ih hrest r1
        (log ++ [Event.grddl_transform expri (node_sheet_uri env rdfp doc node)] ++ dt)
      refine ⟨r, [Event.grddl_transform expri (node_sheet_uri env rdfp doc node)] ++ dt ++ d,
        ?_, ?_, ?_, ?_⟩
      · rw [node_loop_cons_attr env rdfp doc expri node rest ret log hty child hchild, h1]
        simp only []
        rw [hrun]
        simp
      · intro e he
        simp only [List.mem_append, List.mem_singleton] at he
        rcases he with (rfl | he) | he
        · exact Or.inr (Or.inl ⟨_, rfl⟩)
        · exact Or.inl (hdt e he)
        · exact hd e he
      · rw [tasks_of_append, tasks_of_append, htasks, tasks_of_task _ _ _ hdt]
        simp [tasks_of, attribute_nodes, hty]
      · rw [unexpected_node_reports_append, unexpected_node_reports_append,
          unexpected_node_reports_task _ _ hdt]
        simp only [attribute_nodes] at hcount ⊢
        simp [unexpected_node_reports, hty]
        simp [unexpected_node_reports] at hcount
        omega
    · obtain ⟨r, d, hrun, hd, htasks, hcount⟩ := ih hrest ret
        (log ++ [Event.raptor_parser_error "Got unexpected node type %d"])
      refine ⟨r, [Event.raptor_parser_error "Got unexpected node type %d"] ++ d,
        ?_, ?_, ?_, ?_⟩
      · rw [node_loop_cons_skip env rdfp doc expri node rest ret log hty, hrun]
        simp
      · intro e he
        simp only [List.mem_append, List.mem_singleton] at he
        rcases he with rfl | he
        · exact Or.inr (Or.inr rfl)
        · exact hd e he
      · rw [tasks_of_append, htasks]
        simp [tasks_of, attribute_nodes, hty]
      · rw [unexpected_node_reports_append]
        simp only [attribute_nodes] at hcount ⊢
        simp [unexpected_node_reports, hty]
        simp [unexpected_node_reports] at hcount
        omega

/-! ## The loop over the rules -/

theorem rule_matched_ext (env : Env) (rdfp : raptor_parser_s) (doc : xmlDoc) (expri : Nat)
    (entry : match_entry) (nodes : List xmlNode) (ret : Int) (log : Log) :
    LogExt (BodyEvent env rdfp.base_uri expri) log
      (grddl_rule_matched env rdfp doc expri entry nodes ret log).log := by
  unfold grddl_rule_matched
  split
  · exact (LogExt.single _ log (Or.inr (Or.inl ⟨_, rfl⟩))).trans
      ((transform_uri_ext env rdfp _ doc _).mono
        (fun e he => (Or.inl he : BodyEvent env rdfp.base_uri expri e)))
  · exact node_loop_ext env rdfp doc expri nodes ret log

theorem matches_of_body {env : Env} (base_uri : Option String) (i k : Nat) (d : Log)
    (h : ∀ e ∈ d, BodyEvent env base_uri k e) : matches_of i d = [] := by
  apply filterMap_none_of_forall
  intro e he
  rcases h e he with h1 | ⟨u, rfl⟩ | rfl
  · cases e <;> simp_all [TaskEvent]
  · rfl
  · rfl

theorem xpath_evals_body {env : Env} (base_uri : Option String) (k : Nat) (d : Log)
    (h : ∀ e ∈ d, BodyEvent env base_uri k e) : xpath_evals d = [] := by
  apply filterMap_none_of_forall
  intro e he
  rcases h e he with h1 | ⟨u, rfl⟩ | rfl
  · cases e <;> simp_all [TaskEvent]
  · rfl
  · rfl

theorem tasks_of_body_ne {env : Env} (base_uri : Option String) (i k : Nat) (hik : k ≠ i) (d : Log)
    (h : ∀ e ∈ d, BodyEvent env base_uri k e) : tasks_of i d = [] := by
  apply filterMap_none_of_forall
  intro e he
  rcases h e he with h1 | ⟨u, rfl⟩ | rfl
  · cases e <;> simp_all [TaskEvent]
  · simp [hik]
  · rfl

theorem document_feeds_body {env : Env} (base_uri : Option String) (k : Nat) (d : Log)
    (h : ∀ e ∈ d, BodyEvent env base_uri k e) : document_feeds d = [] := by
  apply filterMap_none_of_forall
  intro e he
  rcases h e he with h1 | ⟨u, rfl⟩ | rfl
  · cases e <;> simp_all [TaskEvent]
  · rfl
  · rfl

theorem rule_loop_end (env : Env) (rdfp : raptor_parser_s) (doc : xmlDoc)
    (entry : match_entry) (table : List match_entry) (expri : Nat) (ret : Int)
    (obj : Option xmlXPathObject) (log : Log) (hx : entry.xpath = none) :
    grddl_rule_loop env rdfp doc (entry :: table) expri ret obj log
      = Exec.ret (LoopExit.done ret obj) log := by
  rw [grddl_rule_loop]
  simp only [hx]

theorem rule_loop_eval_failed (env : Env) (rdfp : raptor_parser_s) (doc : xmlDoc)
    (entry : match_entry) (table : List match_entry) (expri : Nat) (ret : Int)
    (obj : Option xmlXPathObject) (log : Log) (x : String) (hx : entry.xpath = some x)
    (he : env.xmlXPathEvalExpression log x doc = none) :
    grddl_rule_loop env rdfp doc (entry :: table) expri ret obj log
      = Exec.ret (LoopExit.returned 1 none)
          (log ++ [Event.xmlXPathEvalExpression expri x none] ++
            [Event.raptor_parser_error "Unable to evaluate XPath expression \"%s\""]) := by
  rw [grddl_rule_loop]
  simp only [hx, he]

theorem rule_loop_no_match (env : Env) (rdfp : raptor_parser_s) (doc : xmlDoc)
    (entry : match_entry) (table : List match_entry) (expri : Nat) (ret : Int)
    (obj : Option xmlXPathObject) (log : Log) (x : String) (hx : entry.xpath = some x)
    (o : xmlXPathObject) (he : env.xmlXPathEvalExpression log x doc = some o)
    (hempty : xmlXPathNodeSetIsEmpty o.nodesetval = true) :
    grddl_rule_loop env rdfp doc (entry :: table) expri ret obj log
      = grddl_rule_loop env rdfp doc table (expri + 1) ret (some o)
          (log ++ [Event.xmlXPathEvalExpression expri x (some o)]) := by
  rw [grddl_rule_loop]
  simp only [hx, he, hempty, Bool.or_true, if_true]

theorem rule_loop_match (env : Env) (rdfp : raptor_parser_s) (doc : xmlDoc)
    (entry : match_entry) (table : List match_entry) (expri : Nat) (ret : Int)
    (obj : Option xmlXPathObject) (log : Log) (x : String) (hx : entry.xpath = some x)
    (o : xmlXPathObject) (he : env.xmlXPathEvalExpression log x doc = some o)
    (hempty : xmlXPathNodeSetIsEmpty o.nodesetval = false) :
    grddl_rule_loop env rdfp doc (entry :: table) expri ret obj log
      = match grddl_rule_matched env rdfp doc expri entry (o.nodesetval.getD []) ret
            (log ++ [Event.xmlXPathEvalExpression expri x (some o)]) with
        | Exec.fault l => Exec.fault l
        | Exec.ret r l =>
          if env.failed l || r ≠ 0 then Exec.ret (LoopExit.done r (some o)) l
          else grddl_rule_loop env rdfp doc table (expri + 1) r (some o) l := by
  have hsome : o.nodesetval.isNone = false := by
    cases hns : o.nodesetval with
    | none => rw [hns] at hempty; simp [xmlXPathNodeSetIsEmpty] at hempty
    | some t => rfl
  rw [grddl_rule_loop]
  simp only [hx, he, hempty, hsome, Bool.or_false, Bool.false_eq_true, if_false]

theorem rule_loop_ext (env : Env) (rdfp : raptor_parser_s) (doc : xmlDoc)
    (table : List match_entry) (expri : Nat) (ret : Int) (obj : Option xmlXPathObject)
    (log : Log) :
    LogExt (LoopEvent env rdfp.base_uri expri) log
      (grddl_rule_loop env rdfp doc table expri ret obj log).log := by
  induction table generalizing expri ret obj log with
  | nil => exact LogExt.refl _ _
  | cons entry table ih =>
    cases hx : entry.xpath with
    | none =>
      rw [rule_loop_end env rdfp doc entry table expri ret obj log hx]
      exact LogExt.refl _ _
    | some x =>
      have hev : LogExt (LoopEvent env rdfp.base_uri expri) log
          (log ++ [Event.xmlXPathEvalExpression expri x
            (env.xmlXPathEvalExpression log x doc)]) :=
        LogExt.single _ log (Or.inr (Or.inl ⟨expri, rfl, le_refl _⟩))
      cases he : env.xmlXPathEvalExpression log x doc with
      | none =>
        rw [rule_loop_eval_failed env rdfp doc entry table expri ret obj log x hx he]
        rw [he] at hev
        exact hev.snoc (Or.inr (Or.inr (Or.inr rfl)))
      | some o =>
        rw [he] at hev
        have hnext : ∀ r o2 l, LogExt (LoopEvent env rdfp.base_uri expri) l
            (grddl_rule_loop env rdfp doc table (expri + 1) r o2 l).log :=
          fun r o2 l => (ih (expri + 1) r o2 l).mono (loopEvent_succ _ _)
        cases hempty : xmlXPathNodeSetIsEmpty o.nodesetval with
        | true =>
          rw [rule_loop_no_match env rdfp doc entry table expri ret obj log x hx o he hempty]
          exact hev.trans (hnext _ _ _)
        | false =>
          rw [rule_loop_match env rdfp doc entry table expri ret obj log x hx o he hempty]
          have hb := (rule_matched_ext env rdfp doc expri entry (o.nodesetval.getD []) ret
            (log ++ [Event.xmlXPathEvalExpression expri x (some o)])).mono
            (bodyEvent_loopEvent _ _)
          cases hm : grddl_rule_matched env rdfp doc expri entry (o.nodesetval.getD []) ret
              (log ++ [Event.xmlXPathEvalExpression expri x (some o)]) with
          | fault l =>
            rw [hm] at hb
            exact hev.trans hb
          | ret r l =>
            rw [hm] at hb
            simp only []
            split
            · exact hev.trans hb
            · exact (hev.trans hb).trans (hnext _ _ _)

theorem matches_of_eval (i expri : Nat) (x : String) (o : xmlXPathObject) :
    matches_of i [Event.xmlXPathEvalExpression expri x (some o)]
      = if expri = i ∧ xmlXPathNodeSetIsEmpty o.nodesetval = false
        then [o.nodesetval.getD []] else [] := by
  unfold matches_of
  by_cases h : expri = i ∧ xmlXPathNodeSetIsEmpty o.nodesetval = false
  · simp only [List.filterMap_cons, List.filterMap_nil, if_pos h]
  · simp only [List.filterMap_cons, List.filterMap_nil, if_neg h]

theorem tasks_of_eval (i expri : Nat) (x : String) (o : Option xmlXPathObject) :
    tasks_of i [Event.xmlXPathEvalExpression expri x o] = [] := rfl

theorem returns_ret {α : Type} (v : α) (l : Log) : (Exec.ret v l).returns := rfl

theorem not_returns_fault {α : Type} (l : Log) : ¬ (Exec.fault l : Exec α).returns := by
  simp [Exec.returns, Exec.val?]

theorem tasks_of_loop_lt {env : Env} (base_uri : Option String) (i j : Nat) (hij : i < j)
    (d : Log) (h : ∀ e ∈ d, LoopEvent env base_uri j e) : tasks_of i d = [] := by
  apply filterMap_none_of_forall
  intro e he
  rcases h e he with h1 | ⟨k, hk, hle⟩ | rfl | rfl
  · cases e <;> simp_all [TaskEvent]
  · cases e <;> simp_all [Event.rule?]
    omega
  · rfl
  · rfl

theorem matches_of_loop_lt {env : Env} (base_uri : Option String) (i j : Nat) (hij : i < j)
    (d : Log) (h : ∀ e ∈ d, LoopEvent env base_uri j e) : matches_of i d = [] := by
  apply filterMap_none_of_forall
  intro e he
  rcases h e he with h1 | ⟨k, hk, hle⟩ | rfl | rfl
  · cases e <;> simp_all [TaskEvent]
  · cases e with
    | xmlXPathEvalExpression expri x o =>
      simp only [Event.rule?, Option.some.injEq] at hk
      subst hk
      cases o with
      | none => rfl
      | some o =>
        have : ¬ (expri = i ∧ xmlXPathNodeSetIsEmpty o.nodesetval = false) := by
          intro h; omega
        simp only [if_neg this]
    | _ => rfl
  · rfl
  · rfl

/-- The transforms started for rule `i` by the loop over a table are those of
its loop body, once for each non-empty match set of rule `i`, and rule `i` is
evaluated at most once.  With `guard`, this is said of the runs that return
only. -/
theorem rule_loop_tasks (env : Env) (rdfp : raptor_parser_s) (doc : xmlDoc) (i : Nat)
    (R : List xmlNode → Prop) (T : List xmlNode → List (Option String)) (guard : Prop)
    (hR : ∀ l x o, env.xmlXPathEvalExpression l x doc = some o → R (o.nodesetval.getD []))
    (table : List match_entry) (j : Nat)
    (hbody : ∀ entry, j ≤ i → table[i - j]? = some entry →
      ∀ nodes ret l, R nodes →
        ∃ d, (grddl_rule_matched env rdfp doc i entry nodes ret l).log = l ++ d
          ∧ ((guard → (grddl_rule_matched env rdfp doc i entry nodes ret l).returns) →
              tasks_of i d = T nodes))
    (ret : Int) (obj : Option xmlXPathObject) (log : Log) :
    ∃ d, (grddl_rule_loop env rdfp doc table j ret obj log).log = log ++ d
      ∧ ((guard → (grddl_rule_loop env rdfp doc table j ret obj log).returns) →
          tasks_of i d = (matches_of i d).flatMap T)
      ∧ (matches_of i d).length ≤ 1 := by
  induction table generalizing j ret obj log with
  | nil => exact ⟨[], by simp [grddl_rule_loop, Exec.log], fun _ => rfl, by simp [matches_of]⟩
  | cons entry table ih =>
    have hnext : ∀ r o2 l, ∃ d, (grddl_rule_loop env rdfp doc table (j + 1) r o2 l).log = l ++ d
        ∧ ((guard → (grddl_rule_loop env rdfp doc table (j + 1) r o2 l).returns) →
            tasks_of i d = (matches_of i d).flatMap T)
        ∧ (matches_of i d).length ≤ 1
        ∧ (i < j + 1 → matches_of i d = [] ∧ tasks_of i d = []) := by
      intro r o2 l
      obtain ⟨d, hd, ht, hlen⟩ := ih (j + 1)
        (by
          intro entry2 hle hget
          apply hbody entry2 (by omega)
          have hidx : i - j = (i - (j + 1)) + 1 := by omega
          rw [hidx, List.getElem?_cons_succ]
          exact hget) r o2 l
      obtain ⟨d2, hd2, hev⟩ := rule_loop_ext env rdfp doc table (j + 1) r o2 l
      have hdd : d2 = d := List.append_cancel_left (hd2.symm.trans hd)
      subst hdd
      exact ⟨d2, hd, ht, hlen, fun hlt =>
        ⟨matches_of_loop_lt _ i (j + 1) hlt d2 hev, tasks_of_loop_lt _ i (j + 1) hlt d2 hev⟩⟩
    cases hx : entry.xpath with
    | none =>
      rw [rule_loop_end env rdfp doc entry table j ret obj log hx]
      exact ⟨[], by simp [Exec.log], fun _ => rfl, by simp [matches_of]⟩
    | some x =>
      cases he : env.xmlXPathEvalExpression log x doc with
      | none =>
        rw [rule_loop_eval_failed env rdfp doc entry table j ret obj log x hx he]
        exact ⟨[Event.xmlXPathEvalExpression j x none] ++
          [Event.raptor_parser_error "Unable to evaluate XPath expression \"%s\""],
          by simp [Exec.log], fun _ => rfl, by simp [matches_of]⟩
      | some o =>
        cases hempty : xmlXPathNodeSetIsEmpty o.nodesetval with
        | true =>
          rw [rule_loop_no_match env rdfp doc entry table j ret obj log x hx o he hempty]
          obtain ⟨d, hd, ht, hlen, hlt⟩ := hnext ret (some o)
            (log ++ [Event.xmlXPathEvalExpression j x (some o)])
          have hm0 : matches_of i [Event.xmlXPathEvalExpression j x (some o)] = [] := by
            rw [matches_of_eval]
            simp [hempty]
          refine ⟨[Event.xmlXPathEvalExpression j x (some o)] ++ d, ?_, ?_, ?_⟩
          · rw [hd]; simp
          · intro hg
            rw [tasks_of_append, matches_of_append, hm0, tasks_of_eval, ht hg]
            simp
          · rw [matches_of_append, hm0]
            simpa using hlen
        | false =>
          rw [rule_loop_match env rdfp doc entry table j ret obj log x hx o he hempty]
          have hb := rule_matched_ext env rdfp doc j entry (o.nodesetval.getD []) ret
            (log ++ [Event.xmlXPathEvalExpression j x (some o)])
          obtain ⟨db, hdb, hbody_ev⟩ := hb
          have hmb : matches_of i db = [] := matches_of_body _ i j db hbody_ev
          have hm1 : matches_of i [Event.xmlXPathEvalExpression j x (some o)]
              = if j = i then [o.nodesetval.getD []] else [] := by
            rw [matches_of_eval]
            by_cases hji : j = i
            · simp [hji, hempty]
            · simp [hji]
          have htb : (guard → (grddl_rule_matched env rdfp doc j entry (o.nodesetval.getD [])
                ret (log ++ [Event.xmlXPathEvalExpression j x (some o)])).returns) →
              tasks_of i db = if j = i then T (o.nodesetval.getD []) else [] := by
            intro hg
            by_cases hji : j = i
            · subst hji
              obtain ⟨d2, hd2, ht2⟩ := hbody entry (le_refl _)
                (by simp) (o.nodesetval.getD []) ret
                (log ++ [Event.xmlXPathEvalExpression j x (some o)]) (hR log x o he)
              have : d2 = db := List.append_cancel_left (hd2.symm.trans hdb)
              rw [← this, ht2 hg]
              simp
            · rw [tasks_of_body_ne _ i j hji db hbody_ev]
              simp [hji]
          have hrest : ∃ d, (match grddl_rule_matched env rdfp doc j entry
                (o.nodesetval.getD []) ret
                (log ++ [Event.xmlXPathEvalExpression j x (some o)]) with
              | Exec.fault l => Exec.fault l
              | Exec.ret r l =>
                if env.failed l || r ≠ 0 then Exec.ret (LoopExit.done r (some o)) l
                else grddl_rule_loop env rdfp doc table (j + 1) r (some o) l).log
                = log ++ [Event.xmlXPathEvalExpression j x (some o)] ++ db ++ d
              ∧ ((guard → (match grddl_rule_matched env rdfp doc j entry
                    (o.nodesetval.getD []) ret
                    (log ++ [Event.xmlXPathEvalExpression j x (some o)]) with
                  | Exec.fault l => Exec.fault l
                  | Exec.ret r l =>
                    if env.failed l || r ≠ 0 then Exec.ret (LoopExit.done r (some o)) l
                    else grddl_rule_loop env rdfp doc table (j + 1) r (some o) l).returns) →
                  tasks_of i d = (matches_of i d).flatMap T
                  ∧ (guard → (grddl_rule_matched env rdfp doc j entry (o.nodesetval.getD [])
                      ret (log ++ [Event.xmlXPathEvalExpression j x (some o)])).returns))
              ∧ (matches_of i d).length ≤ 1
              ∧ (i < j + 1 → matches_of i d = [] ∧ tasks_of i d = []) := by
            cases hm : grddl_rule_matched env rdfp doc j entry (o.nodesetval.getD []) ret
                (log ++ [Event.xmlXPathEvalExpression j x (some o)]) with
            | fault l =>
              rw [hm] at hdb
              refine ⟨[], ?_, fun hg => ⟨rfl, hg⟩, by simp [matches_of],
                fun _ => ⟨rfl, rfl⟩⟩
              simpa [Exec.log] using hdb
            | ret r l =>
              rw [hm] at hdb
              simp only [Exec.log] at hdb
              simp only []
              split
              · refine ⟨[], ?_, fun _ => ⟨rfl, fun _ => returns_ret _ _⟩,
                  by simp [matches_of], fun _ => ⟨rfl, rfl⟩⟩
                simpa [Exec.log] using hdb
              · obtain ⟨d, hd, ht, hlen, hlt⟩ := hnext r (some o) l
                refine ⟨d, ?_, fun hg => ⟨ht hg, fun _ => returns_ret _ _⟩, hlen, hlt⟩
                rw [hd, hdb]
          obtain ⟨d, hd, ht, hlen, hlt⟩ := hrest
          refine ⟨[Event.xmlXPathEvalExpression j x (some o)] ++ db ++ d, ?_, ?_, ?_⟩
          · simpa using hd
          · intro hg
            obtain ⟨ht1, hgb⟩ := ht hg
            rw [tasks_of_append, tasks_of_append, matches_of_append, matches_of_append,
              hm1, hmb, htb hgb, tasks_of_eval, ht1]
            by_cases hji : j = i
            · simp [hji, (hlt (by omega)).1]
            · simp [hji]
          · rw [matches_of_append, matches_of_append, hm1, hmb]
            by_cases hji : j = i
            · simp [hji, (hlt (by omega)).1]
            · simpa [hji] using hlen

theorem node_loop_succeed (env : Env) (rdfp : raptor_parser_s) (doc : xmlDoc) (expri : Nat)
    (ht : TasksSucceed env) (nodes : List xmlNode) (hn : NodesReadable nodes) (log : Log) :
    ∃ d, grddl_node_loop env rdfp doc expri nodes 0 log = Exec.ret 0 (log ++ d)
      ∧ ∀ e ∈ d, BodyEvent env rdfp.base_uri expri e := by
  induction nodes generalizing log with
  | nil => exact ⟨[], by simp [grddl_node_loop], by simp⟩
  | cons node rest ih =>
    have hrest : NodesReadable rest := fun n hn2 => hn n (List.mem_cons_of_mem _ hn2)
    have hext := node_loop_ext env rdfp doc expri (node :: rest) 0 log
    by_cases hty : node.type = XML_ATTRIBUTE_NODE
    · have hch := hn node (List.mem_cons_self _ _) hty
      obtain ⟨child, hchild⟩ := Option.isSome_iff_exists.mp hch
      obtain ⟨l1, h1⟩ := ht rdfp (node_sheet_uri env rdfp doc node) doc
        (log ++ [Event.grddl_transform expri (node_sheet_uri env rdfp doc node)])
      obtain ⟨d, hrun, _⟩ := ih hrest l1
      rw [node_loop_cons_attr env rdfp doc expri node rest 0 log hty child hchild, h1] at hext ⊢
      simp only [] at hext ⊢
      rw [hrun] at hext ⊢
      obtain ⟨d2, hd2, hev⟩ := hext
      simp only [Exec.log] at hd2
      exact ⟨d2, by rw [hd2], hev⟩
    · obtain ⟨d, hrun, _⟩ := ih hrest
        (log ++ [Event.raptor_parser_error "Got unexpected node type %d"])
      rw [node_loop_cons_skip env rdfp doc expri node rest 0 log hty] at hext ⊢
      rw [hrun] at hext ⊢
      obtain ⟨d2, hd2, hev⟩ := hext
      simp only [Exec.log] at hd2
      exact ⟨d2, by rw [hd2], hev⟩

theorem rule_matched_succeed (env : Env) (rdfp : raptor_parser_s) (doc : xmlDoc)
    (expri : Nat) (ht : TasksSucceed env) (entry : match_entry) (nodes : List xmlNode)
    (hn : NodesReadable nodes) (log : Log) :
    ∃ d, grddl_rule_matched env rdfp doc expri entry nodes 0 log = Exec.ret 0 (log ++ d)
      ∧ ∀ e ∈ d, BodyEvent env rdfp.base_uri expri e := by
  have hext := rule_matched_ext env rdfp doc expri entry nodes 0 log
  cases hfix : entry.xslt_sheet_uri with
  | none =>
    have : grddl_rule_matched env rdfp doc expri entry nodes 0 log
        = grddl_node_loop env rdfp doc expri nodes 0 log := by
      unfold grddl_rule_matched
      simp only [hfix]
    rw [this]
    exact node_loop_succeed env rdfp doc expri ht nodes hn log
  | some u =>
    have hrun : grddl_rule_matched env rdfp doc expri entry nodes 0 log
        = raptor_xslt_run_grddl_transform_uri env rdfp
            (env.raptor_new_uri_relative_to_base rdfp.base_uri (some u)) doc
            (log ++ [Event.grddl_transform expri
              (env.raptor_new_uri_relative_to_base rdfp.base_uri (some u))]) := by
      unfold grddl_rule_matched
      simp only [hfix]
    obtain ⟨l1, h1⟩ := ht rdfp (env.raptor_new_uri_relative_to_base rdfp.base_uri (some u))
      doc (log ++ [Event.grddl_transform expri
        (env.raptor_new_uri_relative_to_base rdfp.base_uri (some u))])
    rw [hrun, h1] at hext ⊢
    obtain ⟨d2, hd2, hev⟩ := hext
    simp only [Exec.log] at hd2
    exact ⟨d2, by rw [hd2], hev⟩

/-- When every evaluation, every node read and every transform succeeds and the
failed flag stays unset, the loop evaluates every rule of the table, in order,
and leaves with `ret` equal to 0. -/
theorem rule_loop_all (env : Env) (rdfp : raptor_parser_s) (doc : xmlDoc)
    (hx : XPathSucceeds env) (ht : TasksSucceed env) (hf : NeverFailed env)
    (hn : MatchesReadable env) (table : List match_entry) (j : Nat)
    (obj : Option xmlXPathObject) (log : Log) :
    ∃ obj2 d, grddl_rule_loop env rdfp doc table j 0 obj log
        = Exec.ret (LoopExit.done 0 obj2) (log ++ d)
      ∧ xpath_evals d = table_rules j table
      ∧ ∀ e ∈ d, LoopEvent env rdfp.base_uri j e := by
  have hext := rule_loop_ext env rdfp doc table j 0 obj log
  suffices h : ∃ obj2 d, grddl_rule_loop env rdfp doc table j 0 obj log
        = Exec.ret (LoopExit.done 0 obj2) (log ++ d)
      ∧ xpath_evals d = table_rules j table by
    obtain ⟨obj2, d, hrun, hev⟩ := h
    rw [hrun] at hext
    obtain ⟨d2, hd2, hev2⟩ := hext
    simp only [Exec.log] at hd2
    have : d = d2 := List.append_cancel_left hd2
    exact ⟨obj2, d, hrun, hev, this ▸ hev2⟩
  clear hext
  induction table generalizing j obj log with
  | nil => exact ⟨obj, [], by simp [grddl_rule_loop], rfl⟩
  | cons entry table ih =>
    cases hxp : entry.xpath with
    | none =>
      rw [rule_loop_end env rdfp doc entry table j 0 obj log hxp]
      exact ⟨obj, [], by simp, by simp [table_rules, hxp, xpath_evals]⟩
    | some x =>
      obtain ⟨o, he⟩ := Option.isSome_iff_exists.mp (hx log x doc)
      cases hempty : xmlXPathNodeSetIsEmpty o.nodesetval with
      | true =>
        rw [rule_loop_no_match env rdfp doc entry table j 0 obj log x hxp o he hempty]
        obtain ⟨obj2, d, hrun, hev⟩ := ih (j + 1) (some o)
          (log ++ [Event.xmlXPathEvalExpression j x (some o)])
        refine ⟨obj2, [Event.xmlXPathEvalExpression j x (some o)] ++ d, ?_, ?_⟩
        · rw [hrun]; simp
        · rw [xpath_evals_append, hev]
          simp [table_rules, hxp, xpath_evals]
      | false =>
        rw [rule_loop_match env rdfp doc entry table j 0 obj log x hxp o he hempty]
        obtain ⟨db, hb, hbev⟩ := rule_matched_succeed env rdfp doc j ht entry
          (o.nodesetval.getD []) (hn log x doc o he)
          (log ++ [Event.xmlXPathEvalExpression j x (some o)])
        rw [hb]
        simp only [hf _, ne_eq, not_true_eq_false, decide_False, Bool.or_self,
          Bool.false_eq_true, if_false]
        obtain ⟨obj2, d, hrun, hev⟩ := ih (j + 1) (some o)
          (log ++ [Event.xmlXPathEvalExpression j x (some o)] ++ db)
        refine ⟨obj2, [Event.xmlXPathEvalExpression j x (some o)] ++ db ++ d, ?_, ?_⟩
        · rw [hrun]; simp
        · rw [xpath_evals_append, xpath_evals_append, hev, xpath_evals_body _ _ _ hbev]
          simp [table_rules, hxp, xpath_evals]

theorem parse_feed_ext (env : Env) (rdfp : raptor_parser_s) (s : Option (List Nat))
    (len : Nat) (is_end : Int) (log : Log) :
    LogExt FeedEvent log (grddl_parse_feed env rdfp s len is_end log).2 := by
  unfold grddl_parse_feed
  cases rdfp.context.ctxt with
  | none =>
    simp only []
    split
    · split
      · exact ((LogExt.refl _ _).snoc (by simp [FeedEvent])).snoc (by simp [FeedEvent])
      · exact (LogExt.refl _ _).snoc (by simp [FeedEvent])
    · exact (LogExt.refl _ _).snoc (by simp [FeedEvent])
  | some c =>
    simp only []
    split
    · exact (LogExt.refl _ _).snoc (by simp [FeedEvent])
    · exact LogExt.refl _ _

theorem xpath_evals_feed (d : Log) (h : ∀ e ∈ d, FeedEvent e) : xpath_evals d = [] := by
  apply filterMap_none_of_forall
  intro e he
  have := h e he
  cases e <;> simp_all [FeedEvent]

theorem match_table_rules :
    table_rules 0 match_table
      = [(0, "/html:html/html:head[contains(@profile,\"http://www.w3.org/2003/g/data-view\")]/html:link[@rel=\"transformation\"]/@href"),
         (1, "/html:html/html:head[contains(@profile,\"http://www.w3.org/2003/g/data-view\")]/../..//html:a[@rel=\"transformation\"]/@href"),
         (2, "//@dataview:transformation"),
         (3, "/html:html/html:head/html:link[@href=\"http://purl.org/dc/elements/1.1/\"]"),
         (4, "/html:html/html:head[contains(@profile,\"http://purl.org/NET/erdf/profile\")]"),
         (5, "//*[@class=\"vevent\"]")] := rfl

/-- Under the conditions of `rule_loop_all`, with a tree and an XPath context,
the last part of the push evaluates the six rules in order and returns 0. -/
theorem parse_finish_all (env : Env) (rdfp : raptor_parser_s) (c : xmlParserCtxt)
    (log : Log)
    (hdoc : ∀ l c2, (env.myDoc l CtxtOwner.document c2).isSome = true)
    (hctx : ∀ l d, env.xmlXPathNewContext l d = true)
    (hx : XPathSucceeds env) (ht : TasksSucceed env) (hf : NeverFailed env)
    (hn : MatchesReadable env) :
    ∃ p d, grddl_parse_finish env rdfp c log = Exec.ret (0, p) (log ++ d)
      ∧ xpath_evals d = table_rules 0 match_table
      ∧ ∀ e ∈ d, FinishEvent env rdfp.base_uri e := by
  obtain ⟨doc, hd⟩ := Option.isSome_iff_exists.mp (hdoc log c)
  unfold grddl_parse_finish
  simp only [hd, hctx, Bool.not_true, Bool.false_eq_true, if_false]
  obtain ⟨obj2, d, hrun, hev, hle⟩ := rule_loop_all env
    { rdfp with context := { rdfp.context with xpathCtx := some doc } } doc hx ht hf hn
    match_table 0 rdfp.context.xpathObj
    (log ++ [Event.xmlXPathNewContext doc] ++
      [Event.xmlXPathRegisterNs "html" "http://www.w3.org/1999/xhtml",
       Event.xmlXPathRegisterNs "dataview" "http://www.w3.org/2003/g/data-view#"])
  rw [hrun]
  simp only [hf _, Bool.false_eq_true, if_false, ne_eq, not_true_eq_false]
  refine ⟨{ base_uri := rdfp.base_uri,
            context := { ctxt := rdfp.context.ctxt, xpathCtx := some doc,
                         xpathObj := obj2 } },
    [Event.xmlXPathNewContext doc] ++
      [Event.xmlXPathRegisterNs "html" "http://www.w3.org/1999/xhtml",
       Event.xmlXPathRegisterNs "dataview" "http://www.w3.org/2003/g/data-view#"] ++ d,
    by simp, ?_, ?_⟩
  · rw [xpath_evals_append, hev]
    simp [xpath_evals]
  · intro e he
    simp only [List.mem_append, List.mem_singleton, List.mem_cons, List.mem_nil_iff,
      or_false] at he
    rcases he with (rfl | rfl | rfl) | he
    · exact Or.inl (by simp [SetupEvent])
    · exact Or.inl (by simp [SetupEvent])
    · exact Or.inl (by simp [SetupEvent])
    · exact Or.inr (hle e he)

theorem new_calls_eq {α : Type} (log d : Log) (x : Exec α) (h : x.log = log ++ d) :
    new_calls log x = d := by
  unfold new_calls
  rw [h]
  exact List.drop_left _ _

/-! ## The shape of a push -/

/-- What the last part of a push adds to the log: calls of the setup, then
either nothing or what the loop over `match_table` adds, a loop that returns
if the last part returns. -/
theorem parse_finish_cases_ret (env : Env) (rdfp : raptor_parser_s) (c : xmlParserCtxt)
    (log : Log) (P : Log → Prop) (h0 : P [])
    (hloop : ∀ (doc : xmlDoc) (p2 : raptor_parser_s) (obj : Option xmlXPathObject)
      (l0 dl : Log), p2.base_uri = rdfp.base_uri →
      (grddl_rule_loop env p2 doc match_table 0 0 obj l0).log = l0 ++ dl →
      ((grddl_parse_finish env rdfp c log).returns →
        (grddl_rule_loop env p2 doc match_table 0 0 obj l0).returns) → P dl) :
    ∃ pre dl, (grddl_parse_finish env rdfp c log).log = log ++ pre ++ dl
      ∧ (∀ e ∈ pre, SetupEvent e) ∧ P dl := by
  cases hd : env.myDoc log CtxtOwner.document c with
  | none =>
    refine ⟨[Event.raptor_parser_error "Failed to create XML DOM for document"], [],
      ?_, by simp [SetupEvent], h0⟩
    unfold grddl_parse_finish
    simp [Exec.log, hd]
  | some doc =>
    cases hm : env.xmlXPathNewContext log doc with
    | false =>
      refine ⟨[Event.xmlXPathNewContext doc,
          Event.raptor_parser_error "Failed to create XPath context for document"], [],
        ?_, by simp [SetupEvent], h0⟩
      unfold grddl_parse_finish
      simp [Exec.log, hd, hm]
    | true =>
      obtain ⟨dl, hdl, _⟩ := rule_loop_ext env
        { rdfp with context := { rdfp.context with xpathCtx := some doc } } doc
        match_table 0 0 rdfp.context.xpathObj
        (log ++ [Event.xmlXPathNewContext doc] ++
          [Event.xmlXPathRegisterNs "html" "http://www.w3.org/1999/xhtml",
           Event.xmlXPathRegisterNs "dataview" "http://www.w3.org/2003/g/data-view#"])
      have hfin : grddl_parse_finish env rdfp c log
          = match grddl_rule_loop env
              { rdfp with context := { rdfp.context with xpathCtx := some doc } } doc
              match_table 0 0 rdfp.context.xpathObj
              (log ++ [Event.xmlXPathNewContext doc] ++
                [Event.xmlXPathRegisterNs "html" "http://www.w3.org/1999/xhtml",
                 Event.xmlXPathRegisterNs "dataview" "http://www.w3.org/2003/g/data-view#"]) with
            | Exec.fault l => Exec.fault l
            | Exec.ret (LoopExit.returned v obj) l =>
              Exec.ret (v, ⟨rdfp.base_uri, ⟨rdfp.context.ctxt, some doc, obj⟩⟩) l
            | Exec.ret (LoopExit.done ret obj) l =>
              if env.failed l
              then Exec.ret (1, ⟨rdfp.base_uri, ⟨rdfp.context.ctxt, some doc, obj⟩⟩) l
              else Exec.ret (if ret ≠ 0 then 1 else 0,
                ⟨rdfp.base_uri, ⟨rdfp.context.ctxt, some doc, obj⟩⟩) l := by
        unfold grddl_parse_finish
        simp only [hd, hm, Bool.not_true, Bool.false_eq_true, if_false]
      have hP := hloop doc
        { rdfp with context := { rdfp.context with xpathCtx := some doc } } _ _ dl rfl hdl
        (by
          rw [hfin]
          intro h
          cases hl : grddl_rule_loop env
              { rdfp with context := { rdfp.context with xpathCtx := some doc } } doc
              match_table 0 0 rdfp.context.xpathObj
              (log ++ [Event.xmlXPathNewContext doc] ++
                [Event.xmlXPathRegisterNs "html" "http://www.w3.org/1999/xhtml",
                 Event.xmlXPathRegisterNs "dataview" "http://www.w3.org/2003/g/data-view#"]) with
          | fault l =>
            rw [hl] at h
            exact absurd h (not_returns_fault _)
          | ret v l => exact returns_ret _ _)
      refine ⟨[Event.xmlXPathNewContext doc,
          Event.xmlXPathRegisterNs "html" "http://www.w3.org/1999/xhtml",
          Event.xmlXPathRegisterNs "dataview" "http://www.w3.org/2003/g/data-view#"], dl,
        ?_, by simp [SetupEvent], hP⟩
      rw [hfin]
      cases hl : grddl_rule_loop env
          { rdfp with context := { rdfp.context with xpathCtx := some doc } } doc
          match_table 0 0 rdfp.context.xpathObj
          (log ++ [Event.xmlXPathNewContext doc] ++
            [Event.xmlXPathRegisterNs "html" "http://www.w3.org/1999/xhtml",
             Event.xmlXPathRegisterNs "dataview" "http://www.w3.org/2003/g/data-view#"]) with
      | fault l =>
        rw [hl] at hdl
        simp only [Exec.log] at hdl ⊢
        rw [hdl]; simp
      | ret v l =>
        rw [hl] at hdl
        simp only [Exec.log] at hdl
        cases v with
        | done r o =>
          simp only []
          split <;> (simp only [Exec.log]; rw [hdl]; simp)
        | returned r o =>
          simp only [Exec.log]
          rw [hdl]; simp

/-- The log after a push: the log before, the calls of the feed, calls of the
setup, then either nothing or what the loop over `match_table` adds, a loop
that returns if the push returns. -/
theorem parse_chunk_log_ret (env : Env) (rdfp : raptor_parser_s) (s : Option (List Nat))
    (len : Nat) (is_end : Int) (log : Log) (P : Log → Prop) (h0 : P [])
    (hloop : ∀ (doc : xmlDoc) (p2 : raptor_parser_s) (obj : Option xmlXPathObject)
      (l0 dl : Log), p2.base_uri = rdfp.base_uri →
      (grddl_rule_loop env p2 doc match_table 0 0 obj l0).log = l0 ++ dl →
      ((raptor_xslt_parse_chunk env rdfp s len is_end log).returns →
        (grddl_rule_loop env p2 doc match_table 0 0 obj l0).returns) → P dl) :
    ∃ df pre dl,
      (grddl_parse_feed env rdfp s len is_end log).2 = log ++ df
      ∧ (raptor_xslt_parse_chunk env rdfp s len is_end log).log = log ++ (df ++ pre ++ dl)
      ∧ (∀ e ∈ df, FeedEvent e) ∧ (∀ e ∈ pre, SetupEvent e) ∧ P dl := by
  obtain ⟨df, hdf, hfeed⟩ := parse_feed_ext env rdfp s len is_end log
  cases hc : (grddl_parse_feed env rdfp s len is_end log).1 with
  | none =>
    refine ⟨df, [Event.raptor_parser_error "Failed to create XML parser"], [], hdf, ?_, hfeed,
      by simp [SetupEvent], h0⟩
    unfold raptor_xslt_parse_chunk
    simp only [hc, Exec.log]
    rw [hdf]; simp
  | some c =>
    by_cases hend : is_end = 0
    · subst hend
      refine ⟨df, [], [], hdf, ?_, hfeed, by simp, h0⟩
      unfold raptor_xslt_parse_chunk
      simp only [hc, if_true, Exec.log]
      rw [hdf]; simp
    · have hrun : raptor_xslt_parse_chunk env rdfp s len is_end log
          = grddl_parse_finish env
              { rdfp with context := { rdfp.context with ctxt := some c } } c
              (grddl_parse_feed env rdfp s len is_end log).2 := by
        unfold raptor_xslt_parse_chunk
        simp only [hc, hend, if_false]
      rw [hrun] at hloop ⊢
      obtain ⟨pre, dl, hlog, hpre, hP⟩ := parse_finish_cases_ret env
        { rdfp with context := { rdfp.context with ctxt := some c } } c
        (grddl_parse_feed env rdfp s len is_end log).2 P h0 hloop
      refine ⟨df, pre, dl, hdf, ?_, hfeed, hpre, hP⟩
      rw [hlog, hdf]
      simp

theorem rule_loop_returns (env : Env) (rdfp : raptor_parser_s) (doc : xmlDoc)
    (hn : MatchesReadable env) (htr : TasksReturn env) (table : List match_entry) (j : Nat)
    (ret : Int) (obj : Option xmlXPathObject) (log : Log) :
    (grddl_rule_loop env rdfp doc table j ret obj log).returns := by
  induction table generalizing j ret obj log with
  | nil => exact returns_ret _ _
  | cons entry table ih =>
    cases hx : entry.xpath with
    | none =>
      rw [rule_loop_end env rdfp doc entry table j ret obj log hx]
      exact returns_ret _ _
    | some x =>
      cases he : env.xmlXPathEvalExpression log x doc with
      | none =>
        rw [rule_loop_eval_failed env rdfp doc entry table j ret obj log x hx he]
        exact returns_ret _ _
      | some o =>
        cases hempty : xmlXPathNodeSetIsEmpty o.nodesetval with
        | true =>
          rw [rule_loop_no_match env rdfp doc entry table j ret obj log x hx o he hempty]
          exact ih _ _ _ _
        | false =>
          rw [rule_loop_match env rdfp doc entry table j ret obj log x hx o he hempty]
          have hbody : ∃ r l, grddl_rule_matched env rdfp doc j entry (o.nodesetval.getD [])
              ret (log ++ [Event.xmlXPathEvalExpression j x (some o)]) = Exec.ret r l := by
            unfold grddl_rule_matched
            cases entry.xslt_sheet_uri with
            | none =>
              obtain ⟨r, d, hrun, _⟩ := node_loop_spec env rdfp doc j htr
                (o.nodesetval.getD []) (hn log x doc o he) ret
                (log ++ [Event.xmlXPathEvalExpression j x (some o)])
              exact ⟨r, _, hrun⟩
            | some u => exact htr _ _ _ _
          obtain ⟨r, l, hb⟩ := hbody
          rw [hb]
          simp only []
          split
          · exact returns_ret _ _
          · exact ih _ _ _ _

/-- A push returns when every matched attribute node can be read and no
transform dereferences a null context. -/
theorem parse_chunk_returns (env : Env) (rdfp : raptor_parser_s) (s : Option (List Nat))
    (len : Nat) (is_end : Int) (log : Log) (hn : MatchesReadable env)
    (htr : TasksReturn env) :
    (raptor_xslt_parse_chunk env rdfp s len is_end log).returns := by
  unfold raptor_xslt_parse_chunk
  simp only []
  cases (grddl_parse_feed env rdfp s len is_end log).1 with
  | none => exact returns_ret _ _
  | some c =>
    simp only []
    split
    · exact returns_ret _ _
    · unfold grddl_parse_finish
      simp only []
      split
      · exact returns_ret _ _
      · split
        · exact returns_ret _ _
        · rename_i doc _ _
          have := rule_loop_returns env
            { base_uri := rdfp.base_uri,
              context := { ctxt := some c, xpathCtx := some doc,
                           xpathObj := rdfp.context.xpathObj } } doc hn htr match_table 0 0
            rdfp.context.xpathObj
            (((grddl_parse_feed env rdfp s len is_end log).2 ++
              [Event.xmlXPathNewContext doc]) ++
              [Event.xmlXPathRegisterNs "html" "http://www.w3.org/1999/xhtml",
               Event.xmlXPathRegisterNs "dataview" "http://www.w3.org/2003/g/data-view#"])
          revert this
          cases grddl_rule_loop env
            { base_uri := rdfp.base_uri,
              context := { ctxt := some c, xpathCtx := some doc,
                           xpathObj := rdfp.context.xpathObj } } doc match_table 0 0
            rdfp.context.xpathObj
            (((grddl_parse_feed env rdfp s len is_end log).2 ++
              [Event.xmlXPathNewContext doc]) ++
              [Event.xmlXPathRegisterNs "html" "http://www.w3.org/1999/xhtml",
               Event.xmlXPathRegisterNs "dataview" "http://www.w3.org/2003/g/data-view#"]) with
          | fault l => intro h; exact absurd h (not_returns_fault _)
          | ret v l =>
            intro _
            cases v with
            | done r o =>
              simp only []
              split <;> exact returns_ret _ _
            | returned r o => exact returns_ret _ _

/-- What a push adds to the log: calls of the feed, calls of the setup, then
either nothing or what the loop over `match_table` adds, a loop that returns
if the push returns. -/
theorem parse_chunk_cases_ret (env : Env) (rdfp : raptor_parser_s) (s : Option (List Nat))
    (len : Nat) (is_end : Int) (log : Log) (P : Log → Prop) (h0 : P [])
    (hloop : ∀ (doc : xmlDoc) (p2 : raptor_parser_s) (obj : Option xmlXPathObject)
      (l0 dl : Log), p2.base_uri = rdfp.base_uri →
      (grddl_rule_loop env p2 doc match_table 0 0 obj l0).log = l0 ++ dl →
      ((raptor_xslt_parse_chunk env rdfp s len is_end log).returns →
        (grddl_rule_loop env p2 doc match_table 0 0 obj l0).returns) → P dl) :
    ∃ df pre dl,
      new_calls log (raptor_xslt_parse_chunk env rdfp s len is_end log) = df ++ pre ++ dl
      ∧ (∀ e ∈ df, FeedEvent e) ∧ (∀ e ∈ pre, SetupEvent e) ∧ P dl := by
  obtain ⟨df, pre, dl, _, hlog, hfeed, hpre, hP⟩ :=
    parse_chunk_log_ret env rdfp s len is_end log P h0 hloop
  exact ⟨df, pre, dl, new_calls_eq log _ _ hlog, hfeed, hpre, hP⟩

/-- What the last part of a push adds to the log: calls of the setup, then
either nothing or what the loop over `match_table` adds. -/
theorem parse_finish_cases (env : Env) (rdfp : raptor_parser_s) (c : xmlParserCtxt)
    (log : Log) (P : Log → Prop) (h0 : P [])
    (hloop : ∀ (doc : xmlDoc) (p2 : raptor_parser_s) (obj : Option xmlXPathObject)
      (l0 dl : Log), p2.base_uri = rdfp.base_uri →
      (grddl_rule_loop env p2 doc match_table 0 0 obj l0).log = l0 ++ dl → P dl) :
    ∃ pre dl, (grddl_parse_finish env rdfp c log).log = log ++ pre ++ dl
      ∧ (∀ e ∈ pre, SetupEvent e) ∧ P dl :=
  parse_finish_cases_ret env rdfp c log P h0
    (fun doc p2 obj l0 dl hb hdl _ => hloop doc p2 obj l0 dl hb hdl)

/-- What a push adds to the log: calls of the feed, calls of the setup, then
either nothing or what the loop over `match_table` adds. -/
theorem parse_chunk_cases (env : Env) (rdfp : raptor_parser_s) (s : Option (List Nat))
    (len : Nat) (is_end : Int) (log : Log) (P : Log → Prop) (h0 : P [])
    (hloop : ∀ (doc : xmlDoc) (p2 : raptor_parser_s) (obj : Option xmlXPathObject)
      (l0 dl : Log), p2.base_uri = rdfp.base_uri →
      (grddl_rule_loop env p2 doc match_table 0 0 obj l0).log = l0 ++ dl → P dl) :
    ∃ df pre dl,
      new_calls log (raptor_xslt_parse_chunk env rdfp s len is_end log) = df ++ pre ++ dl
      ∧ (∀ e ∈ df, FeedEvent e) ∧ (∀ e ∈ pre, SetupEvent e) ∧ P dl :=
  parse_chunk_cases_ret env rdfp s len is_end log P h0
    (fun doc p2 obj l0 dl hb hdl _ => hloop doc p2 obj l0 dl hb hdl)

theorem tasks_of_feed (i : Nat) (d : Log) (h : ∀ e ∈ d, FeedEvent e) : tasks_of i d = [] := by
  apply filterMap_none_of_forall
  intro e he
  have := h e he
  cases e <;> simp_all [FeedEvent]

theorem matches_of_feed (i : Nat) (d : Log) (h : ∀ e ∈ d, FeedEvent e) :
    matches_of i d = [] := by
  apply filterMap_none_of_forall
  intro e he
  have := h e he
  cases e <;> simp_all [FeedEvent]

theorem tasks_of_setup (i : Nat) (d : Log) (h : ∀ e ∈ d, SetupEvent e) :
    tasks_of i d = [] := by
  apply filterMap_none_of_forall
  intro e he
  have := h e he
  cases e <;> simp_all [SetupEvent]

theorem matches_of_setup (i : Nat) (d : Log) (h : ∀ e ∈ d, SetupEvent e) :
    matches_of i d = [] := by
  apply filterMap_none_of_forall
  intro e he
  have := h e he
  cases e <;> simp_all [SetupEvent]

/-! ## The sample collaborators satisfy the conditions -/

theorem sample_env_tasks_succeed : TasksSucceed sample_env := by
  intro p u d l
  exact ⟨_, rfl⟩

theorem sample_env_xpath_succeeds : XPathSucceeds sample_env := by
  intro l x d
  simp only [sample_env]
  split_ifs <;> rfl

theorem sample_env_matches_readable : MatchesReadable sample_env := by
  intro l x d o ho n hn hty
  simp only [sample_env] at ho
  split_ifs at ho <;> cases ho <;>
    simp [sample_attribute, sample_element, XML_ATTRIBUTE_NODE] at hn hty ⊢ <;>
    rcases hn with rfl | rfl <;> simp_all

/-! ## The rules are tried in table order -/

/-- C2: at an end-of-stream push whose parser context exists or is created,
whose tree materializes and whose XPath context is made, if every XPath
evaluation succeeds, every transform returns success, the failed flag stays
unset and every matched attribute node can be read, then the push returns 0
and the XPath evaluations it makes are exactly the six rules of `match_table`,
each once, in table order, whatever the match sets are. -/
theorem all_rules_evaluated_in_order (env : Env) (rdfp : raptor_parser_s)
    (s : Option (List Nat)) (len : Nat) (is_end : Int) (log : Log)
    (hend : is_end ≠ 0)
    (hopen : rdfp.context.ctxt.isSome = true
      ∨ env.xmlCreatePushParserCtxt log CtxtOwner.document (chunk_bytes s len)
          rdfp.base_uri = true)
    (hdoc : ∀ l c, (env.myDoc l CtxtOwner.document c).isSome = true)
    (hctx : ∀ l d, env.xmlXPathNewContext l d = true)
    (hx : XPathSucceeds env) (ht : TasksSucceed env) (hf : NeverFailed env)
    (hn : MatchesReadable env) :
    result_code (raptor_xslt_parse_chunk env rdfp s len is_end log) = some 0
    ∧ xpath_evals (new_calls log (raptor_xslt_parse_chunk env rdfp s len is_end log))
      = [(0, "/html:html/html:head[contains(@profile,\"http://www.w3.org/2003/g/data-view\")]/html:link[@rel=\"transformation\"]/@href"),
         (1, "/html:html/html:head[contains(@profile,\"http://www.w3.org/2003/g/data-view\")]/../..//html:a[@rel=\"transformation\"]/@href"),
         (2, "//@dataview:transformation"),
         (3, "/html:html/html:head/html:link[@href=\"http://purl.org/dc/elements/1.1/\"]"),
         (4, "/html:html/html:head[contains(@profile,\"http://purl.org/NET/erdf/profile\")]"),
         (5, "//*[@class=\"vevent\"]")] := by
  obtain ⟨df, hdf, hfeed⟩ := parse_feed_ext env rdfp s len is_end log
  have hsome : ∃ c, (grddl_parse_feed env rdfp s len is_end log).1 = some c := by
    unfold grddl_parse_feed
    cases hc : rdfp.context.ctxt with
    | none =>
      rw [hc] at hopen
      simp only [Option.isSome_none, Bool.false_eq_true, false_or] at hopen
      simp only [hopen, if_true]
      split <;> exact ⟨_, rfl⟩
    | some c =>
      simp only []
      split <;> exact ⟨_, rfl⟩
  obtain ⟨c, hc⟩ := hsome
  obtain ⟨p, d, hrun, hev, _⟩ := parse_finish_all env
    { rdfp with context := { rdfp.context with ctxt := some c } } c
    (grddl_parse_feed env rdfp s len is_end log).2 hdoc hctx hx ht hf hn
  have hall : raptor_xslt_parse_chunk env rdfp s len is_end log
      = Exec.ret (0, p) (log ++ (df ++ d)) := by
    unfold raptor_xslt_parse_chunk
    simp only [hc, hend, if_false]
    rw [hrun, hdf]
    simp
  rw [new_calls_eq log (df ++ d) _ (by rw [hall]; rfl), hall]
  refine ⟨rfl, ?_⟩
  rw [xpath_evals_append, xpath_evals_feed df hfeed, hev, match_table_rules]
  rfl

/-- C2 on the sample document, pushed whole with the end flag set: the push
returns 0 and the six rules are evaluated in order, although the third and the
sixth rule match. -/
theorem all_rules_evaluated_in_order_witness :
    ((1 : Int) ≠ 0)
    ∧ result_code (raptor_xslt_parse_chunk sample_env sample_rdfp
        (some [60, 104, 116, 109, 108, 62]) 6 1 []) = some 0
    ∧ xpath_evals (new_calls [] (raptor_xslt_parse_chunk sample_env sample_rdfp
        (some [60, 104, 116, 109, 108, 62]) 6 1 []))
      = [(0, "/html:html/html:head[contains(@profile,\"http://www.w3.org/2003/g/data-view\")]/html:link[@rel=\"transformation\"]/@href"),
         (1, "/html:html/html:head[contains(@profile,\"http://www.w3.org/2003/g/data-view\")]/../..//html:a[@rel=\"transformation\"]/@href"),
         (2, "//@dataview:transformation"),
         (3, "/html:html/html:head/html:link[@href=\"http://purl.org/dc/elements/1.1/\"]"),
         (4, "/html:html/html:head[contains(@profile,\"http://purl.org/NET/erdf/profile\")]"),
         (5, "//*[@class=\"vevent\"]")] :=
  ⟨by decide,
   all_rules_evaluated_in_order sample_env sample_rdfp (some [60, 104, 116, 109, 108, 62])
     6 1 [] (by decide) (Or.inr rfl) (fun _ _ => rfl) (fun _ _ => rfl)
     sample_env_xpath_succeeds sample_env_tasks_succeed (fun _ => rfl)
     sample_env_matches_readable⟩

/-! ## Rules with a fixed sheet URI -/

theorem rule_matched_fixed_tasks (env : Env) (rdfp : raptor_parser_s) (doc : xmlDoc)
    (i : Nat) (entry : match_entry) (fixed : String) (nodes : List xmlNode) (ret : Int)
    (l : Log) (hfix : entry.xslt_sheet_uri = some fixed) :
    ∃ d, (grddl_rule_matched env rdfp doc i entry nodes ret l).log = l ++ d
      ∧ tasks_of i d = [env.raptor_new_uri_relative_to_base rdfp.base_uri (some fixed)] := by
  have hrun : grddl_rule_matched env rdfp doc i entry nodes ret l
      = raptor_xslt_run_grddl_transform_uri env rdfp
          (env.raptor_new_uri_relative_to_base rdfp.base_uri (some fixed)) doc
          (l ++ [Event.grddl_transform i
            (env.raptor_new_uri_relative_to_base rdfp.base_uri (some fixed))]) := by
    unfold grddl_rule_matched
    simp only [hfix]
  obtain ⟨dt, hdt, hev⟩ := transform_uri_ext env rdfp
    (env.raptor_new_uri_relative_to_base rdfp.base_uri (some fixed)) doc
    (l ++ [Event.grddl_transform i
      (env.raptor_new_uri_relative_to_base rdfp.base_uri (some fixed))])
  refine ⟨[Event.grddl_transform i
      (env.raptor_new_uri_relative_to_base rdfp.base_uri (some fixed))] ++ dt, ?_, ?_⟩
  · rw [hrun, hdt]; simp
  · rw [tasks_of_append, tasks_of_task _ i dt hev]
    simp [tasks_of]

/-- C3: in every push, a rule of `match_table` with a fixed sheet URI is
evaluated at most once, and the transforms started for it are one for each
evaluation with a non-empty match set, whatever the size of the set and the
nodes in it: exactly one transform, whose sheet URI is the fixed URI of the
rule resolved against the base URI of the document. -/
theorem fixed_sheet_rule_one_transform (env : Env) (rdfp : raptor_parser_s)
    (s : Option (List Nat)) (len : Nat) (is_end : Int) (log : Log)
    (i : Nat) (x fixed : String)
    (hrule : match_table[i]? = some { xpath := some x, xslt_sheet_uri := some fixed }) :
    (matches_of i (new_calls log (raptor_xslt_parse_chunk env rdfp s len is_end log))).length ≤ 1
    ∧ tasks_of i (new_calls log (raptor_xslt_parse_chunk env rdfp s len is_end log))
      = (matches_of i (new_calls log (raptor_xslt_parse_chunk env rdfp s len is_end log))).map
          (fun _ => env.raptor_new_uri_relative_to_base rdfp.base_uri (some fixed))
    ∧ (∀ nodes : List xmlNode,
        nodes ∈ matches_of i (new_calls log (raptor_xslt_parse_chunk env rdfp s len is_end log)) →
        tasks_of i (new_calls log (raptor_xslt_parse_chunk env rdfp s len is_end log))
          = [env.raptor_new_uri_relative_to_base rdfp.base_uri (some fixed)]) := by
  obtain ⟨df, pre, dl, hd, hfeed, hpre, hlen, htasks⟩ := parse_chunk_cases env rdfp s len
    is_end log
    (fun dl => (matches_of i dl).length ≤ 1
      ∧ tasks_of i dl = (matches_of i dl).map
          (fun _ => env.raptor_new_uri_relative_to_base rdfp.base_uri (some fixed)))
    ⟨by simp [matches_of], rfl⟩
    (by
      intro doc p2 obj l0 dl hbase hdl
      obtain ⟨d, hd, ht, hlen⟩ := rule_loop_tasks env p2 doc i (fun _ => True)
        (fun _ => [env.raptor_new_uri_relative_to_base rdfp.base_uri (some fixed)]) False
        (fun _ _ _ _ => trivial) match_table 0
        (by
          intro entry _ hget nodes ret l _
          rw [Nat.sub_zero, hrule] at hget
          have hentry : entry.xslt_sheet_uri = some fixed := by
            cases hget; rfl
          rw [← hbase]
          obtain ⟨d, hd, ht⟩ :=
            rule_matched_fixed_tasks env p2 doc i entry fixed nodes ret l hentry
          exact ⟨d, hd, fun _ => ht⟩)
        0 obj l0
      have ht := ht (fun h => h.elim)
      have hdd : d = dl := List.append_cancel_left (hd.symm.trans hdl)
      subst hdd
      refine ⟨hlen, ?_⟩
      rw [ht]
      generalize matches_of i d = m
      induction m with
      | nil => rfl
      | cons a rest ih => simp [List.flatMap_cons, ih])
  have hm : matches_of i (new_calls log (raptor_xslt_parse_chunk env rdfp s len is_end log))
      = matches_of i dl := by
    rw [hd, matches_of_append, matches_of_append, matches_of_feed i df hfeed,
      matches_of_setup i pre hpre]
    rfl
  have ht : tasks_of i (new_calls log (raptor_xslt_parse_chunk env rdfp s len is_end log))
      = tasks_of i dl := by
    rw [hd, tasks_of_append, tasks_of_append, tasks_of_feed i df hfeed,
      tasks_of_setup i pre hpre]
    rfl
  rw [hm, ht]
  refine ⟨hlen, htasks, ?_⟩
  intro nodes hmem
  rw [htasks]
  cases hml : matches_of i dl with
  | nil => rw [hml] at hmem; cases hmem
  | cons a rest =>
    rw [hml] at hlen
    have : rest = [] := by
      cases rest with
      | nil => rfl
      | cons b r => simp at hlen
    rw [this]
    rfl

/-- C3 on the sample document: the hCalendar rule matches two elements, and
one transform is started for it, with the sheet
`http://www.w3.org/2002/12/cal/glean-hcal.xsl`. -/
theorem fixed_sheet_rule_one_transform_witness :
    match_table[5]? = some
        { xpath := some "//*[@class=\"vevent\"]",
          xslt_sheet_uri := some "http://www.w3.org/2002/12/cal/glean-hcal.xsl" }
    ∧ [sample_element 3, sample_element 4]
      ∈ matches_of 5 (new_calls [] (raptor_xslt_parse_chunk sample_env sample_rdfp
          (some [60, 104, 116, 109, 108, 62]) 6 1 []))
    ∧ tasks_of 5 (new_calls [] (raptor_xslt_parse_chunk sample_env sample_rdfp
          (some [60, 104, 116, 109, 108, 62]) 6 1 []))
      = [some "http://www.w3.org/2002/12/cal/glean-hcal.xsl"] :=
  ⟨rfl, by decide,
   (fixed_sheet_rule_one_transform sample_env sample_rdfp
      (some [60, 104, 116, 109, 108, 62]) 6 1 [] 5 "//*[@class=\"vevent\"]"
      "http://www.w3.org/2002/12/cal/glean-hcal.xsl" rfl).2.2
      [sample_element 3, sample_element 4] (by decide)⟩

/-! ## Rules without a fixed sheet URI -/

theorem attribute_nodes_length (nodes : List xmlNode) :
    (attribute_nodes nodes).length = nodes.length - (other_nodes nodes).length := by
  have h : (attribute_nodes nodes).length + (other_nodes nodes).length = nodes.length := by
    induction nodes with
    | nil => rfl
    | cons n rest ih =>
      unfold attribute_nodes other_nodes at ih ⊢
      by_cases hty : n.type = XML_ATTRIBUTE_NODE
      · simp [hty] at ih ⊢
        omega
      · simp [hty] at ih ⊢
        omega
  omega

theorem node_sheet_uri_base (env : Env) (p1 p2 : raptor_parser_s) (doc : xmlDoc)
    (h : p1.base_uri = p2.base_uri) :
    node_sheet_uri env p1 doc = node_sheet_uri env p2 doc := by
  funext n
  unfold node_sheet_uri
  rw [h]

theorem flatMap_map_length {α β : Type} (f : α → β) (g : List α → List α)
    (m : List (List α)) :
    (m.flatMap fun nodes => (g nodes).map f).length
      = (m.map fun nodes => (g nodes).length).sum := by
  induction m with
  | nil => rfl
  | cons a rest ih => simp [List.flatMap_cons, ih]

/-- The loop over the matched nodes, when it returns, has started one
transform for each attribute node, in order, and reported each other node. -/
theorem node_loop_ret (env : Env) (rdfp : raptor_parser_s) (doc : xmlDoc) (expri : Nat)
    (nodes : List xmlNode) (ret : Int) (log : Log) :
    ∃ d, (grddl_node_loop env rdfp doc expri nodes ret log).log = log ++ d
      ∧ ((grddl_node_loop env rdfp doc expri nodes ret log).returns →
          tasks_of expri d = (attribute_nodes nodes).map (node_sheet_uri env rdfp doc)
          ∧ unexpected_node_reports d + (attribute_nodes nodes).length = nodes.length) := by
  induction nodes generalizing ret log with
  | nil =>
    exact ⟨[], by simp [grddl_node_loop, Exec.log], fun _ =>
      ⟨by simp [tasks_of, attribute_nodes], by simp [unexpected_node_reports, attribute_nodes]⟩⟩
  | cons node rest ih =>
    by_cases hty : node.type = XML_ATTRIBUTE_NODE
    · cases hch : node.children with
      | none =>
        rw [node_loop_cons_fault env rdfp doc expri node rest ret log hty hch]
        exact ⟨[], by simp [Exec.log], fun h => absurd h (not_returns_fault _)⟩
      | some child =>
        rw [node_loop_cons_attr env rdfp doc expri node rest ret log hty child hch]
        obtain ⟨dt, hdt, hev⟩ := transform_uri_ext env rdfp (node_sheet_uri env rdfp doc node)
          doc (log ++ [Event.grddl_transform expri (node_sheet_uri env rdfp doc node)])
        cases ht : raptor_xslt_run_grddl_transform_uri env rdfp
            (node_sheet_uri env rdfp doc node) doc
            (log ++ [Event.grddl_transform expri (node_sheet_uri env rdfp doc node)]) with
        | fault l =>
          rw [ht] at hdt
          refine ⟨[Event.grddl_transform expri (node_sheet_uri env rdfp doc node)] ++ dt, ?_,
            fun h => absurd h (not_returns_fault _)⟩
          simpa [Exec.log] using hdt
        | ret r l =>
          rw [ht] at hdt
          simp only [Exec.log] at hdt
          obtain ⟨d, hd, hspec⟩ := ih r l
          refine ⟨[Event.grddl_transform expri (node_sheet_uri env rdfp doc node)] ++ dt ++ d,
            ?_, ?_⟩
          · simp only []
            rw [hd, hdt]; simp
          · intro hret
            obtain ⟨htasks, hcount⟩ := hspec hret
            refine ⟨?_, ?_⟩
            · rw [tasks_of_append, tasks_of_append, htasks, tasks_of_task _ _ _ hev]
              simp [tasks_of, attribute_nodes, hty]
            · rw [unexpected_node_reports_append, unexpected_node_reports_append,
                unexpected_node_reports_task _ _ hev]
              simp only [attribute_nodes] at hcount ⊢
              simp [unexpected_node_reports, hty]
              simp [unexpected_node_reports] at hcount
              omega
    · rw [node_loop_cons_skip env rdfp doc expri node rest ret log hty]
      obtain ⟨d, hd, hspec⟩ := ih ret
        (log ++ [Event.raptor_parser_error "Got unexpected node type %d"])
      refine ⟨[Event.raptor_parser_error "Got unexpected node type %d"] ++ d, ?_, ?_⟩
      · rw [hd]; simp
      · intro hret
        obtain ⟨htasks, hcount⟩ := hspec hret
        refine ⟨?_, ?_⟩
        · rw [tasks_of_append, htasks]
          simp [tasks_of, attribute_nodes, hty]
        · rw [unexpected_node_reports_append]
          simp only [attribute_nodes] at hcount ⊢
          simp [unexpected_node_reports, hty]
          simp [unexpected_node_reports] at hcount
          omega

theorem rule_matched_node_tasks_ret (env : Env) (rdfp : raptor_parser_s) (doc : xmlDoc)
    (i : Nat) (entry : match_entry) (nodes : List xmlNode) (ret : Int) (l : Log)
    (hfix : entry.xslt_sheet_uri = none) :
    ∃ d, (grddl_rule_matched env rdfp doc i entry nodes ret l).log = l ++ d
      ∧ ((True → (grddl_rule_matched env rdfp doc i entry nodes ret l).returns) →
          tasks_of i d = (attribute_nodes nodes).map (node_sheet_uri env rdfp doc)) := by
  have hrun : grddl_rule_matched env rdfp doc i entry nodes ret l
      = grddl_node_loop env rdfp doc i nodes ret l := by
    unfold grddl_rule_matched
    simp only [hfix]
  rw [hrun]
  obtain ⟨d, hd, hspec⟩ := node_loop_ret env rdfp doc i nodes ret l
  exact ⟨d, hd, fun h => (hspec (h trivial)).1⟩

/-- C4: in every push that returns, the transforms started for a rule of
`match_table` without a fixed sheet URI are those of the attribute nodes of
its match set, in match-set order, so their number is the size of the match
set minus the number of nodes that are not attribute nodes; the rule is
evaluated at most once; the push does return when the matched attribute nodes
can be read and no transform dereferences a null context; the loop over the
nodes, when it returns, has reported each node that is not an attribute node
once, and it goes on after such a node with the remaining nodes and `ret`
unchanged; and when every evaluation and transform succeeds and the failed
flag stays unset the push returns 0, skipped nodes or not. -/
theorem node_rule_transforms (env : Env) (rdfp : raptor_parser_s)
    (s : Option (List Nat)) (len : Nat) (is_end : Int) (log : Log) (i : Nat) (x : String)
    (hrule : match_table[i]? = some { xpath := some x, xslt_sheet_uri := none }) :
    ((raptor_xslt_parse_chunk env rdfp s len is_end log).returns →
      (∃ doc : xmlDoc,
        tasks_of i (new_calls log (raptor_xslt_parse_chunk env rdfp s len is_end log))
          = (matches_of i (new_calls log
              (raptor_xslt_parse_chunk env rdfp s len is_end log))).flatMap
              (fun nodes => (attribute_nodes nodes).map (node_sheet_uri env rdfp doc)))
      ∧ (tasks_of i (new_calls log (raptor_xslt_parse_chunk env rdfp s len is_end log))).length
          = ((matches_of i (new_calls log
              (raptor_xslt_parse_chunk env rdfp s len is_end log))).map
              (fun nodes => nodes.length - (other_nodes nodes).length)).sum)
    ∧ (matches_of i (new_calls log (raptor_xslt_parse_chunk env rdfp s len is_end log))).length ≤ 1
    ∧ (MatchesReadable env → TasksReturn env →
        (raptor_xslt_parse_chunk env rdfp s len is_end log).returns)
    ∧ (∀ (doc : xmlDoc) (nodes : List xmlNode) (ret : Int) (l : Log),
        (grddl_node_loop env rdfp doc i nodes ret l).returns →
        unexpected_node_reports (new_calls l (grddl_node_loop env rdfp doc i nodes ret l))
          = (other_nodes nodes).length)
    ∧ (∀ (doc : xmlDoc) (node : xmlNode) (rest : List xmlNode) (ret : Int) (l : Log),
        node.type ≠ XML_ATTRIBUTE_NODE →
        grddl_node_loop env rdfp doc i (node :: rest) ret l
          = grddl_node_loop env rdfp doc i rest ret
              (l ++ [Event.raptor_parser_error "Got unexpected node type %d"]))
    ∧ (is_end ≠ 0 →
        (rdfp.context.ctxt.isSome = true
          ∨ env.xmlCreatePushParserCtxt log CtxtOwner.document (chunk_bytes s len)
              rdfp.base_uri = true) →
        (∀ l c, (env.myDoc l CtxtOwner.document c).isSome = true) →
        (∀ l d, env.xmlXPathNewContext l d = true) →
        XPathSucceeds env → TasksSucceed env → NeverFailed env → MatchesReadable env →
        result_code (raptor_xslt_parse_chunk env rdfp s len is_end log) = some 0) := by
  obtain ⟨df, pre, dl, hd, hfeed, hpre, htasks, hlen⟩ := parse_chunk_cases_ret env rdfp
    s len is_end log
    (fun dl => ((raptor_xslt_parse_chunk env rdfp s len is_end log).returns →
        ∃ doc : xmlDoc, tasks_of i dl = (matches_of i dl).flatMap
          (fun nodes => (attribute_nodes nodes).map (node_sheet_uri env rdfp doc)))
      ∧ (matches_of i dl).length ≤ 1)
    ⟨fun _ => ⟨{ ident := 0 }, rfl⟩, by simp [matches_of]⟩
    (by
      intro doc p2 obj l0 dl hbase hdl hretloop
      obtain ⟨d, hd, ht, hlen⟩ := rule_loop_tasks env p2 doc i (fun _ => True)
        (fun nodes => (attribute_nodes nodes).map (node_sheet_uri env rdfp doc)) True
        (fun _ _ _ _ => trivial) match_table 0
        (by
          intro entry _ hget nodes ret l _
          rw [Nat.sub_zero, hrule] at hget
          have hentry : entry.xslt_sheet_uri = none := by
            cases hget; rfl
          rw [← node_sheet_uri_base env p2 rdfp doc hbase]
          exact rule_matched_node_tasks_ret env p2 doc i entry nodes ret l hentry)
        0 obj l0
      have hdd : d = dl := List.append_cancel_left (hd.symm.trans hdl)
      subst hdd
      exact ⟨fun hret => ⟨doc, ht (fun _ => hretloop hret)⟩, hlen⟩)
  have hm : matches_of i (new_calls log (raptor_xslt_parse_chunk env rdfp s len is_end log))
      = matches_of i dl := by
    rw [hd, matches_of_append, matches_of_append, matches_of_feed i df hfeed,
      matches_of_setup i pre hpre]
    rfl
  have ht : tasks_of i (new_calls log (raptor_xslt_parse_chunk env rdfp s len is_end log))
      = tasks_of i dl := by
    rw [hd, tasks_of_append, tasks_of_append, tasks_of_feed i df hfeed,
      tasks_of_setup i pre hpre]
    rfl
  rw [hm, ht]
  refine ⟨?_, hlen, ?_, ?_, ?_, ?_⟩
  · intro hret
    obtain ⟨doc, hdoc⟩ := htasks hret
    refine ⟨⟨doc, hdoc⟩, ?_⟩
    rw [hdoc, flatMap_map_length]
    congr 1
    apply List.map_congr_left
    intro nodes _
    exact attribute_nodes_length nodes
  · intro hn htr
    exact parse_chunk_returns env rdfp s len is_end log hn htr
  · intro doc2 nodes ret l hret
    obtain ⟨d, hrun, hspec⟩ := node_loop_ret env rdfp doc2 i nodes ret l
    rw [new_calls_eq l d _ hrun]
    have hcount := (hspec hret).2
    have := attribute_nodes_length nodes
    have h2 : (other_nodes nodes).length ≤ nodes.length := by
      unfold other_nodes
      exact List.length_filter_le _ _
    omega
  · intro doc2 node rest ret l hty
    exact node_loop_cons_skip env rdfp doc2 i node rest ret l hty
  · intro hend hopen hdoc hctx hx hts hf hn
    obtain ⟨df2, hdf2, _⟩ := parse_feed_ext env rdfp s len is_end log
    have hsome : ∃ c, (grddl_parse_feed env rdfp s len is_end log).1 = some c := by
      unfold grddl_parse_feed
      cases hc : rdfp.context.ctxt with
      | none =>
        rw [hc] at hopen
        simp only [Option.isSome_none, Bool.false_eq_true, false_or] at hopen
        simp only [hopen, if_true]
        split <;> exact ⟨_, rfl⟩
      | some c =>
        simp only []
        split <;> exact ⟨_, rfl⟩
    obtain ⟨c, hc⟩ := hsome
    obtain ⟨p, d, hrun, _, _⟩ := parse_finish_all env
      { rdfp with context := { rdfp.context with ctxt := some c } } c
      (grddl_parse_feed env rdfp s len is_end log).2 hdoc hctx hx hts hf hn
    unfold raptor_xslt_parse_chunk
    simp only [hc, hend, if_false]
    rw [hrun]
    rfl

/-- C4 on the sample document: the third rule matches an attribute node and
an element; the push returns 0, and one transform is started, for the
attribute node. -/
theorem node_rule_transforms_witness :
    (raptor_xslt_parse_chunk sample_env sample_rdfp
        (some [60, 104, 116, 109, 108, 62]) 6 1 []).returns
    ∧ matches_of 2 (new_calls [] (raptor_xslt_parse_chunk sample_env sample_rdfp
        (some [60, 104, 116, 109, 108, 62]) 6 1 []))
      = [[sample_attribute 1 "sheet.xsl", sample_element 2]]
    ∧ tasks_of 2 (new_calls [] (raptor_xslt_parse_chunk sample_env sample_rdfp
        (some [60, 104, 116, 109, 108, 62]) 6 1 [])) = [some "sheet.xsl"]
    ∧ (tasks_of 2 (new_calls [] (raptor_xslt_parse_chunk sample_env sample_rdfp
        (some [60, 104, 116, 109, 108, 62]) 6 1 []))).length
      = ((matches_of 2 (new_calls [] (raptor_xslt_parse_chunk sample_env sample_rdfp
          (some [60, 104, 116, 109, 108, 62]) 6 1 []))).map
            (fun nodes => nodes.length - (other_nodes nodes).length)).sum
    ∧ result_code (raptor_xslt_parse_chunk sample_env sample_rdfp
        (some [60, 104, 116, 109, 108, 62]) 6 1 []) = some 0 :=
  ⟨by decide, by decide, by decide,
   ((node_rule_transforms sample_env sample_rdfp (some [60, 104, 116, 109, 108, 62]) 6 1 []
      2 "//@dataview:transformation" rfl).1 (by decide)).2,
   (node_rule_transforms sample_env sample_rdfp (some [60, 104, 116, 109, 108, 62]) 6 1 []
      2 "//@dataview:transformation" rfl).2.2.2.2.2 (by decide) (Or.inr rfl) (fun _ _ => rfl)
      (fun _ _ => rfl) sample_env_xpath_succeeds sample_env_tasks_succeed (fun _ => rfl)
      sample_env_matches_readable⟩


/-! ## Failures of a transform -/

/-- C5, the code at a failing input: the first rule matches the attribute
nodes `a.xsl` and `b.xsl` and the fetch of `a.xsl` fails.  That transform
returns 1 after the fetch alone, without compiling or applying a sheet; but
the loop over the nodes goes on: the transform for `b.xsl` is started, fetched,
compiled, applied and given to the nested parser, the five later rules are
evaluated, and the push returns 0. -/
theorem fetch_failure_does_not_halt :
    raptor_xslt_run_grddl_transform_uri fetch_fail_env sample_rdfp (some "a.xsl")
        { ident := 0 } []
      = Exec.ret 1 [Event.raptor_www_fetch (some "a.xsl")]
    ∧ tasks (new_calls [] (raptor_xslt_parse_chunk fetch_fail_env sample_rdfp
        (some [60, 104, 116, 109, 108, 62]) 6 1 [])) = [some "a.xsl", some "b.xsl"]
    ∧ ((new_calls [] (raptor_xslt_parse_chunk fetch_fail_env sample_rdfp
        (some [60, 104, 116, 109, 108, 62]) 6 1 [])).drop 6).take 10
      = [Event.grddl_transform 0 (some "a.xsl"),
         Event.raptor_www_fetch (some "a.xsl"),
         Event.grddl_transform 0 (some "b.xsl"),
         Event.raptor_www_fetch (some "b.xsl"),
         Event.xmlCreatePushParserCtxt CtxtOwner.sheet [60, 120] (some "b.xsl"),
         Event.xmlParseChunk CtxtOwner.sheet [] 1,
         Event.xsltParseStylesheetDoc (some { ident := 1 }),
         Event.xsltApplyStylesheet { ident := 7 } { ident := 0 },
         Event.xsltSaveResultToString { ident := 8 } { ident := 7 },
         Event.raptor_start_parse (some "http://ex/doc.html") 0]
    ∧ (xpath_evals (new_calls [] (raptor_xslt_parse_chunk fetch_fail_env sample_rdfp
        (some [60, 104, 116, 109, 108, 62]) 6 1 []))).map Prod.fst = [0, 1, 2, 3, 4, 5]
    ∧ result_code (raptor_xslt_parse_chunk fetch_fail_env sample_rdfp
        (some [60, 104, 116, 109, 108, 62]) 6 1 []) = some 0 := by
  refine ⟨by decide, by decide, by decide, by decide, by decide⟩

/-- C6, the code at a failing input: the third rule matches the attribute
node `a.xsl`, an element and the attribute node `b.xsl`; the fetch of `a.xsl`
fails, so that transform returns 1; the transform for `b.xsl` returns 0, and
the push returns 0: the failure of the first transform is lost. -/
theorem failed_transform_is_dropped :
    raptor_xslt_run_grddl_transform_uri dropped_failure_env sample_rdfp (some "a.xsl")
        { ident := 0 } []
      = Exec.ret 1 [Event.raptor_www_fetch (some "a.xsl")]
    ∧ tasks (new_calls [] (raptor_xslt_parse_chunk dropped_failure_env sample_rdfp
        (some [60, 104, 116, 109, 108, 62]) 6 1 [])) = [some "a.xsl", some "b.xsl"]
    ∧ (∀ l : Log, dropped_failure_env.failed l = false)
    ∧ result_code (raptor_xslt_parse_chunk dropped_failure_env sample_rdfp
        (some [60, 104, 116, 109, 108, 62]) 6 1 []) = some 0 := by
  refine ⟨by decide, by decide, fun _ => rfl, by decide⟩

/-- C7, the code at a failing input: the Dublin Core rule matches, the result
of its transform is given to the nested RDF/XML parser, and
`raptor_parse_chunk` returns 1.  The transform still returns 0, the two later
rules are evaluated, and the push returns 0. -/
theorem rdfxml_failure_is_ignored :
    raptor_xslt_run_grddl_transform_doc rdfxml_fail_env sample_rdfp
        (some "http://www.w3.org/2000/06/dc-extract/dc-extract.xsl") (some { ident := 1 })
        { ident := 0 } []
      = (0, [Event.xsltParseStylesheetDoc (some { ident := 1 }),
             Event.xsltApplyStylesheet { ident := 7 } { ident := 0 },
             Event.xsltSaveResultToString { ident := 8 } { ident := 7 },
             Event.raptor_start_parse (some "http://ex/doc.html") 0,
             Event.raptor_parse_chunk [60, 114] 2 1 1])
    ∧ Event.raptor_parse_chunk [60, 114] 2 1 1
        ∈ new_calls [] (raptor_xslt_parse_chunk rdfxml_fail_env sample_rdfp
            (some [60, 104, 116, 109, 108, 62]) 6 1 [])
    ∧ tasks (new_calls [] (raptor_xslt_parse_chunk rdfxml_fail_env sample_rdfp
        (some [60, 104, 116, 109, 108, 62]) 6 1 []))
      = [some "http://www.w3.org/2000/06/dc-extract/dc-extract.xsl"]
    ∧ (xpath_evals (new_calls [] (raptor_xslt_parse_chunk rdfxml_fail_env sample_rdfp
        (some [60, 104, 116, 109, 108, 62]) 6 1 []))).map Prod.fst = [0, 1, 2, 3, 4, 5]
    ∧ result_code (raptor_xslt_parse_chunk rdfxml_fail_env sample_rdfp
        (some [60, 104, 116, 109, 108, 62]) 6 1 []) = some 0 := by
  refine ⟨by decide, by decide, by decide, by decide, by decide⟩

/-! ## The result of a transform and the nested parser -/

/-- Every call a push makes is one of the feed, of the setup, or of the loop
over the rules. -/
theorem parse_chunk_events (env : Env) (rdfp : raptor_parser_s) (s : Option (List Nat))
    (len : Nat) (is_end : Int) (log : Log) :
    ∀ e ∈ new_calls log (raptor_xslt_parse_chunk env rdfp s len is_end log),
      FeedEvent e ∨ FinishEvent env rdfp.base_uri e := by
  obtain ⟨df, pre, dl, hd, hfeed, hpre, hloop⟩ := parse_chunk_cases env rdfp s len is_end log
    (fun dl => ∀ e ∈ dl, LoopEvent env rdfp.base_uri 0 e) (by simp)
    (by
      intro doc p2 obj l0 dl hbase hdl
      obtain ⟨d, hd, hev⟩ := rule_loop_ext env p2 doc match_table 0 0 obj l0
      have hdd : d = dl := List.append_cancel_left (hd.symm.trans hdl)
      rw [← hdd, ← hbase]
      exact hev)
  intro e he
  rw [hd] at he
  simp only [List.mem_append] at he
  rcases he with (he | he) | he
  · exact Or.inl (hfeed e he)
  · exact Or.inr (Or.inl (hpre e he))
  · exact Or.inr (Or.inr (hloop e he))

theorem transform_doc_empty (env : Env) (rdfp : raptor_parser_s) (xslt_uri : Option String)
    (xslt_doc : Option xmlDoc) (doc : xmlDoc) (log : Log) (sheet : xsltStylesheet)
    (res : xmlDoc)
    (hcompile : env.xsltParseStylesheetDoc log xslt_doc = some sheet)
    (happly : env.xsltApplyStylesheet (log ++ [Event.xsltParseStylesheetDoc xslt_doc])
      sheet doc = some res)
    (hempty : (env.xsltSaveResultToString
      (log ++ [Event.xsltParseStylesheetDoc xslt_doc] ++ [Event.xsltApplyStylesheet sheet doc])
      res sheet).getD [] = []) :
    raptor_xslt_run_grddl_transform_doc env rdfp xslt_uri xslt_doc doc log
      = (0, log ++ [Event.xsltParseStylesheetDoc xslt_doc] ++
          [Event.xsltApplyStylesheet sheet doc] ++
          [Event.xsltSaveResultToString res sheet] ++
          [Event.raptor_parser_warning "XSLT returned an empty document"]) := by
  unfold raptor_xslt_run_grddl_transform_doc
  simp only [hcompile, happly, hempty, List.length_nil, decide_True, Bool.or_true, if_true]

theorem transform_doc_result (env : Env) (rdfp : raptor_parser_s) (xslt_uri : Option String)
    (xslt_doc : Option xmlDoc) (doc : xmlDoc) (log : Log) (sheet : xsltStylesheet)
    (res : xmlDoc) (buffer : List Nat)
    (hcompile : env.xsltParseStylesheetDoc log xslt_doc = some sheet)
    (happly : env.xsltApplyStylesheet (log ++ [Event.xsltParseStylesheetDoc xslt_doc])
      sheet doc = some res)
    (hsave : env.xsltSaveResultToString
      (log ++ [Event.xsltParseStylesheetDoc xslt_doc] ++ [Event.xsltApplyStylesheet sheet doc])
      res sheet = some buffer)
    (hne : buffer ≠ []) :
    raptor_xslt_run_grddl_transform_doc env rdfp xslt_uri xslt_doc doc log
      = (0, log ++ [Event.xsltParseStylesheetDoc xslt_doc] ++
          [Event.xsltApplyStylesheet sheet doc] ++
          [Event.xsltSaveResultToString res sheet] ++
          [Event.raptor_start_parse rdfp.base_uri
            (env.raptor_start_parse
              (log ++ [Event.xsltParseStylesheetDoc xslt_doc] ++
                [Event.xsltApplyStylesheet sheet doc] ++
                [Event.xsltSaveResultToString res sheet]) rdfp.base_uri)] ++
          [Event.raptor_parse_chunk buffer buffer.length 1
            (env.raptor_parse_chunk
              (log ++ [Event.xsltParseStylesheetDoc xslt_doc] ++
                [Event.xsltApplyStylesheet sheet doc] ++
                [Event.xsltSaveResultToString res sheet] ++
                [Event.raptor_start_parse rdfp.base_uri
                  (env.raptor_start_parse
                    (log ++ [Event.xsltParseStylesheetDoc xslt_doc] ++
                      [Event.xsltApplyStylesheet sheet doc] ++
                      [Event.xsltSaveResultToString res sheet]) rdfp.base_uri)])
              buffer buffer.length 1)]) := by
  have hlen : ¬ buffer.length = 0 := fun h => hne (List.length_eq_zero.mp h)
  unfold raptor_xslt_run_grddl_transform_doc
  simp only [hcompile, happly, hsave, Option.isNone_some, Option.getD_some, hlen,
    decide_False, Bool.or_self, Bool.false_eq_true, if_false]

theorem tasks_succeed_of_empty (env : Env) (hfetch : SheetsArrive env)
    (hcompile : SheetsCompile env) (happly : SheetsApply env) (hempty : ResultsEmpty env) :
    TasksSucceed env := by
  intro p u d l
  obtain ⟨c, lf, hf⟩ := hfetch u l
  unfold raptor_xslt_run_grddl_transform_uri
  simp only [hf, ne_eq, not_true_eq_false, if_false]
  obtain ⟨sheet, hs⟩ := Option.isSome_iff_exists.mp
    (hcompile (lf ++ [Event.xmlParseChunk CtxtOwner.sheet [] 1])
      (env.myDoc (lf ++ [Event.xmlParseChunk CtxtOwner.sheet [] 1]) CtxtOwner.sheet
        (c.push [] 1)))
  obtain ⟨res, hr⟩ := Option.isSome_iff_exists.mp
    (happly (lf ++ [Event.xmlParseChunk CtxtOwner.sheet [] 1] ++
      [Event.xsltParseStylesheetDoc (env.myDoc (lf ++ [Event.xmlParseChunk CtxtOwner.sheet [] 1])
        CtxtOwner.sheet (c.push [] 1))]) sheet d)
  rw [transform_doc_empty env p u _ d _ sheet res hs hr (hempty _ _ _)]
  exact ⟨_, rfl⟩

theorem rdfxml_calls_empty (env : Env) (base_uri : Option String) (hempty : ResultsEmpty env)
    (d : Log) (h : ∀ e ∈ d, FeedEvent e ∨ FinishEvent env base_uri e) :
    rdfxml_calls d = [] := by
  unfold rdfxml_calls
  rw [List.filter_eq_nil_iff]
  intro e he
  have hcase := h e he
  cases e with
  | raptor_start_parse b rc =>
    rcases hcase with hc | hc | hc | ⟨k, hk, _⟩ | hc | hc
    · simp [FeedEvent] at hc
    · simp [SetupEvent] at hc
    · obtain ⟨_, l, res, sheet, buffer, hsave, hne⟩ := hc
      have := hempty l res sheet
      rw [hsave] at this
      exact absurd this hne
    · simp [Event.rule?] at hk
    · cases hc
    · cases hc
  | raptor_parse_chunk buffer n fl rc =>
    rcases hcase with hc | hc | hc | ⟨k, hk, _⟩ | hc | hc
    · simp [FeedEvent] at hc
    · simp [SetupEvent] at hc
    · obtain ⟨_, _, hne, l, res, sheet, hsave⟩ := hc
      have := hempty l res sheet
      rw [hsave] at this
      exact absurd this hne
    · simp [Event.rule?] at hk
    · cases hc
    · cases hc
  | _ => simp

theorem sample_env_sheets_arrive : SheetsArrive sample_env := by
  intro u l
  exact ⟨_, _, rfl⟩

/-- C8: when a sheet compiles and applies and the saved result is absent or of
length zero, `raptor_xslt_run_grddl_transform_doc` reports the warning of an
empty document, makes no call on the nested RDF/XML parser and returns 0; and
in an end-of-stream push in which this is so for every transform, every
evaluation succeeds and the failed flag stays unset, nothing is given to the
nested parser, the six rules are all evaluated and the push returns 0. -/
theorem empty_result_warns_and_continues (env : Env) (rdfp : raptor_parser_s) :
    (∀ (xslt_uri : Option String) (xslt_doc : Option xmlDoc) (doc : xmlDoc) (log : Log)
        (sheet : xsltStylesheet) (res : xmlDoc),
        env.xsltParseStylesheetDoc log xslt_doc = some sheet →
        env.xsltApplyStylesheet (log ++ [Event.xsltParseStylesheetDoc xslt_doc]) sheet doc
          = some res →
        (env.xsltSaveResultToString
          (log ++ [Event.xsltParseStylesheetDoc xslt_doc] ++
            [Event.xsltApplyStylesheet sheet doc]) res sheet).getD [] = [] →
        raptor_xslt_run_grddl_transform_doc env rdfp xslt_uri xslt_doc doc log
          = (0, log ++ [Event.xsltParseStylesheetDoc xslt_doc] ++
              [Event.xsltApplyStylesheet sheet doc] ++
              [Event.xsltSaveResultToString res sheet] ++
              [Event.raptor_parser_warning "XSLT returned an empty document"]))
    ∧ (∀ (s : Option (List Nat)) (len : Nat) (is_end : Int) (log : Log),
        is_end ≠ 0 →
        (rdfp.context.ctxt.isSome = true
          ∨ env.xmlCreatePushParserCtxt log CtxtOwner.document (chunk_bytes s len)
              rdfp.base_uri = true) →
        (∀ l c, (env.myDoc l CtxtOwner.document c).isSome = true) →
        (∀ l d, env.xmlXPathNewContext l d = true) →
        XPathSucceeds env → MatchesReadable env → NeverFailed env →
        SheetsArrive env → SheetsCompile env → SheetsApply env → ResultsEmpty env →
        result_code (raptor_xslt_parse_chunk env rdfp s len is_end log) = some 0
        ∧ rdfxml_calls (new_calls log (raptor_xslt_parse_chunk env rdfp s len is_end log)) = []
        ∧ (xpath_evals (new_calls log
            (raptor_xslt_parse_chunk env rdfp s len is_end log))).map Prod.fst
          = [0, 1, 2, 3, 4, 5]) := by
  refine ⟨?_, ?_⟩
  · intro xslt_uri xslt_doc doc log sheet res hc ha he
    exact transform_doc_empty env rdfp xslt_uri xslt_doc doc log sheet res hc ha he
  · intro s len is_end log hend hopen hdoc hctx hx hn hf hfetch hcompile happly hempty
    have hts := tasks_succeed_of_empty env hfetch hcompile happly hempty
    obtain ⟨df, hdf, hfeed⟩ := parse_feed_ext env rdfp s len is_end log
    have hsome : ∃ c, (grddl_parse_feed env rdfp s len is_end log).1 = some c := by
      unfold grddl_parse_feed
      cases hc : rdfp.context.ctxt with
      | none =>
        rw [hc] at hopen
        simp only [Option.isSome_none, Bool.false_eq_true, false_or] at hopen
        simp only [hopen, if_true]
        split <;> exact ⟨_, rfl⟩
      | some c =>
        simp only []
        split <;> exact ⟨_, rfl⟩
    obtain ⟨c, hc⟩ := hsome
    obtain ⟨p, d, hrun, hev, _⟩ := parse_finish_all env
      { rdfp with context := { rdfp.context with ctxt := some c } } c
      (grddl_parse_feed env rdfp s len is_end log).2 hdoc hctx hx hts hf hn
    have hall : raptor_xslt_parse_chunk env rdfp s len is_end log
        = Exec.ret (0, p) (log ++ (df ++ d)) := by
      unfold raptor_xslt_parse_chunk
      simp only [hc, hend, if_false]
      rw [hrun, hdf]
      simp
    refine ⟨by rw [hall]; rfl, ?_, ?_⟩
    · exact rdfxml_calls_empty env rdfp.base_uri hempty _
        (parse_chunk_events env rdfp s len is_end log)
    · rw [new_calls_eq log (df ++ d) _ (by rw [hall]; rfl), xpath_evals_append,
        xpath_evals_feed df hfeed, hev, match_table_rules]
      rfl

/-- C8 on the sample document, where every transform result is absent: the
transform reports the warning and returns 0, and the push returns 0 without a
call on the nested parser. -/
theorem empty_result_warns_and_continues_witness :
    raptor_xslt_run_grddl_transform_doc sample_env sample_rdfp (some "sheet.xsl")
        (some { ident := 1 }) { ident := 0 } []
      = (0, [Event.xsltParseStylesheetDoc (some { ident := 1 }),
             Event.xsltApplyStylesheet { ident := 7 } { ident := 0 },
             Event.xsltSaveResultToString { ident := 8 } { ident := 7 },
             Event.raptor_parser_warning "XSLT returned an empty document"])
    ∧ result_code (raptor_xslt_parse_chunk sample_env sample_rdfp
        (some [60, 104, 116, 109, 108, 62]) 6 1 []) = some 0
    ∧ rdfxml_calls (new_calls [] (raptor_xslt_parse_chunk sample_env sample_rdfp
        (some [60, 104, 116, 109, 108, 62]) 6 1 [])) = []
    ∧ (xpath_evals (new_calls [] (raptor_xslt_parse_chunk sample_env sample_rdfp
        (some [60, 104, 116, 109, 108, 62]) 6 1 []))).map Prod.fst = [0, 1, 2, 3, 4, 5] :=
  ⟨(empty_result_warns_and_continues sample_env sample_rdfp).1 (some "sheet.xsl")
      (some { ident := 1 }) { ident := 0 } [] { ident := 7 } { ident := 8 } rfl rfl rfl,
   (empty_result_warns_and_continues sample_env sample_rdfp).2
      (some [60, 104, 116, 109, 108, 62]) 6 1 [] (by decide) (Or.inr rfl) (fun _ _ => rfl)
      (fun _ _ => rfl) sample_env_xpath_succeeds sample_env_matches_readable (fun _ => rfl)
      sample_env_sheets_arrive (fun _ _ => rfl) (fun _ _ _ => rfl) (fun _ _ _ => rfl)⟩

/-- C10: when a sheet compiles and applies and the saved result is not empty,
`raptor_xslt_run_grddl_transform_doc` starts the nested RDF/XML parser with
the base URI of the outer parser and then gives it the result in one call,
with the length of the whole buffer and the end flag 1, and these are its only
calls on the nested parser; and in every push every start of the nested parser
is with the base URI of the outer parser and every buffer given to it is a
whole saved result with the end flag 1. -/
theorem nested_parse_gets_whole_result (env : Env) (rdfp : raptor_parser_s) :
    (∀ (xslt_uri : Option String) (xslt_doc : Option xmlDoc) (doc : xmlDoc) (log : Log)
        (sheet : xsltStylesheet) (res : xmlDoc) (buffer : List Nat),
        env.xsltParseStylesheetDoc log xslt_doc = some sheet →
        env.xsltApplyStylesheet (log ++ [Event.xsltParseStylesheetDoc xslt_doc]) sheet doc
          = some res →
        env.xsltSaveResultToString
          (log ++ [Event.xsltParseStylesheetDoc xslt_doc] ++
            [Event.xsltApplyStylesheet sheet doc]) res sheet = some buffer →
        buffer ≠ [] →
        (raptor_xslt_run_grddl_transform_doc env rdfp xslt_uri xslt_doc doc log).1 = 0
        ∧ ∃ rc1 rc2,
          rdfxml_calls ((raptor_xslt_run_grddl_transform_doc env rdfp xslt_uri xslt_doc doc
              log).2.drop log.length)
            = [Event.raptor_start_parse rdfp.base_uri rc1,
               Event.raptor_parse_chunk buffer buffer.length 1 rc2])
    ∧ (∀ (s : Option (List Nat)) (len : Nat) (is_end : Int) (log : Log),
        ∀ e ∈ new_calls log (raptor_xslt_parse_chunk env rdfp s len is_end log),
          (∀ b rc, e = Event.raptor_start_parse b rc → b = rdfp.base_uri)
          ∧ (∀ buffer n fl rc, e = Event.raptor_parse_chunk buffer n fl rc →
              n = buffer.length ∧ fl = 1 ∧ buffer ≠ []
              ∧ ∃ l res sheet, env.xsltSaveResultToString l res sheet = some buffer)) := by
  refine ⟨?_, ?_⟩
  · intro xslt_uri xslt_doc doc log sheet res buffer hc ha hs hne
    rw [transform_doc_result env rdfp xslt_uri xslt_doc doc log sheet res buffer hc ha hs hne]
    refine ⟨rfl, ?_⟩
    simp only [List.append_assoc, List.drop_left]
    exact ⟨_, _, rfl⟩
  · intro s len is_end log e he
    have hcase := parse_chunk_events env rdfp s len is_end log e he
    refine ⟨?_, ?_⟩
    · intro b rc hb
      subst hb
      rcases hcase with hc | hc | hc | ⟨k, hk, _⟩ | hc | hc
      · simp [FeedEvent] at hc
      · simp [SetupEvent] at hc
      · exact hc.1
      · simp [Event.rule?] at hk
      · cases hc
      · cases hc
    · intro buffer n fl rc hb
      subst hb
      rcases hcase with hc | hc | hc | ⟨k, hk, _⟩ | hc | hc
      · simp [FeedEvent] at hc
      · simp [SetupEvent] at hc
      · exact hc
      · simp [Event.rule?] at hk
      · cases hc
      · cases hc

/-- C10 on a document whose matched attribute node has its own base
`http://other/base/`: the sheet URI is resolved against that base, and the
nested parser is started with the base URI of the document and given the two
bytes of the result in one call. -/
theorem nested_parse_gets_whole_result_witness :
    tasks (new_calls [] (raptor_xslt_parse_chunk based_env sample_rdfp
        (some [60, 104, 116, 109, 108, 62]) 6 1 [])) = [some "http://other/base/sheet.xsl"]
    ∧ rdfxml_calls (new_calls [] (raptor_xslt_parse_chunk based_env sample_rdfp
        (some [60, 104, 116, 109, 108, 62]) 6 1 []))
      = [Event.raptor_start_parse (some "http://ex/doc.html") 0,
         Event.raptor_parse_chunk [60, 114] 2 1 0]
    ∧ ((raptor_xslt_run_grddl_transform_doc based_env sample_rdfp
          (some "http://other/base/sheet.xsl") (some { ident := 1 }) { ident := 0 } []).1 = 0
      ∧ ∃ rc1 rc2,
        rdfxml_calls ((raptor_xslt_run_grddl_transform_doc based_env sample_rdfp
          (some "http://other/base/sheet.xsl") (some { ident := 1 }) { ident := 0 } []).2.drop
            ([] : Log).length)
          = [Event.raptor_start_parse sample_rdfp.base_uri rc1,
             Event.raptor_parse_chunk [60, 114] [60, 114].length 1 rc2]) :=
  ⟨by decide, by decide,
   (nested_parse_gets_whole_result based_env sample_rdfp).1
      (some "http://other/base/sheet.xsl") (some { ident := 1 }) { ident := 0 } []
      { ident := 7 } { ident := 8 } [60, 114] rfl rfl rfl (by decide)⟩

/-! ## Chunking -/

theorem document_feeds_setup (d : Log) (h : ∀ e ∈ d, SetupEvent e) : document_feeds d = [] := by
  apply filterMap_none_of_forall
  intro e he
  have := h e he
  cases e <;> simp_all [SetupEvent]

theorem document_feeds_loop {env : Env} (base_uri : Option String) (j : Nat) (d : Log)
    (h : ∀ e ∈ d, LoopEvent env base_uri j e) : document_feeds d = [] := by
  apply filterMap_none_of_forall
  intro e he
  rcases h e he with h1 | ⟨k, hk, _⟩ | rfl | rfl
  · cases e <;> simp_all [TaskEvent]
  · cases e <;> simp_all [Event.rule?]
  · rfl
  · rfl

/-- The last part of a push makes no call on the document's push parser. -/
theorem parse_finish_feeds (env : Env) (rdfp : raptor_parser_s) (c : xmlParserCtxt)
    (log : Log) :
    ∃ d, (grddl_parse_finish env rdfp c log).log = log ++ d ∧ document_feeds d = [] := by
  obtain ⟨pre, dl, hlog, hpre, hP⟩ := parse_finish_cases env rdfp c log
    (fun dl => document_feeds dl = []) rfl
    (by
      intro doc p2 obj l0 dl _ hdl
      obtain ⟨d, hd, hev⟩ := rule_loop_ext env p2 doc match_table 0 0 obj l0
      have hdd : d = dl := List.append_cancel_left (hd.symm.trans hdl)
      rw [← hdd]
      exact document_feeds_loop _ 0 d hev)
  refine ⟨pre ++ dl, by rw [hlog]; simp, ?_⟩
  rw [document_feeds_append, document_feeds_setup pre hpre, hP]
  rfl

theorem eval_none_not_body {env : Env} (base_uri : Option String) (k i : Nat) (x : String)
    (d : Log) (h : ∀ e ∈ d, BodyEvent env base_uri k e) :
    Event.xmlXPathEvalExpression i x none ∉ d := by
  intro hmem
  rcases h _ hmem with h1 | ⟨u, hu⟩ | hu
  · simp [TaskEvent] at h1
  · cases hu
  · cases hu

theorem eval_none_loop_le {env : Env} (base_uri : Option String) (j i : Nat) (x : String)
    (d : Log) (h : ∀ e ∈ d, LoopEvent env base_uri j e)
    (hmem : Event.xmlXPathEvalExpression i x none ∈ d) : j ≤ i := by
  rcases h _ hmem with h1 | ⟨k, hk, hle⟩ | hu | hu
  · simp [TaskEvent] at h1
  · simp only [Event.rule?, Option.some.injEq] at hk
    omega
  · cases hu
  · cases hu

/-- When an evaluation in the loop over a table gives no result object, the
loop returns 1 right after the report of it: the calls before are those of
earlier rules. -/
theorem rule_loop_eval_none (env : Env) (rdfp : raptor_parser_s) (doc : xmlDoc)
    (i : Nat) (x : String) (table : List match_entry) (j : Nat) (ret : Int)
    (obj : Option xmlXPathObject) (log d : Log)
    (hd : (grddl_rule_loop env rdfp doc table j ret obj log).log = log ++ d)
    (hmem : Event.xmlXPathEvalExpression i x none ∈ d) :
    ∃ before, d = before ++ [Event.xmlXPathEvalExpression i x none,
          Event.raptor_parser_error "Unable to evaluate XPath expression \"%s\""]
      ∧ grddl_rule_loop env rdfp doc table j ret obj log
          = Exec.ret (LoopExit.returned 1 none) (log ++ d)
      ∧ (∀ p ∈ xpath_evals before, p.1 < i)
      ∧ (∀ k, i ≤ k → tasks_of k before = []) := by
  induction table generalizing j ret obj log d with
  | nil =>
    simp only [grddl_rule_loop, Exec.log] at hd
    have : d = [] := by simpa using hd
    subst this
    simp at hmem
  | cons entry table ih =>
    cases hx : entry.xpath with
    | none =>
      rw [rule_loop_end env rdfp doc entry table j ret obj log hx] at hd
      simp only [Exec.log] at hd
      have : d = [] := by simpa using hd
      subst this
      simp at hmem
    | some y =>
      cases he : env.xmlXPathEvalExpression log y doc with
      | none =>
        rw [rule_loop_eval_failed env rdfp doc entry table j ret obj log y hx he] at hd ⊢
        simp only [Exec.log, List.append_assoc] at hd
        have hdd : d = [Event.xmlXPathEvalExpression j y none,
            Event.raptor_parser_error "Unable to evaluate XPath expression \"%s\""] :=
          (List.append_cancel_left hd).symm
        subst hdd
        simp only [List.mem_cons, Event.xmlXPathEvalExpression.injEq, and_true,
          List.mem_singleton, List.mem_nil_iff, or_false] at hmem
        rcases hmem with ⟨rfl, rfl⟩ | hmem
        · exact ⟨[], by simp, by simp, by simp [xpath_evals], fun _ _ => rfl⟩
        · cases hmem
      | some o =>
        have hstep : ∀ (r : Int) (l dn : Log) (dh : Log),
            l = log ++ dh →
            (∀ p ∈ xpath_evals dh, p.1 = j) → (∀ k, k ≠ j → tasks_of k dh = []) →
            Event.xmlXPathEvalExpression i x none ∉ dh →
            (grddl_rule_loop env rdfp doc table (j + 1) r (some o) l).log = l ++ dn →
            d = dh ++ dn →
            ∃ before, d = before ++ [Event.xmlXPathEvalExpression i x none,
                Event.raptor_parser_error "Unable to evaluate XPath expression \"%s\""]
              ∧ grddl_rule_loop env rdfp doc table (j + 1) r (some o) l
                  = Exec.ret (LoopExit.returned 1 none) (log ++ d)
              ∧ (∀ p ∈ xpath_evals before, p.1 < i)
              ∧ (∀ k, i ≤ k → tasks_of k before = []) := by
          intro r l dn dh hl hevs htasks hnot hrun hdeq
          have hmem2 : Event.xmlXPathEvalExpression i x none ∈ dn := by
            rw [hdeq, List.mem_append] at hmem
            exact hmem.resolve_left hnot
          obtain ⟨d2, hd2, hev2⟩ := rule_loop_ext env rdfp doc table (j + 1) r (some o) l
          have hdd : d2 = dn := List.append_cancel_left (hd2.symm.trans hrun)
          subst hdd
          have hji : j + 1 ≤ i := eval_none_loop_le _ _ _ _ _ hev2 hmem2
          obtain ⟨b2, hb2, hres, hlt, hts⟩ := ih (j + 1) r (some o) l d2 hrun hmem2
          refine ⟨dh ++ b2, ?_, ?_, ?_, ?_⟩
          · rw [hdeq, hb2]; simp
          · rw [hres, hl, hdeq]; simp
          · intro p hp
            rw [xpath_evals_append, List.mem_append] at hp
            rcases hp with hp | hp
            · have := hevs p hp
              omega
            · exact hlt p hp
          · intro k hk
            rw [tasks_of_append, hts k hk, htasks k (by omega)]
            rfl
        have hhead_ev : ∀ p ∈ xpath_evals [Event.xmlXPathEvalExpression j y (some o)],
            p.1 = j := by
          intro p hp
          simp [xpath_evals] at hp
          rw [hp]
        cases hempty : xmlXPathNodeSetIsEmpty o.nodesetval with
        | true =>
          rw [rule_loop_no_match env rdfp doc entry table j ret obj log y hx o he hempty]
            at hd ⊢
          obtain ⟨dn, hdn, _⟩ := rule_loop_ext env rdfp doc table (j + 1) ret (some o)
            (log ++ [Event.xmlXPathEvalExpression j y (some o)])
          refine hstep ret _ dn [Event.xmlXPathEvalExpression j y (some o)] rfl hhead_ev
            (fun _ _ => rfl) (by simp) hdn ?_
          rw [hdn] at hd
          simp only [List.append_assoc] at hd
          exact (List.append_cancel_left hd).symm
        | false =>
          rw [rule_loop_match env rdfp doc entry table j ret obj log y hx o he hempty]
            at hd ⊢
          obtain ⟨db, hdb, hbody_ev⟩ := rule_matched_ext env rdfp doc j entry
            (o.nodesetval.getD []) ret (log ++ [Event.xmlXPathEvalExpression j y (some o)])
          have hnotb : Event.xmlXPathEvalExpression i x none
              ∉ [Event.xmlXPathEvalExpression j y (some o)] ++ db := by
            intro h
            rw [List.mem_append] at h
            rcases h with h | h
            · simp at h
            · exact eval_none_not_body _ _ _ _ _ hbody_ev h
          cases hm : grddl_rule_matched env rdfp doc j entry (o.nodesetval.getD []) ret
              (log ++ [Event.xmlXPathEvalExpression j y (some o)]) with
          | fault l =>
            rw [hm] at hd hdb
            simp only [Exec.log] at hd hdb
            rw [hdb] at hd
            simp only [List.append_assoc] at hd
            have := List.append_cancel_left hd
            rw [← this] at hmem
            exact absurd hmem hnotb
          | ret r l =>
            rw [hm] at hd hdb
            simp only [Exec.log] at hdb
            simp only [] at hd ⊢
            by_cases hstop : (env.failed l || decide (r ≠ 0)) = true
            · rw [if_pos hstop] at hd
              simp only [Exec.log] at hd
              rw [hdb] at hd
              simp only [List.append_assoc] at hd
              have := List.append_cancel_left hd
              rw [← this] at hmem
              exact absurd hmem hnotb
            · rw [if_neg hstop] at hd ⊢
              obtain ⟨dn, hdn, _⟩ := rule_loop_ext env rdfp doc table (j + 1) r (some o) l
              refine hstep r l dn ([Event.xmlXPathEvalExpression j y (some o)] ++ db)
                (by rw [hdb]; simp) ?_ ?_ hnotb hdn ?_
              · intro p hp
                rw [xpath_evals_append, xpath_evals_body _ _ _ hbody_ev, List.append_nil] at hp
                exact hhead_ev p hp
              · intro k hk
                rw [tasks_of_append, tasks_of_body_ne _ k j (fun h => hk h.symm) db hbody_ev]
                rfl
              · rw [hdn, hdb] at hd
                simp only [List.append_assoc] at hd
                have := List.append_cancel_left hd
                rw [← this]; simp

/-- The last part of a push, when the tree exists and the XPath context is
made, in terms of the loop over `match_table`. -/
theorem parse_finish_loop (env : Env) (rdfp : raptor_parser_s) (c : xmlParserCtxt)
    (log : Log) (doc : xmlDoc) (hd : env.myDoc log CtxtOwner.document c = some doc)
    (hm : env.xmlXPathNewContext log doc = true) :
    grddl_parse_finish env rdfp c log
      = match grddl_rule_loop env
          { rdfp with context := { rdfp.context with xpathCtx := some doc } } doc
          match_table 0 0 rdfp.context.xpathObj
          (log ++ [Event.xmlXPathNewContext doc] ++
            [Event.xmlXPathRegisterNs "html" "http://www.w3.org/1999/xhtml",
             Event.xmlXPathRegisterNs "dataview" "http://www.w3.org/2003/g/data-view#"]) with
        | Exec.fault l => Exec.fault l
        | Exec.ret (LoopExit.returned v obj) l =>
          Exec.ret (v, ⟨rdfp.base_uri, ⟨rdfp.context.ctxt, some doc, obj⟩⟩) l
        | Exec.ret (LoopExit.done ret obj) l =>
          if env.failed l
          then Exec.ret (1, ⟨rdfp.base_uri, ⟨rdfp.context.ctxt, some doc, obj⟩⟩) l
          else Exec.ret (if ret ≠ 0 then 1 else 0,
            ⟨rdfp.base_uri, ⟨rdfp.context.ctxt, some doc, obj⟩⟩) l := by
  unfold grddl_parse_finish
  simp only [hd, hm, Bool.not_true, Bool.false_eq_true, if_false]

theorem eval_none_not_feed (i : Nat) (x : String) (d : Log) (h : ∀ e ∈ d, FeedEvent e) :
    Event.xmlXPathEvalExpression i x none ∉ d := by
  intro hmem
  have := h _ hmem
  simp [FeedEvent] at this

/-- What the last part of a push does when an evaluation gives no result
object. -/
theorem parse_finish_eval_none (env : Env) (rdfp : raptor_parser_s) (c : xmlParserCtxt)
    (log : Log) (i : Nat) (x : String)
    (hfail : Event.xmlXPathEvalExpression i x none
      ∈ new_calls log (grddl_parse_finish env rdfp c log)) :
    ∃ before p, grddl_parse_finish env rdfp c log
        = Exec.ret (1, p) (log ++ before ++ [Event.xmlXPathEvalExpression i x none,
            Event.raptor_parser_error "Unable to evaluate XPath expression \"%s\""])
      ∧ (∀ q ∈ xpath_evals before, q.1 < i)
      ∧ (∀ k, i ≤ k → tasks_of k before = []) := by
  cases hd : env.myDoc log CtxtOwner.document c with
  | none =>
    have hrun : grddl_parse_finish env rdfp c log = Exec.ret (1, rdfp)
        (log ++ [Event.raptor_parser_error "Failed to create XML DOM for document"]) := by
      unfold grddl_parse_finish
      simp only [hd]
    rw [hrun, new_calls_eq log _ _ rfl] at hfail
    simp at hfail
  | some doc =>
    cases hm : env.xmlXPathNewContext log doc with
    | false =>
      have hrun : (grddl_parse_finish env rdfp c log).log
          = log ++ [Event.xmlXPathNewContext doc,
            Event.raptor_parser_error "Failed to create XPath context for document"] := by
        unfold grddl_parse_finish
        simp [Exec.log, hd, hm]
      rw [new_calls_eq log _ _ hrun] at hfail
      simp at hfail
    | true =>
      rw [parse_finish_loop env rdfp c log doc hd hm] at hfail ⊢
      obtain ⟨dl, hdl, _⟩ := rule_loop_ext env
        { rdfp with context := { rdfp.context with xpathCtx := some doc } } doc
        match_table 0 0 rdfp.context.xpathObj
        (log ++ [Event.xmlXPathNewContext doc] ++
          [Event.xmlXPathRegisterNs "html" "http://www.w3.org/1999/xhtml",
           Event.xmlXPathRegisterNs "dataview" "http://www.w3.org/2003/g/data-view#"])
      have hmem : Event.xmlXPathEvalExpression i x none ∈ dl := by
        have hlog : ∀ r : Exec (Int × raptor_parser_s),
            r.log = log ++ ([Event.xmlXPathNewContext doc,
              Event.xmlXPathRegisterNs "html" "http://www.w3.org/1999/xhtml",
              Event.xmlXPathRegisterNs "dataview" "http://www.w3.org/2003/g/data-view#"] ++ dl) →
            Event.xmlXPathEvalExpression i x none ∈ new_calls log r →
            Event.xmlXPathEvalExpression i x none ∈ dl := by
          intro r hr hin
          rw [new_calls_eq log _ r hr] at hin
          simpa using hin
        refine hlog _ ?_ hfail
        cases hl : grddl_rule_loop env
            { rdfp with context := { rdfp.context with xpathCtx := some doc } } doc
            match_table 0 0 rdfp.context.xpathObj
            (log ++ [Event.xmlXPathNewContext doc] ++
              [Event.xmlXPathRegisterNs "html" "http://www.w3.org/1999/xhtml",
               Event.xmlXPathRegisterNs "dataview" "http://www.w3.org/2003/g/data-view#"]) with
        | fault l =>
          rw [hl] at hdl
          simp only [Exec.log] at hdl ⊢
          rw [hdl]; simp
        | ret v l =>
          rw [hl] at hdl
          simp only [Exec.log] at hdl
          cases v with
          | done r o =>
            simp only []
            split <;> (simp only [Exec.log]; rw [hdl]; simp)
          | returned r o =>
            simp only [Exec.log]
            rw [hdl]; simp
      obtain ⟨before, hb, hres, hlt, hts⟩ := rule_loop_eval_none env
        { rdfp with context := { rdfp.context with xpathCtx := some doc } } doc i x
        match_table 0 0 rdfp.context.xpathObj _ dl hdl hmem
      rw [hres]
      refine ⟨[Event.xmlXPathNewContext doc,
          Event.xmlXPathRegisterNs "html" "http://www.w3.org/1999/xhtml",
          Event.xmlXPathRegisterNs "dataview" "http://www.w3.org/2003/g/data-view#"] ++ before,
        ⟨rdfp.base_uri, ⟨rdfp.context.ctxt, some doc, none⟩⟩, ?_, ?_, ?_⟩
      · simp only []
        rw [hb]
        simp
      · intro q hq
        rw [xpath_evals_append] at hq
        simp only [xpath_evals, List.filterMap_cons, List.filterMap_nil, List.nil_append] at hq
        exact hlt q hq
      · intro k hk
        rw [tasks_of_append, hts k hk]
        rfl

/-- C11: in every push, if the evaluation of the XPath expression of rule `i`
gives no result object, the push returns 1 right after the report of it: the
failed evaluation and its report are the last two calls of the push, the calls
before them evaluate only rules before `i`, no transform is started for rule
`i` or for a later rule, and no rule after `i` is evaluated. -/
theorem xpath_failure_is_fatal (env : Env) (rdfp : raptor_parser_s)
    (s : Option (List Nat)) (len : Nat) (is_end : Int) (log : Log) (i : Nat) (x : String)
    (hfail : Event.xmlXPathEvalExpression i x none
      ∈ new_calls log (raptor_xslt_parse_chunk env rdfp s len is_end log)) :
    result_code (raptor_xslt_parse_chunk env rdfp s len is_end log) = some 1
    ∧ (∃ before,
        new_calls log (raptor_xslt_parse_chunk env rdfp s len is_end log)
          = before ++ [Event.xmlXPathEvalExpression i x none,
              Event.raptor_parser_error "Unable to evaluate XPath expression \"%s\""]
        ∧ ∀ q ∈ xpath_evals before, q.1 < i)
    ∧ (∀ k, i ≤ k →
        tasks_of k (new_calls log (raptor_xslt_parse_chunk env rdfp s len is_end log)) = [])
    ∧ (∀ q ∈ xpath_evals (new_calls log (raptor_xslt_parse_chunk env rdfp s len is_end log)),
        q.1 ≤ i) := by
  obtain ⟨df, hdf, hfeed⟩ := parse_feed_ext env rdfp s len is_end log
  cases hc : (grddl_parse_feed env rdfp s len is_end log).1 with
  | none =>
    have hrun : (raptor_xslt_parse_chunk env rdfp s len is_end log).log
        = log ++ (df ++ [Event.raptor_parser_error "Failed to create XML parser"]) := by
      unfold raptor_xslt_parse_chunk
      simp only [hc, Exec.log]
      rw [hdf]; simp
    rw [new_calls_eq log _ _ hrun, List.mem_append] at hfail
    rcases hfail with h | h
    · exact absurd h (eval_none_not_feed i x df hfeed)
    · simp at h
  | some c =>
    by_cases hend : is_end = 0
    · subst hend
      have hrun : (raptor_xslt_parse_chunk env rdfp s len 0 log).log = log ++ df := by
        unfold raptor_xslt_parse_chunk
        simp only [hc, if_true, Exec.log]
        rw [hdf]
      rw [new_calls_eq log _ _ hrun] at hfail
      exact absurd hfail (eval_none_not_feed i x df hfeed)
    · have hrun : raptor_xslt_parse_chunk env rdfp s len is_end log
          = grddl_parse_finish env
              { rdfp with context := { rdfp.context with ctxt := some c } } c
              (grddl_parse_feed env rdfp s len is_end log).2 := by
        unfold raptor_xslt_parse_chunk
        simp only [hc, hend, if_false]
      obtain ⟨d2, hd2, _⟩ := parse_finish_feeds env
        { rdfp with context := { rdfp.context with ctxt := some c } } c
        (grddl_parse_feed env rdfp s len is_end log).2
      have hfail2 : Event.xmlXPathEvalExpression i x none
          ∈ new_calls (grddl_parse_feed env rdfp s len is_end log).2
              (grddl_parse_finish env
                { rdfp with context := { rdfp.context with ctxt := some c } } c
                (grddl_parse_feed env rdfp s len is_end log).2) := by
        rw [new_calls_eq _ _ _ hd2]
        rw [hrun, new_calls_eq log (df ++ d2) _ (by rw [hd2, hdf]; simp), List.mem_append]
          at hfail
        exact hfail.resolve_left (eval_none_not_feed i x df hfeed)
      obtain ⟨before, p, hres, hlt, hts⟩ := parse_finish_eval_none env
        { rdfp with context := { rdfp.context with ctxt := some c } } c
        (grddl_parse_feed env rdfp s len is_end log).2 i x hfail2
      rw [hrun, hres, hdf]
      have hnew : new_calls log (Exec.ret ((1 : Int), p)
          (log ++ df ++ before ++ [Event.xmlXPathEvalExpression i x none,
            Event.raptor_parser_error "Unable to evaluate XPath expression \"%s\""]))
          = (df ++ before) ++ [Event.xmlXPathEvalExpression i x none,
            Event.raptor_parser_error "Unable to evaluate XPath expression \"%s\""] :=
        new_calls_eq log _ _ (by simp [Exec.log])
      have hbef : ∀ q ∈ xpath_evals (df ++ before), q.1 < i := by
        intro q hq
        rw [xpath_evals_append, xpath_evals_feed df hfeed] at hq
        exact hlt q hq
      rw [hnew]
      refine ⟨rfl, ⟨df ++ before, rfl, hbef⟩, ?_, ?_⟩
      · intro k hk
        rw [tasks_of_append, tasks_of_append, tasks_of_feed k df hfeed, hts k hk]
        rfl
      · intro q hq
        rw [xpath_evals_append, List.mem_append] at hq
        rcases hq with hq | hq
        · exact le_of_lt (hbef q hq)
        · simp [xpath_evals] at hq
          rw [hq]

/-- C11 on a document for which the first rule matches an attribute node, the
second rule matches an element and the evaluation of the third rule fails:
the push returns 1, its last two calls are the failed evaluation and the
report, and the later rules are not evaluated. -/
theorem xpath_failure_is_fatal_witness :
    Event.xmlXPathEvalExpression 2 "//@dataview:transformation" none
      ∈ new_calls [] (raptor_xslt_parse_chunk xpath_fail_env sample_rdfp
          (some [60, 104, 116, 109, 108, 62]) 6 1 [])
    ∧ result_code (raptor_xslt_parse_chunk xpath_fail_env sample_rdfp
        (some [60, 104, 116, 109, 108, 62]) 6 1 []) = some 1
    ∧ (xpath_evals (new_calls [] (raptor_xslt_parse_chunk xpath_fail_env sample_rdfp
        (some [60, 104, 116, 109, 108, 62]) 6 1 []))).map Prod.fst = [0, 1, 2]
    ∧ tasks (new_calls [] (raptor_xslt_parse_chunk xpath_fail_env sample_rdfp
        (some [60, 104, 116, 109, 108, 62]) 6 1 [])) = [some "a.xsl"]
    ∧ ∀ k, 2 ≤ k →
        tasks_of k (new_calls [] (raptor_xslt_parse_chunk xpath_fail_env sample_rdfp
          (some [60, 104, 116, 109, 108, 62]) 6 1 [])) = [] :=
  ⟨by decide, by decide, by decide, by decide,
   (xpath_failure_is_fatal xpath_fail_env sample_rdfp (some [60, 104, 116, 109, 108, 62])
      6 1 [] 2 "//@dataview:transformation" (by decide)).2.2.1⟩

/-! ## The end of the stream -/

theorem tasks_feed (d : Log) (h : ∀ e ∈ d, FeedEvent e) : tasks d = [] := by
  apply filterMap_none_of_forall
  intro e he
  have := h e he
  cases e <;> simp_all [FeedEvent]

/-- A push on a parser that has a context, or whose context is created, gets
past the first part. -/
theorem parse_feed_some (env : Env) (rdfp : raptor_parser_s) (s : Option (List Nat))
    (len : Nat) (is_end : Int) (log : Log)
    (hopen : rdfp.context.ctxt.isSome = true
      ∨ env.xmlCreatePushParserCtxt log CtxtOwner.document (chunk_bytes s len)
          rdfp.base_uri = true) :
    ∃ c, (grddl_parse_feed env rdfp s len is_end log).1 = some c := by
  unfold grddl_parse_feed
  cases hc : rdfp.context.ctxt with
  | none =>
    rw [hc] at hopen
    simp only [Option.isSome_none, Bool.false_eq_true, false_or] at hopen
    simp only [hopen, if_true]
    split <;> exact ⟨_, rfl⟩
  | some c =>
    simp only []
    split <;> exact ⟨_, rfl⟩

/-- C12: an end-of-stream push after whose feed the document's push parser
holds no tree (or has no context at all) returns 1, and the calls it makes
evaluate no rule and start no transform: after the feed there is only the
report of the failure.  And a push with `is_end` unset on a parser whose
context exists or is created returns 0, and makes no calls but those of the
feed: no rule is evaluated and no transform started. -/
theorem no_tree_fails_streaming_succeeds (env : Env) (rdfp : raptor_parser_s)
    (s : Option (List Nat)) (len : Nat) (is_end : Int) (log : Log) :
    (is_end ≠ 0 →
      (∀ c, (grddl_parse_feed env rdfp s len is_end log).1 = some c →
        env.myDoc (grddl_parse_feed env rdfp s len is_end log).2 CtxtOwner.document c
          = none) →
      result_code (raptor_xslt_parse_chunk env rdfp s len is_end log) = some 1
      ∧ xpath_evals (new_calls log (raptor_xslt_parse_chunk env rdfp s len is_end log)) = []
      ∧ tasks (new_calls log (raptor_xslt_parse_chunk env rdfp s len is_end log)) = []
      ∧ ∃ df message,
          new_calls log (raptor_xslt_parse_chunk env rdfp s len is_end log)
            = df ++ [Event.raptor_parser_error message]
          ∧ ∀ e ∈ df, FeedEvent e)
    ∧ (is_end = 0 →
      (rdfp.context.ctxt.isSome = true
        ∨ env.xmlCreatePushParserCtxt log CtxtOwner.document (chunk_bytes s len)
            rdfp.base_uri = true) →
      result_code (raptor_xslt_parse_chunk env rdfp s len is_end log) = some 0
      ∧ xpath_evals (new_calls log (raptor_xslt_parse_chunk env rdfp s len is_end log)) = []
      ∧ tasks (new_calls log (raptor_xslt_parse_chunk env rdfp s len is_end log)) = []
      ∧ ∀ e ∈ new_calls log (raptor_xslt_parse_chunk env rdfp s len is_end log),
          FeedEvent e) := by
  obtain ⟨df, hdf, hfeed⟩ := parse_feed_ext env rdfp s len is_end log
  have hshape : ∀ (rc : Int) (p : raptor_parser_s) (message : String),
      raptor_xslt_parse_chunk env rdfp s len is_end log
        = Exec.ret (rc, p) ((grddl_parse_feed env rdfp s len is_end log).2
            ++ [Event.raptor_parser_error message]) →
      result_code (raptor_xslt_parse_chunk env rdfp s len is_end log) = some rc
      ∧ xpath_evals (new_calls log (raptor_xslt_parse_chunk env rdfp s len is_end log)) = []
      ∧ tasks (new_calls log (raptor_xslt_parse_chunk env rdfp s len is_end log)) = []
      ∧ ∃ df message,
          new_calls log (raptor_xslt_parse_chunk env rdfp s len is_end log)
            = df ++ [Event.raptor_parser_error message]
          ∧ ∀ e ∈ df, FeedEvent e := by
    intro rc p message hrun
    have hnew : new_calls log (raptor_xslt_parse_chunk env rdfp s len is_end log)
        = df ++ [Event.raptor_parser_error message] := by
      apply new_calls_eq
      rw [hrun, hdf]
      simp [Exec.log]
    rw [hnew]
    refine ⟨by rw [hrun]; rfl, ?_, ?_, df, message, rfl, hfeed⟩
    · rw [xpath_evals_append, xpath_evals_feed df hfeed]
      rfl
    · rw [tasks_append, tasks_feed df hfeed]
      rfl
  constructor
  · intro hend hnone
    cases hc : (grddl_parse_feed env rdfp s len is_end log).1 with
    | none =>
      refine hshape 1 rdfp "Failed to create XML parser" ?_
      unfold raptor_xslt_parse_chunk
      simp only [hc]
    | some c =>
      refine hshape 1 { rdfp with context := { rdfp.context with ctxt := some c } }
        "Failed to create XML DOM for document" ?_
      unfold raptor_xslt_parse_chunk
      simp only [hc, hend, if_false]
      unfold grddl_parse_finish
      simp only [hnone c hc]
  · intro hend hopen
    subst hend
    obtain ⟨c, hc⟩ := parse_feed_some env rdfp s len 0 log hopen
    have hrun : raptor_xslt_parse_chunk env rdfp s len 0 log
        = Exec.ret (0, { rdfp with context := { rdfp.context with ctxt := some c } })
            (grddl_parse_feed env rdfp s len 0 log).2 := by
      unfold raptor_xslt_parse_chunk
      simp only [hc, if_true]
    have hnew : new_calls log (raptor_xslt_parse_chunk env rdfp s len 0 log) = df := by
      apply new_calls_eq
      rw [hrun, hdf]
      rfl
    rw [hnew]
    exact ⟨by rw [hrun]; rfl, xpath_evals_feed df hfeed, tasks_feed df hfeed, hfeed⟩

/-- C12 on two pushes: an end-of-stream push of bytes that give no tree
returns 1 after the feed and the report alone, and a push with `is_end` unset
on a fresh parser returns 0 after creating the context. -/
theorem no_tree_fails_streaming_succeeds_witness :
    (result_code (raptor_xslt_parse_chunk no_tree_env sample_rdfp
        (some [60, 104, 116, 109, 108, 62]) 6 1 []) = some 1
      ∧ new_calls [] (raptor_xslt_parse_chunk no_tree_env sample_rdfp
          (some [60, 104, 116, 109, 108, 62]) 6 1 [])
        = [Event.xmlCreatePushParserCtxt CtxtOwner.document [60, 104, 116, 109, 108, 62]
             (some "http://ex/doc.html"),
           Event.xmlParseChunk CtxtOwner.document [] 1,
           Event.raptor_parser_error "Failed to create XML DOM for document"]
      ∧ tasks (new_calls [] (raptor_xslt_parse_chunk no_tree_env sample_rdfp
          (some [60, 104, 116, 109, 108, 62]) 6 1 [])) = [])
    ∧ (result_code (raptor_xslt_parse_chunk sample_env sample_rdfp
        (some [60, 104, 116, 109, 108, 62]) 6 0 []) = some 0
      ∧ xpath_evals (new_calls [] (raptor_xslt_parse_chunk sample_env sample_rdfp
          (some [60, 104, 116, 109, 108, 62]) 6 0 [])) = []) :=
  ⟨⟨((no_tree_fails_streaming_succeeds no_tree_env sample_rdfp
        (some [60, 104, 116, 109, 108, 62]) 6 1 []).1 (by decide) (fun _ _ => rfl)).1,
    by decide,
    ((no_tree_fails_streaming_succeeds no_tree_env sample_rdfp
        (some [60, 104, 116, 109, 108, 62]) 6 1 []).1 (by decide) (fun _ _ => rfl)).2.2.1⟩,
   ⟨((no_tree_fails_streaming_succeeds sample_env sample_rdfp
        (some [60, 104, 116, 109, 108, 62]) 6 0 []).2 rfl (Or.inr rfl)).1,
    ((no_tree_fails_streaming_succeeds sample_env sample_rdfp
        (some [60, 104, 116, 109, 108, 62]) 6 0 []).2 rfl (Or.inr rfl)).2.1⟩⟩

/-! ## Finalization -/

theorem finalizations_append (l1 l2 : Log) :
    finalizations (l1 ++ l2) = finalizations l1 + finalizations l2 := by
  simp [finalizations]

theorem finalizations_none (P : Event → Prop) (hP : ∀ d, ¬ P (Event.xmlXPathNewContext d))
    (d : Log) (h : ∀ e ∈ d, P e) : finalizations d = 0 := by
  unfold finalizations
  rw [List.length_eq_zero, List.filter_eq_nil_iff]
  intro e he
  have := h e he
  cases e <;> simp_all

theorem finalizations_feed (d : Log) (h : ∀ e ∈ d, FeedEvent e) : finalizations d = 0 :=
  finalizations_none FeedEvent (fun _ => by simp [FeedEvent]) d h

theorem finalizations_loop {env : Env} (base_uri : Option String) (j : Nat) (d : Log)
    (h : ∀ e ∈ d, LoopEvent env base_uri j e) : finalizations d = 0 := by
  apply finalizations_none (LoopEvent env base_uri j) _ d h
  intro doc hl
  rcases hl with h1 | ⟨k, hk, _⟩ | hu | hu
  · simp [TaskEvent] at h1
  · simp [Event.rule?] at hk
  · cases hu
  · cases hu

/-- The loop over a table evaluates a first part of its rules, each once, in
table order. -/
theorem rule_loop_evals_prefix (env : Env) (rdfp : raptor_parser_s) (doc : xmlDoc)
    (table : List match_entry) (j : Nat) (ret : Int) (obj : Option xmlXPathObject)
    (log : Log) :
    ∃ d, (grddl_rule_loop env rdfp doc table j ret obj log).log = log ++ d
      ∧ xpath_evals d <+: table_rules j table := by
  induction table generalizing j ret obj log with
  | nil => exact ⟨[], by simp [grddl_rule_loop, Exec.log], by simp [xpath_evals]⟩
  | cons entry table ih =>
    cases hx : entry.xpath with
    | none =>
      rw [rule_loop_end env rdfp doc entry table j ret obj log hx]
      exact ⟨[], by simp [Exec.log], by simp [xpath_evals]⟩
    | some y =>
      have htab : table_rules j (entry :: table) = (j, y) :: table_rules (j + 1) table := by
        simp only [table_rules, hx]
      rw [htab]
      cases he : env.xmlXPathEvalExpression log y doc with
      | none =>
        rw [rule_loop_eval_failed env rdfp doc entry table j ret obj log y hx he]
        refine ⟨[Event.xmlXPathEvalExpression j y none] ++
          [Event.raptor_parser_error "Unable to evaluate XPath expression \"%s\""],
          by simp [Exec.log], ?_⟩
        simp only [xpath_evals, List.singleton_append, List.filterMap_cons,
          List.filterMap_nil]
        exact List.prefix_iff_eq_append.mpr (by simp)
      | some o =>
        have hnext : ∀ (r : Int) (dh : Log), xpath_evals dh = [(j, y)] →
            ∃ d, (grddl_rule_loop env rdfp doc table (j + 1) r (some o) (log ++ dh)).log
                = log ++ d
              ∧ xpath_evals d <+: (j, y) :: table_rules (j + 1) table := by
          intro r dh hdh
          obtain ⟨d, hd, hpre⟩ := ih (j + 1) r (some o) (log ++ dh)
          refine ⟨dh ++ d, by rw [hd]; simp, ?_⟩
          rw [xpath_evals_append, hdh]
          exact (List.prefix_cons_inj (j, y)).mpr hpre
        have hhead : xpath_evals [Event.xmlXPathEvalExpression j y (some o)] = [(j, y)] := rfl
        cases hempty : xmlXPathNodeSetIsEmpty o.nodesetval with
        | true =>
          rw [rule_loop_no_match env rdfp doc entry table j ret obj log y hx o he hempty]
          exact hnext ret _ hhead
        | false =>
          rw [rule_loop_match env rdfp doc entry table j ret obj log y hx o he hempty]
          obtain ⟨db, hdb, hbody_ev⟩ := rule_matched_ext env rdfp doc j entry
            (o.nodesetval.getD []) ret (log ++ [Event.xmlXPathEvalExpression j y (some o)])
          have hevb : xpath_evals ([Event.xmlXPathEvalExpression j y (some o)] ++ db)
              = [(j, y)] := by
            rw [xpath_evals_append, xpath_evals_body _ _ _ hbody_ev, hhead]
            rfl
          have hstop : xpath_evals ([Event.xmlXPathEvalExpression j y (some o)] ++ db)
              <+: (j, y) :: table_rules (j + 1) table := by
            rw [hevb]
            exact List.prefix_iff_eq_append.mpr (by simp)
          cases hm : grddl_rule_matched env rdfp doc j entry (o.nodesetval.getD []) ret
              (log ++ [Event.xmlXPathEvalExpression j y (some o)]) with
          | fault l =>
            rw [hm] at hdb
            simp only [Exec.log] at hdb
            exact ⟨[Event.xmlXPathEvalExpression j y (some o)] ++ db,
              by simp only [Exec.log]; rw [hdb]; simp, hstop⟩
          | ret r l =>
            rw [hm] at hdb
            simp only [Exec.log] at hdb
            simp only []
            split
            · exact ⟨[Event.xmlXPathEvalExpression j y (some o)] ++ db,
                by simp only [Exec.log]; rw [hdb]; simp, hstop⟩
            · have hl : l = log ++ ([Event.xmlXPathEvalExpression j y (some o)] ++ db) := by
                rw [hdb]; simp
              rw [hl]
              exact hnext r _ hevb

/-- What the last part of a push adds to the log: at most one finalization,
exactly one when the tree exists, and evaluations of a first part of the
rules of `match_table`, in order. -/
theorem parse_finish_counts (env : Env) (rdfp : raptor_parser_s) (c : xmlParserCtxt)
    (log : Log) :
    ∃ d, (grddl_parse_finish env rdfp c log).log = log ++ d
      ∧ finalizations d = (if (env.myDoc log CtxtOwner.document c).isSome then 1 else 0)
      ∧ xpath_evals d <+: table_rules 0 match_table := by
  cases hd : env.myDoc log CtxtOwner.document c with
  | none =>
    refine ⟨[Event.raptor_parser_error "Failed to create XML DOM for document"], ?_, rfl,
      by simp [xpath_evals]⟩
    unfold grddl_parse_finish
    simp [Exec.log, hd]
  | some doc =>
    cases hm : env.xmlXPathNewContext log doc with
    | false =>
      refine ⟨[Event.xmlXPathNewContext doc,
          Event.raptor_parser_error "Failed to create XPath context for document"],
        ?_, rfl, by simp [xpath_evals]⟩
      unfold grddl_parse_finish
      simp [Exec.log, hd, hm]
    | true =>
      rw [parse_finish_loop env rdfp c log doc hd hm]
      obtain ⟨dl, hdl, hpre⟩ := rule_loop_evals_prefix env
        { rdfp with context := { rdfp.context with xpathCtx := some doc } } doc
        match_table 0 0 rdfp.context.xpathObj
        (log ++ [Event.xmlXPathNewContext doc] ++
          [Event.xmlXPathRegisterNs "html" "http://www.w3.org/1999/xhtml",
           Event.xmlXPathRegisterNs "dataview" "http://www.w3.org/2003/g/data-view#"])
      obtain ⟨dl2, hdl2, hev⟩ := rule_loop_ext env
        { rdfp with context := { rdfp.context with xpathCtx := some doc } } doc
        match_table 0 0 rdfp.context.xpathObj
        (log ++ [Event.xmlXPathNewContext doc] ++
          [Event.xmlXPathRegisterNs "html" "http://www.w3.org/1999/xhtml",
           Event.xmlXPathRegisterNs "dataview" "http://www.w3.org/2003/g/data-view#"])
      have hdd : dl2 = dl := List.append_cancel_left (hdl2.symm.trans hdl)
      subst hdd
      refine ⟨[Event.xmlXPathNewContext doc,
          Event.xmlXPathRegisterNs "html" "http://www.w3.org/1999/xhtml",
          Event.xmlXPathRegisterNs "dataview" "http://www.w3.org/2003/g/data-view#"] ++ dl2,
        ?_, ?_, ?_⟩
      · cases hl : grddl_rule_loop env
            { rdfp with context := { rdfp.context with xpathCtx := some doc } } doc
            match_table 0 0 rdfp.context.xpathObj
            (log ++ [Event.xmlXPathNewContext doc] ++
              [Event.xmlXPathRegisterNs "html" "http://www.w3.org/1999/xhtml",
               Event.xmlXPathRegisterNs "dataview" "http://www.w3.org/2003/g/data-view#"]) with
        | fault l =>
          rw [hl] at hdl
          simp only [Exec.log] at hdl ⊢
          rw [hdl]; simp
        | ret v l =>
          rw [hl] at hdl
          simp only [Exec.log] at hdl
          cases v with
          | done r o =>
            simp only []
            split <;> (simp only [Exec.log]; rw [hdl]; simp)
          | returned r o =>
            simp only [Exec.log]
            rw [hdl]; simp
      · rw [finalizations_append, finalizations_loop _ 0 dl2 hev]
        rfl
      · rw [xpath_evals_append]
        exact hpre

/-- What one push adds to the log: at most one finalization, none when
`is_end` is unset, and evaluations of a first part of the rules, in order. -/
theorem parse_chunk_counts (env : Env) (rdfp : raptor_parser_s) (s : Option (List Nat))
    (len : Nat) (is_end : Int) (log : Log) :
    ∃ d, (raptor_xslt_parse_chunk env rdfp s len is_end log).log = log ++ d
      ∧ finalizations d ≤ (if is_end ≠ 0 then 1 else 0)
      ∧ xpath_evals d <+: table_rules 0 match_table
      ∧ (is_end ≠ 0 →
          (rdfp.context.ctxt.isSome = true
            ∨ env.xmlCreatePushParserCtxt log CtxtOwner.document (chunk_bytes s len)
                rdfp.base_uri = true) →
          (∀ l c, (env.myDoc l CtxtOwner.document c).isSome = true) →
          finalizations d = 1)
      ∧ (is_end = 0 → xpath_evals d = [] ∧ tasks d = []) := by
  obtain ⟨df, hdf, hfeed⟩ := parse_feed_ext env rdfp s len is_end log
  cases hc : (grddl_parse_feed env rdfp s len is_end log).1 with
  | none =>
    refine ⟨df ++ [Event.raptor_parser_error "Failed to create XML parser"], ?_, ?_, ?_, ?_,
      fun _ => ⟨?_, ?_⟩⟩
    rotate_left 4
    · rw [xpath_evals_append, xpath_evals_feed df hfeed]
      rfl
    · rw [tasks_append, tasks_feed df hfeed]
      rfl
    · unfold raptor_xslt_parse_chunk
      simp only [hc, Exec.log]
      rw [hdf]; simp
    · rw [finalizations_append, finalizations_feed df hfeed]
      simp [finalizations]
    · rw [xpath_evals_append, xpath_evals_feed df hfeed]
      simp [xpath_evals]
    · intro hend hopen _
      obtain ⟨c, hc2⟩ := parse_feed_some env rdfp s len is_end log hopen
      rw [hc] at hc2
      cases hc2
  | some c =>
    by_cases hend : is_end = 0
    · subst hend
      refine ⟨df, ?_, ?_, ?_, fun h => absurd rfl h,
        fun _ => ⟨xpath_evals_feed df hfeed, tasks_feed df hfeed⟩⟩
      · unfold raptor_xslt_parse_chunk
        simp only [hc, if_true, Exec.log]
        rw [hdf]
      · rw [finalizations_feed df hfeed]
        simp
      · rw [xpath_evals_feed df hfeed]
        simp
    · have hrun : raptor_xslt_parse_chunk env rdfp s len is_end log
          = grddl_parse_finish env
              { rdfp with context := { rdfp.context with ctxt := some c } } c
              (grddl_parse_feed env rdfp s len is_end log).2 := by
        unfold raptor_xslt_parse_chunk
        simp only [hc, hend, if_false]
      obtain ⟨d, hd, hfin, hpre⟩ := parse_finish_counts env
        { rdfp with context := { rdfp.context with ctxt := some c } } c
        (grddl_parse_feed env rdfp s len is_end log).2
      refine ⟨df ++ d, by rw [hrun, hd, hdf]; simp, ?_, ?_, ?_, fun h => absurd h hend⟩
      · rw [finalizations_append, finalizations_feed df hfeed, hfin, if_pos hend]
        split <;> simp
      · rw [xpath_evals_append, xpath_evals_feed df hfeed]
        exact hpre
      · intro _ _ hdoc
        rw [finalizations_append, finalizations_feed df hfeed, hfin, hdoc]
        rfl

/-- The last part of a push leaves the document's push parser context in
place. -/
theorem parse_finish_ctxt (env : Env) (rdfp : raptor_parser_s) (c : xmlParserCtxt)
    (log : Log) (rc : Int) (p2 : raptor_parser_s) (l2 : Log)
    (h : grddl_parse_finish env rdfp c log = Exec.ret (rc, p2) l2) :
    p2.context.ctxt = rdfp.context.ctxt := by
  cases hd : env.myDoc log CtxtOwner.document c with
  | none =>
    unfold grddl_parse_finish at h
    simp only [hd] at h
    cases h
    rfl
  | some doc =>
    cases hm : env.xmlXPathNewContext log doc with
    | false =>
      unfold grddl_parse_finish at h
      simp only [hd, hm, Bool.not_false, if_true] at h
      cases h
      rfl
    | true =>
      rw [parse_finish_loop env rdfp c log doc hd hm] at h
      cases hl : grddl_rule_loop env
          { rdfp with context := { rdfp.context with xpathCtx := some doc } } doc
          match_table 0 0 rdfp.context.xpathObj
          (log ++ [Event.xmlXPathNewContext doc] ++
            [Event.xmlXPathRegisterNs "html" "http://www.w3.org/1999/xhtml",
             Event.xmlXPathRegisterNs "dataview" "http://www.w3.org/2003/g/data-view#"]) with
      | fault l =>
        rw [hl] at h
        cases h
      | ret v l =>
        rw [hl] at h
        cases v with
        | done r o =>
          simp only [] at h
          split at h <;> (cases h; rfl)
        | returned r o =>
          cases h
          rfl

/-- A push that returns leaves a context that was there in place, and a push
that returns 0 leaves a context. -/
theorem parse_chunk_ctxt (env : Env) (rdfp : raptor_parser_s) (s : Option (List Nat))
    (len : Nat) (is_end : Int) (log : Log) (rc : Int) (p2 : raptor_parser_s) (l2 : Log)
    (h : raptor_xslt_parse_chunk env rdfp s len is_end log = Exec.ret (rc, p2) l2) :
    (rdfp.context.ctxt.isSome = true → p2.context.ctxt.isSome = true)
    ∧ (rc = 0 → p2.context.ctxt.isSome = true) := by
  cases hc : (grddl_parse_feed env rdfp s len is_end log).1 with
  | none =>
    unfold raptor_xslt_parse_chunk at h
    simp only [hc] at h
    cases h
    exact ⟨fun h => h, fun h => absurd h (by decide)⟩
  | some c =>
    by_cases hend : is_end = 0
    · subst hend
      unfold raptor_xslt_parse_chunk at h
      simp only [hc, if_true] at h
      cases h
      exact ⟨fun _ => rfl, fun _ => rfl⟩
    · unfold raptor_xslt_parse_chunk at h
      simp only [hc, hend, if_false] at h
      have := parse_finish_ctxt env _ c _ rc p2 l2 h
      simp only [] at this
      rw [this]
      exact ⟨fun _ => rfl, fun _ => rfl⟩

/-- A sequence of pushes finalizes at most once for each call with `is_end`
set. -/
theorem push_calls_finalizations (env : Env)
    (calls : List (Option (List Nat) × Nat × Int)) (rdfp : raptor_parser_s) (log : Log) :
    ∃ d, (push_calls env rdfp calls log).log = log ++ d
      ∧ finalizations d ≤ end_calls calls := by
  induction calls generalizing rdfp log with
  | nil => exact ⟨[], by simp [push_calls, Exec.log], by simp [finalizations]⟩
  | cons c rest ih =>
    obtain ⟨d1, hd1, hf1, _, _, _⟩ := parse_chunk_counts env rdfp c.1 c.2.1 c.2.2 log
    have hcount : end_calls (c :: rest)
        = (if c.2.2 ≠ 0 then 1 else 0) + end_calls rest := by
      unfold end_calls
      by_cases hend : c.2.2 = 0
      · simp [hend]
      · simp [hend]
        omega
    rw [push_calls]
    cases hrun : raptor_xslt_parse_chunk env rdfp c.1 c.2.1 c.2.2 log with
    | fault l =>
      rw [hrun] at hd1
      simp only [Exec.log] at hd1 ⊢
      exact ⟨d1, hd1, by omega⟩
    | ret v l =>
      rw [hrun] at hd1
      simp only [Exec.log] at hd1
      obtain ⟨rc, p2⟩ := v
      obtain ⟨d2, hd2, hf2⟩ := ih p2 l
      refine ⟨d1 ++ d2, ?_, ?_⟩
      · simp only []
        cases hrest : push_calls env p2 rest l with
        | fault l2 =>
          rw [hrest] at hd2
          simp only [Exec.log] at hd2 ⊢
          rw [hd2, hd1]; simp
        | ret v2 l2 =>
          rw [hrest] at hd2
          simp only [Exec.log] at hd2 ⊢
          rw [hd2, hd1]; simp
      · rw [finalizations_append]
        omega

/-- When the context can always be created, the tree always exists and no
call stops at a null pointer, a sequence of pushes finalizes exactly once for
each call with `is_end` set. -/
theorem push_calls_finalizations_eq (env : Env)
    (hcreate : ∀ l b f, env.xmlCreatePushParserCtxt l CtxtOwner.document b f = true)
    (hdoc : ∀ l c, (env.myDoc l CtxtOwner.document c).isSome = true)
    (hn : MatchesReadable env) (htr : TasksReturn env)
    (calls : List (Option (List Nat) × Nat × Int)) (rdfp : raptor_parser_s) (log : Log) :
    ∃ d, (push_calls env rdfp calls log).log = log ++ d
      ∧ finalizations d = end_calls calls := by
  induction calls generalizing rdfp log with
  | nil => exact ⟨[], by simp [push_calls, Exec.log], by simp [finalizations, end_calls]⟩
  | cons c rest ih =>
    obtain ⟨d1, hd1, hf1, _, hone, _⟩ := parse_chunk_counts env rdfp c.1 c.2.1 c.2.2 log
    have hcount : end_calls (c :: rest)
        = (if c.2.2 ≠ 0 then 1 else 0) + end_calls rest := by
      unfold end_calls
      by_cases hend : c.2.2 = 0
      · simp [hend]
      · simp [hend]
        omega
    have hf1eq : finalizations d1 = (if c.2.2 ≠ 0 then 1 else 0) := by
      by_cases hend : c.2.2 = 0
      · rw [hend] at hf1 ⊢
        simpa using hf1
      · rw [if_pos hend]
        exact hone hend (Or.inr (hcreate _ _ _)) hdoc
    have hret := parse_chunk_returns env rdfp c.1 c.2.1 c.2.2 log hn htr
    rw [push_calls]
    cases hrun : raptor_xslt_parse_chunk env rdfp c.1 c.2.1 c.2.2 log with
    | fault l =>
      rw [hrun] at hret
      exact absurd hret (not_returns_fault _)
    | ret v l =>
      rw [hrun] at hd1
      simp only [Exec.log] at hd1
      obtain ⟨rc, p2⟩ := v
      obtain ⟨d2, hd2, hf2⟩ := ih p2 l
      refine ⟨d1 ++ d2, ?_, ?_⟩
      · simp only []
        cases hrest : push_calls env p2 rest l with
        | fault l2 =>
          rw [hrest] at hd2
          simp only [Exec.log] at hd2 ⊢
          rw [hd2, hd1]; simp
        | ret v2 l2 =>
          rw [hrest] at hd2
          simp only [Exec.log] at hd2 ⊢
          rw [hd2, hd1]; simp
      · rw [finalizations_append, hf1eq, hf2, hcount]

/-- C13 as stated fails: on the sample document, a first push with `is_end`
set finalizes the document and returns 0, and a second push with `is_end` set
(no bytes) on the same parser returns 0 too and finalizes again: the XPath
context is made twice, the six rules are evaluated twice and the transforms
are started twice. -/
theorem finalization_runs_again :
    (push_calls sample_env sample_rdfp
        [(some [60, 104, 116, 109, 108, 62], 6, 1), (none, 0, 1)] []).val?.map Prod.fst
      = some [0, 0]
    ∧ finalizations (push_calls sample_env sample_rdfp
        [(some [60, 104, 116, 109, 108, 62], 6, 1), (none, 0, 1)] []).log = 2
    ∧ (xpath_evals (push_calls sample_env sample_rdfp
        [(some [60, 104, 116, 109, 108, 62], 6, 1), (none, 0, 1)] []).log).map Prod.fst
      = [0, 1, 2, 3, 4, 5, 0, 1, 2, 3, 4, 5]
    ∧ tasks (push_calls sample_env sample_rdfp
        [(some [60, 104, 116, 109, 108, 62], 6, 1), (none, 0, 1)] []).log
      = [some "sheet.xsl", some "http://www.w3.org/2002/12/cal/glean-hcal.xsl",
         some "sheet.xsl", some "http://www.w3.org/2002/12/cal/glean-hcal.xsl"]
    ∧ finalizations (push_calls sample_env sample_rdfp
        [(some [60, 104, 116, 109, 108, 62], 6, 1)] []).log = 1 := by
  refine ⟨by decide, by decide, by decide, by decide, by decide⟩

/-- C13, amended: in every sequence of pushes on one parser, finalization runs
at most once for each call with `is_end` set; one push finalizes at most once
and evaluates a first part of the rules of `match_table`, each once, in order;
a push with `is_end` unset, made before or after a finalization, makes no
XPath context, evaluates no rule and starts no transform; a push that returns
keeps the push parser context, and one that returns 0 leaves a context (the
state goes from no context to a context and stays there); and when the context
can be created, the tree exists and no call stops at a null pointer,
finalization runs exactly once for each call with `is_end` set, so exactly
once when `is_end` is set in one call. -/
theorem finalization_once_per_end_call (env : Env) :
    (∀ (rdfp : raptor_parser_s) (calls : List (Option (List Nat) × Nat × Int)) (log : Log),
      finalizations (new_calls log (push_calls env rdfp calls log)) ≤ end_calls calls)
    ∧ (∀ (rdfp : raptor_parser_s) (s : Option (List Nat)) (len : Nat) (is_end : Int)
        (log : Log),
        finalizations (new_calls log (raptor_xslt_parse_chunk env rdfp s len is_end log)) ≤ 1
        ∧ xpath_evals (new_calls log (raptor_xslt_parse_chunk env rdfp s len is_end log))
            <+: table_rules 0 match_table)
    ∧ (∀ (rdfp : raptor_parser_s) (s : Option (List Nat)) (len : Nat) (log : Log),
        finalizations (new_calls log (raptor_xslt_parse_chunk env rdfp s len 0 log)) = 0
        ∧ xpath_evals (new_calls log (raptor_xslt_parse_chunk env rdfp s len 0 log)) = []
        ∧ tasks (new_calls log (raptor_xslt_parse_chunk env rdfp s len 0 log)) = [])
    ∧ (∀ (rdfp : raptor_parser_s) (s : Option (List Nat)) (len : Nat) (is_end : Int)
        (log : Log) (rc : Int) (p2 : raptor_parser_s) (l2 : Log),
        raptor_xslt_parse_chunk env rdfp s len is_end log = Exec.ret (rc, p2) l2 →
        (rdfp.context.ctxt.isSome = true → p2.context.ctxt.isSome = true)
        ∧ (rc = 0 → p2.context.ctxt.isSome = true))
    ∧ ((∀ l b f, env.xmlCreatePushParserCtxt l CtxtOwner.document b f = true) →
        (∀ l c, (env.myDoc l CtxtOwner.document c).isSome = true) →
        MatchesReadable env → TasksReturn env →
        ∀ (rdfp : raptor_parser_s) (calls : List (Option (List Nat) × Nat × Int))
          (log : Log),
          finalizations (new_calls log (push_calls env rdfp calls log)) = end_calls calls) := by
  refine ⟨?_, ?_, ?_, ?_, ?_⟩
  · intro rdfp calls log
    obtain ⟨d, hd, hle⟩ := push_calls_finalizations env calls rdfp log
    rw [new_calls_eq log d _ hd]
    exact hle
  · intro rdfp s len is_end log
    obtain ⟨d, hd, hle, hpre, _, _⟩ := parse_chunk_counts env rdfp s len is_end log
    rw [new_calls_eq log d _ hd]
    refine ⟨?_, hpre⟩
    split at hle <;> omega
  · intro rdfp s len log
    obtain ⟨d, hd, hle, _, _, hzero⟩ := parse_chunk_counts env rdfp s len 0 log
    rw [new_calls_eq log d _ hd]
    exact ⟨by simpa using hle, (hzero rfl).1, (hzero rfl).2⟩
  · intro rdfp s len is_end log rc p2 l2 h
    exact parse_chunk_ctxt env rdfp s len is_end log rc p2 l2 h
  · intro hcreate hdoc hn htr rdfp calls log
    obtain ⟨d, hd, heq⟩ := push_calls_finalizations_eq env hcreate hdoc hn htr calls rdfp log
    rw [new_calls_eq log d _ hd]
    exact heq

/-- C13, amended, on the sample document pushed in three calls with `is_end`
set in the last: finalization runs once; and a call with `is_end` unset made
after it adds no finalization. -/
theorem finalization_once_per_end_call_witness :
    finalizations (new_calls [] (push_calls sample_env sample_rdfp
        [(some [60, 104, 116], 3, 0), (none, 0, 0), (some [109, 108, 62], 3, 1)] [])) = 1
    ∧ finalizations (new_calls [] (push_calls sample_env sample_rdfp
        [(some [60, 104, 116, 109, 108, 62], 6, 1), (some [60], 1, 0)] [])) = 1 :=
  ⟨(finalization_once_per_end_call sample_env).2.2.2.2 (fun _ _ _ => rfl) (fun _ _ => rfl)
      sample_env_matches_readable
      (fun p u d l => (sample_env_tasks_succeed p u d l).elim fun l2 h => ⟨0, l2, h⟩)
      sample_rdfp [(some [60, 104, 116], 3, 0), (none, 0, 0), (some [109, 108, 62], 3, 1)] [],
   (finalization_once_per_end_call sample_env).2.2.2.2 (fun _ _ _ => rfl) (fun _ _ => rfl)
      sample_env_matches_readable
      (fun p u d l => (sample_env_tasks_succeed p u d l).elim fun l2 h => ⟨0, l2, h⟩)
      sample_rdfp [(some [60, 104, 116, 109, 108, 62], 6, 1), (some [60], 1, 0)] []⟩

/-! ## The base URI of a node's transform -/

/-- The sheet URI that the code computes for a matched node is the node's
value resolved against the base chosen in the order of the spec. -/
theorem node_sheet_uri_spec (env : Env) (rdfp : raptor_parser_s) (doc : xmlDoc)
    (node : xmlNode) :
    node_sheet_uri env rdfp doc node
      = env.raptor_new_uri_relative_to_base (spec_transform_base env rdfp doc node)
          (node_value node) := by
  unfold node_sheet_uri spec_transform_base node_value
  cases hb : env.xmlNodeGetBase doc node with
  | some b => simp
  | none =>
    cases hu : rdfp.base_uri with
    | some u => simp
    | none => simp

theorem tasks_of_finish_start (i : Nat) (doc : xmlDoc) :
    tasks_of i [Event.xmlXPathNewContext doc,
      Event.xmlXPathRegisterNs "html" "http://www.w3.org/1999/xhtml",
      Event.xmlXPathRegisterNs "dataview" "http://www.w3.org/2003/g/data-view#"] = [] := rfl

theorem matches_of_finish_start (i : Nat) (doc : xmlDoc) :
    matches_of i [Event.xmlXPathNewContext doc,
      Event.xmlXPathRegisterNs "html" "http://www.w3.org/1999/xhtml",
      Event.xmlXPathRegisterNs "dataview" "http://www.w3.org/2003/g/data-view#"] = [] := rfl

/-- In the last part of a push that returns, on the tree `doc`, the transforms
started for a rule without a fixed sheet URI are those of the attribute nodes
of its match sets, each with the sheet URI computed for the node on `doc`. -/
theorem parse_finish_node_tasks (env : Env) (rdfp : raptor_parser_s) (c : xmlParserCtxt)
    (log : Log) (i : Nat) (x : String)
    (hrule : match_table[i]? = some { xpath := some x, xslt_sheet_uri := none })
    (doc : xmlDoc) (hd : env.myDoc log CtxtOwner.document c = some doc)
    (hret : (grddl_parse_finish env rdfp c log).returns) :
    tasks_of i (new_calls log (grddl_parse_finish env rdfp c log))
      = (matches_of i (new_calls log (grddl_parse_finish env rdfp c log))).flatMap
          (fun nodes => (attribute_nodes nodes).map (node_sheet_uri env rdfp doc)) := by
  cases hm : env.xmlXPathNewContext log doc with
  | false =>
    have hrun : (grddl_parse_finish env rdfp c log).log
        = log ++ [Event.xmlXPathNewContext doc,
          Event.raptor_parser_error "Failed to create XPath context for document"] := by
      unfold grddl_parse_finish
      simp [Exec.log, hd, hm]
    rw [new_calls_eq log _ _ hrun]
    rfl
  | true =>
    rw [parse_finish_loop env rdfp c log doc hd hm] at hret ⊢
    obtain ⟨d, hdl, ht, _⟩ := rule_loop_tasks env
      { rdfp with context := { rdfp.context with xpathCtx := some doc } } doc i
      (fun _ => True)
      (fun nodes => (attribute_nodes nodes).map (node_sheet_uri env rdfp doc)) True
      (fun _ _ _ _ => trivial) match_table 0
      (by
        intro entry _ hget nodes ret l _
        rw [Nat.sub_zero, hrule] at hget
        have hentry : entry.xslt_sheet_uri = none := by
          cases hget; rfl
        rw [← node_sheet_uri_base env
          { rdfp with context := { rdfp.context with xpathCtx := some doc } } rdfp doc rfl]
        exact rule_matched_node_tasks_ret env _ doc i entry nodes ret l hentry)
      0 rdfp.context.xpathObj
      (log ++ [Event.xmlXPathNewContext doc] ++
        [Event.xmlXPathRegisterNs "html" "http://www.w3.org/1999/xhtml",
         Event.xmlXPathRegisterNs "dataview" "http://www.w3.org/2003/g/data-view#"])
    cases hl : grddl_rule_loop env
        { rdfp with context := { rdfp.context with xpathCtx := some doc } } doc
        match_table 0 0 rdfp.context.xpathObj
        (log ++ [Event.xmlXPathNewContext doc] ++
          [Event.xmlXPathRegisterNs "html" "http://www.w3.org/1999/xhtml",
           Event.xmlXPathRegisterNs "dataview" "http://www.w3.org/2003/g/data-view#"]) with
    | fault l =>
      rw [hl] at hret
      exact absurd hret (not_returns_fault _)
    | ret v l =>
      rw [hl] at hdl ht
      simp only [Exec.log] at hdl
      have ht2 := ht (fun _ => returns_ret _ _)
      have hnew : ∀ r : Exec (Int × raptor_parser_s), r.log = l →
          tasks_of i (new_calls log r)
            = (matches_of i (new_calls log r)).flatMap
                (fun nodes => (attribute_nodes nodes).map (node_sheet_uri env rdfp doc)) := by
        intro r hr
        have hlog : r.log = log ++ ([Event.xmlXPathNewContext doc,
            Event.xmlXPathRegisterNs "html" "http://www.w3.org/1999/xhtml",
            Event.xmlXPathRegisterNs "dataview" "http://www.w3.org/2003/g/data-view#"] ++ d) := by
          rw [hr, hdl]; simp
        rw [new_calls_eq log _ r hlog, tasks_of_append, matches_of_append,
          tasks_of_finish_start, matches_of_finish_start, ht2]
        rfl
      apply hnew
      cases v with
      | done r o =>
        simp only []
        split <;> rfl
      | returned r o => rfl

/-- C14: for a rule of `match_table` without a fixed sheet URI, in every push
that returns, the transforms started for the rule are, in order, those of the
attribute nodes of its match set on the document's tree, and the sheet URI of
each is the node's textual value resolved against the base chosen so: the
node's own base (what `xmlNodeGetBase` gives, made a URI) when it exists,
else the document's base URI when it exists, else none.  Each step of the loop
over the nodes computes this URI for an attribute node and starts the
transform with it. -/
theorem node_base_priority (env : Env) (rdfp : raptor_parser_s)
    (s : Option (List Nat)) (len : Nat) (is_end : Int) (log : Log) (i : Nat) (x : String)
    (hrule : match_table[i]? = some { xpath := some x, xslt_sheet_uri := none }) :
    (∀ (c : xmlParserCtxt) (doc : xmlDoc),
      (grddl_parse_feed env rdfp s len is_end log).1 = some c →
      env.myDoc (grddl_parse_feed env rdfp s len is_end log).2 CtxtOwner.document c
        = some doc →
      (raptor_xslt_parse_chunk env rdfp s len is_end log).returns →
      tasks_of i (new_calls log (raptor_xslt_parse_chunk env rdfp s len is_end log))
        = (matches_of i (new_calls log
            (raptor_xslt_parse_chunk env rdfp s len is_end log))).flatMap
            (fun nodes => (attribute_nodes nodes).map (fun node =>
              env.raptor_new_uri_relative_to_base (spec_transform_base env rdfp doc node)
                (node_value node))))
    ∧ (∀ (doc : xmlDoc) (node : xmlNode) (rest : List xmlNode) (ret : Int) (l : Log)
        (child : xmlNodeChild),
        node.type = XML_ATTRIBUTE_NODE → node.children = some child →
        grddl_node_loop env rdfp doc i (node :: rest) ret l
          = match raptor_xslt_run_grddl_transform_uri env rdfp
                (env.raptor_new_uri_relative_to_base (spec_transform_base env rdfp doc node)
                  child.content) doc
                (l ++ [Event.grddl_transform i
                  (env.raptor_new_uri_relative_to_base
                    (spec_transform_base env rdfp doc node) child.content)]) with
            | Exec.fault l2 => Exec.fault l2
            | Exec.ret r l2 => grddl_node_loop env rdfp doc i rest r l2)
    ∧ (∀ (doc : xmlDoc) (node : xmlNode) (b : String),
        env.xmlNodeGetBase doc node = some b →
        spec_transform_base env rdfp doc node = env.raptor_new_uri b)
    ∧ (∀ (doc : xmlDoc) (node : xmlNode) (d : String),
        env.xmlNodeGetBase doc node = none → rdfp.base_uri = some d →
        spec_transform_base env rdfp doc node = some d)
    ∧ (∀ (doc : xmlDoc) (node : xmlNode),
        env.xmlNodeGetBase doc node = none → rdfp.base_uri = none →
        spec_transform_base env rdfp doc node = none) := by
  refine ⟨?_, ?_, ?_, ?_, ?_⟩
  · intro c doc hc hd hret
    have hfun : (fun nodes : List xmlNode => (attribute_nodes nodes).map (fun node =>
          env.raptor_new_uri_relative_to_base (spec_transform_base env rdfp doc node)
            (node_value node)))
        = (fun nodes => (attribute_nodes nodes).map (node_sheet_uri env rdfp doc)) := by
      funext nodes
      apply List.map_congr_left
      intro node _
      exact (node_sheet_uri_spec env rdfp doc node).symm
    rw [hfun]
    obtain ⟨df, hdf, hfeed⟩ := parse_feed_ext env rdfp s len is_end log
    by_cases hend : is_end = 0
    · subst hend
      have hrun : (raptor_xslt_parse_chunk env rdfp s len 0 log).log = log ++ df := by
        unfold raptor_xslt_parse_chunk
        simp only [hc, if_true, Exec.log]
        rw [hdf]
      rw [new_calls_eq log _ _ hrun, tasks_of_feed i df hfeed, matches_of_feed i df hfeed]
      rfl
    · have hrun : raptor_xslt_parse_chunk env rdfp s len is_end log
          = grddl_parse_finish env
              { rdfp with context := { rdfp.context with ctxt := some c } } c
              (grddl_parse_feed env rdfp s len is_end log).2 := by
        unfold raptor_xslt_parse_chunk
        simp only [hc, hend, if_false]
      rw [hrun] at hret ⊢
      have hfin := parse_finish_node_tasks env
        { rdfp with context := { rdfp.context with ctxt := some c } } c
        (grddl_parse_feed env rdfp s len is_end log).2 i x hrule doc hd hret
      rw [node_sheet_uri_base env
        { rdfp with context := { rdfp.context with ctxt := some c } } rdfp doc rfl] at hfin
      obtain ⟨d2, hd2, _⟩ := parse_finish_feeds env
        { rdfp with context := { rdfp.context with ctxt := some c } } c
        (grddl_parse_feed env rdfp s len is_end log).2
      rw [new_calls_eq _ d2 _ hd2] at hfin
      rw [new_calls_eq log (df ++ d2) _ (by rw [hd2, hdf]; simp), tasks_of_append,
        matches_of_append, tasks_of_feed i df hfeed, matches_of_feed i df hfeed]
      exact hfin
  · intro doc node rest ret l child hty hch
    have hv : node_value node = child.content := by
      unfold node_value
      rw [hch]
      rfl
    rw [node_loop_cons_attr env rdfp doc i node rest ret l hty child hch,
      node_sheet_uri_spec, hv]
  · intro doc node b hb
    unfold spec_transform_base
    rw [hb]
    rfl
  · intro doc node d hb hu
    unfold spec_transform_base
    rw [hb, hu]
    rfl
  · intro doc node hb hu
    unfold spec_transform_base
    rw [hb, hu]
    rfl

/-- C14 on two documents.  In scenario A the matched attribute `sheet.xsl` has
no base of its own and the document's base is `http://ex/doc.html`: the one
transform has the sheet URI `http://ex/sheet.xsl`.  When the node has the
base `http://other/base/`, that base is used and not the document's. -/
theorem node_base_priority_witness :
    tasks_of 0 (new_calls [] (raptor_xslt_parse_chunk scenario_a_env sample_rdfp
        (some [60, 104, 116, 109, 108, 62]) 6 1 [])) = [some "http://ex/sheet.xsl"]
    ∧ spec_transform_base scenario_a_env sample_rdfp { ident := 0 }
        (sample_attribute 1 "sheet.xsl") = some "http://ex/doc.html"
    ∧ tasks_of 2 (new_calls [] (raptor_xslt_parse_chunk based_env sample_rdfp
        (some [60, 104, 116, 109, 108, 62]) 6 1 []))
      = (matches_of 2 (new_calls [] (raptor_xslt_parse_chunk based_env sample_rdfp
          (some [60, 104, 116, 109, 108, 62]) 6 1 []))).flatMap
          (fun nodes => (attribute_nodes nodes).map (fun node =>
            based_env.raptor_new_uri_relative_to_base
              (spec_transform_base based_env sample_rdfp { ident := 0 } node)
              (node_value node)))
    ∧ tasks_of 2 (new_calls [] (raptor_xslt_parse_chunk based_env sample_rdfp
        (some [60, 104, 116, 109, 108, 62]) 6 1 []))
      = [some "http://other/base/sheet.xsl"] :=
  ⟨by decide, by decide,
   (node_base_priority based_env sample_rdfp (some [60, 104, 116, 109, 108, 62]) 6 1 []
      2 "//@dataview:transformation" rfl).1
      { created := [60, 104, 116, 109, 108, 62], fed := [([], 1)] } { ident := 0 }
      (by decide) (by decide) (by decide),
   by decide⟩

/-! ## Reading through a null pointer -/

/-- A transform returns unless the fetch reported success and left no context
for the sheet. -/
theorem transform_uri_returns_iff (env : Env) (rdfp : raptor_parser_s)
    (xslt_uri : Option String) (doc : xmlDoc) (log : Log) :
    (raptor_xslt_run_grddl_transform_uri env rdfp xslt_uri doc log).returns
      ↔ ¬ ((raptor_www_fetch env xslt_uri none log).2.1 = 0
            ∧ (raptor_www_fetch env xslt_uri none log).1 = none) := by
  unfold raptor_xslt_run_grddl_transform_uri
  by_cases hrc : (raptor_www_fetch env xslt_uri none log).2.1 = 0
  · cases hctx : (raptor_www_fetch env xslt_uri none log).1 with
    | none => simp [hrc, hctx, Exec.returns, Exec.val?]
    | some c => simp [hrc, hctx, Exec.returns, Exec.val?]
  · simp [hrc, Exec.returns, Exec.val?]

/-- C15, the code at a failing input: the fetch of the sheet succeeds without
delivering any bytes, so the write-bytes handler never ran and `xslt_ctxt` is
still NULL.  The code goes on to the final `xmlParseChunk(xslt_ctxt, NULL, 0,
1)` and then reads `xslt_ctxt->myDoc` through the null pointer: the transform
does not return, and neither does the push.  When the bytes arrive but give no
document the context exists, and the transform returns 1 without applying a
sheet. -/
theorem sheet_without_bytes_faults :
    raptor_www_fetch empty_sheet_env (some "a.xsl") none []
      = (none, 0, [Event.raptor_www_fetch (some "a.xsl")])
    ∧ raptor_xslt_run_grddl_transform_uri empty_sheet_env sample_rdfp (some "a.xsl")
        { ident := 0 } []
      = Exec.fault [Event.raptor_www_fetch (some "a.xsl"),
          Event.xmlParseChunk CtxtOwner.sheet [] 1]
    ∧ result_code (raptor_xslt_parse_chunk empty_sheet_env sample_rdfp
        (some [60, 104, 116, 109, 108, 62]) 6 1 []) = none
    ∧ ((raptor_xslt_parse_chunk empty_sheet_env sample_rdfp
        (some [60, 104, 116, 109, 108, 62]) 6 1 []).log.drop 9
      = [Event.grddl_transform 3 (some "http://www.w3.org/2000/06/dc-extract/dc-extract.xsl"),
         Event.raptor_www_fetch (some "http://www.w3.org/2000/06/dc-extract/dc-extract.xsl"),
         Event.xmlParseChunk CtxtOwner.sheet [] 1])
    ∧ raptor_xslt_run_grddl_transform_uri unparsed_sheet_env sample_rdfp (some "a.xsl")
        { ident := 0 } []
      = Exec.ret 1 [Event.raptor_www_fetch (some "a.xsl"),
          Event.xmlCreatePushParserCtxt CtxtOwner.sheet [60, 120] (some "a.xsl"),
          Event.xmlParseChunk CtxtOwner.sheet [] 1,
          Event.xsltParseStylesheetDoc none,
          Event.raptor_parser_error "Failed to parse stylesheet in '%s'"] := by
  refine ⟨by decide, by decide, by decide, by decide, by decide⟩

/-! ## Reading the value of a matched attribute -/

theorem int32_eq_self (x : Int) (h1 : -2147483648 ≤ x) (h2 : x < 2147483648) :
    int32 x = x := by
  unfold int32
  omega

set_option maxRecDepth 20000

/-! ## Ordinals -/

theorem int_result_in_range (x : Int) (h1 : -2147483648 ≤ x) (h2 : x ≤ 2147483647) :
    int_result x = some x := by
  unfold int_result
  rw [if_pos ⟨h1, h2⟩]

theorem int_result_overflow (x : Int) (h : 2147483647 < x) : int_result x = none := by
  unfold int_result
  rw [if_neg (by omega)]

theorem is_digit_not_nul {c : Char} (hc : is_digit c) : c ≠ NUL := by
  intro h
  rw [h] at hc
  unfold is_digit at hc
  rw [nul_toNat] at hc
  have h48 : '0'.toNat = 48 := rfl
  omega

theorem check_ordinal_loop_c_str (name : List Char) (ordinal : Int) :
    raptor_check_ordinal_loop name ordinal
      = raptor_check_ordinal_loop (c_str name) ordinal := by
  induction name generalizing ordinal with
  | nil => rfl
  | cons c rest ih =>
    by_cases hc : c = NUL
    · simp [c_str, raptor_check_ordinal_loop, hc]
    · have hstr : c_str (c :: rest) = c :: c_str rest := by
        simp [c_str, hc]
      rw [hstr, raptor_check_ordinal_loop, raptor_check_ordinal_loop]
      simp only [hc, if_false]
      split
      · rfl
      · split
        · rfl
        · split
          · rfl
          · exact ih _

theorem digits_value_ge (acc : Nat) (digits : List Char) : acc ≤ digits_value acc digits := by
  induction digits generalizing acc with
  | nil => exact le_refl _
  | cons c rest ih =>
    have := ih (acc * 10 + (c.toNat - '0'.toNat))
    simp only [digits_value, List.foldl_cons] at this ⊢
    omega

/-- One digit read by the loop, from a value `acc` that is not negative: the
loop goes on with `acc * 10 + digit` when that fits an `int`, and has no
defined result when it does not. -/
theorem check_ordinal_loop_digit (c : Char) (hc : is_digit c) (name : List Char)
    (acc : Nat) (hacc : acc ≤ 2147483647) :
    raptor_check_ordinal_loop (c :: name) (acc : Int)
      = if acc * 10 + (c.toNat - '0'.toNat) ≤ 2147483647
        then raptor_check_ordinal_loop name ((acc * 10 + (c.toNat - '0'.toNat) : Nat) : Int)
        else none := by
  have hnul : c ≠ NUL := is_digit_not_nul hc
  have h48 : '0'.toNat = 48 := rfl
  have h57 : '9'.toNat = 57 := rfl
  unfold is_digit at hc
  have hnot : ¬ (c.toNat < '0'.toNat ∨ c.toNat > '9'.toNat) := by omega
  rw [raptor_check_ordinal_loop]
  simp only [hnul, if_false, hnot]
  have hneg : ¬ ((acc : Int) < 0) := by omega
  simp only [hneg, if_false]
  by_cases h10 : acc * 10 ≤ 2147483647
  · rw [int_result_in_range _ (by omega) (by omega)]
    simp only []
    by_cases hfit : acc * 10 + (c.toNat - '0'.toNat) ≤ 2147483647
    · rw [if_pos hfit, int_result_in_range _ (by omega) (by omega)]
      simp only []
      congr 1
      push_cast
      omega
    · rw [if_neg hfit, int_result_overflow _ (by omega)]
  · rw [int_result_overflow _ (by omega), if_neg (by omega)]

/-- On digits whose value fits an `int`, the loop goes through them and
continues with that value. -/
theorem check_ordinal_loop_digits (digits : List Char) (hd : ∀ c ∈ digits, is_digit c)
    (rest : List Char) (acc : Nat) (hfit : digits_value acc digits ≤ 2147483647) :
    raptor_check_ordinal_loop (digits ++ rest) (acc : Int)
      = raptor_check_ordinal_loop rest (digits_value acc digits : Int) := by
  induction digits generalizing acc with
  | nil => rfl
  | cons c ds ih =>
    have hval : digits_value acc (c :: ds)
        = digits_value (acc * 10 + (c.toNat - '0'.toNat)) ds := rfl
    rw [hval] at hfit ⊢
    have hge := digits_value_ge (acc * 10 + (c.toNat - '0'.toNat)) ds
    rw [List.cons_append, check_ordinal_loop_digit c (hd c (List.mem_cons_self _ _)) _ acc
      (by omega), if_pos (by omega)]
    exact ih (fun c2 h2 => hd c2 (List.mem_cons_of_mem _ h2)) _ hfit

/-- On digits whose value does not fit an `int`, the loop overflows: it has no
defined result, whatever follows the digits. -/
theorem check_ordinal_loop_overflow (digits : List Char) (hd : ∀ c ∈ digits, is_digit c)
    (rest : List Char) (acc : Nat) (hacc : acc ≤ 2147483647)
    (hover : 2147483647 < digits_value acc digits) :
    raptor_check_ordinal_loop (digits ++ rest) (acc : Int) = none := by
  induction digits generalizing acc with
  | nil =>
    simp only [digits_value, List.foldl_nil] at hover
    omega
  | cons c ds ih =>
    have hval : digits_value acc (c :: ds)
        = digits_value (acc * 10 + (c.toNat - '0'.toNat)) ds := rfl
    rw [hval] at hover
    rw [List.cons_append, check_ordinal_loop_digit c (hd c (List.mem_cons_self _ _)) _ acc hacc]
    by_cases hfit : acc * 10 + (c.toNat - '0'.toNat) ≤ 2147483647
    · rw [if_pos hfit]
      exact ih (fun c2 h2 => hd c2 (List.mem_cons_of_mem _ h2)) _ hfit hover
    · rw [if_neg hfit]

/-- The first step of `raptor_check_ordinal` on digits: the initial -1 is
replaced by 0, so the digits are read from 0. -/
theorem check_ordinal_from_zero (digits : List Char) (hd : ∀ c ∈ digits, is_digit c)
    (hne : digits ≠ []) (rest : List Char) :
    raptor_check_ordinal_loop (digits ++ rest) (-1)
      = raptor_check_ordinal_loop (digits ++ rest) ((0 : Nat) : Int) := by
  cases digits with
  | nil => exact absurd rfl hne
  | cons c ds =>
    have hc : is_digit c := hd c (List.mem_cons_self _ _)
    have hnul : c ≠ NUL := is_digit_not_nul hc
    have h48 : '0'.toNat = 48 := rfl
    have h57 : '9'.toNat = 57 := rfl
    unfold is_digit at hc
    have hnot : ¬ (c.toNat < '0'.toNat ∨ c.toNat > '9'.toNat) := by omega
    rw [List.cons_append, raptor_check_ordinal_loop, raptor_check_ordinal_loop]
    simp only [hnul, if_false, hnot]
    rfl

theorem c_str_mem_not_nul (name : List Char) (c : Char) (hc : c ∈ c_str name) : c ≠ NUL := by
  have h := List.mem_takeWhile_imp hc
  simpa using h

/-- Claim C16, within the range of `int`.  `raptor_check_ordinal` reads the
string up to its NUL.  (1) On the empty string it returns -1.  (2) When digits
whose value is at most 2147483647 are followed by a character outside
`'0'..'9'`, it returns -1, a negative value.  (3) On a non-empty string of
digits whose value is at most 2147483647 it returns that value, which is also
its value as a 32-bit `int`.  (4) When the string starts with digits whose
value is more than 2147483647, the `int` arithmetic of the loop overflows and
the call has no defined result, whatever follows those digits. -/
theorem check_ordinal_within_int (name : List Char) :
    (c_str name = [] → raptor_check_ordinal name = some (-1))
    ∧ (∀ digits c rest, c_str name = digits ++ c :: rest
        → (∀ d ∈ digits, is_digit d) → ¬ is_digit c
        → digits_value 0 digits ≤ 2147483647
        → raptor_check_ordinal name = some (-1))
    ∧ (c_str name ≠ [] → (∀ d ∈ c_str name, is_digit d)
        → digits_value 0 (c_str name) ≤ 2147483647
        → raptor_check_ordinal name = some (digits_value 0 (c_str name) : Int)
          ∧ int32 (digits_value 0 (c_str name) : Int) = (digits_value 0 (c_str name) : Int))
    ∧ (∀ digits rest, c_str name = digits ++ rest
        → (∀ d ∈ digits, is_digit d) → 2147483647 < digits_value 0 digits
        → raptor_check_ordinal name = none) := by
  have hstr : raptor_check_ordinal name = raptor_check_ordinal_loop (c_str name) (-1) :=
    check_ordinal_loop_c_str name (-1)
  have hstop : ∀ (c : Char) (rest : List Char) (ordinal : Int), c ≠ NUL → ¬ is_digit c
      → raptor_check_ordinal_loop (c :: rest) ordinal = some (-1) := by
    intro c rest ordinal hnul hc
    have hnot : c.toNat < '0'.toNat ∨ c.toNat > '9'.toNat := by
      unfold is_digit at hc
      omega
    rw [raptor_check_ordinal_loop]
    simp only [hnul, if_false, hnot, if_true]
  refine ⟨?_, ?_, ?_, ?_⟩
  · intro hempty
    rw [hstr, hempty]
    rfl
  · intro digits c rest hsplit hd hc hfit
    have hnul : c ≠ NUL := c_str_mem_not_nul name c (by rw [hsplit]; simp)
    rw [hstr, hsplit]
    by_cases hne : digits = []
    · rw [hne, List.nil_append]
      exact hstop c rest _ hnul hc
    · rw [check_ordinal_from_zero digits hd hne, check_ordinal_loop_digits digits hd _ 0 hfit]
      exact hstop c rest _ hnul hc
  · intro hne hd hfit
    rw [hstr]
    have h := check_ordinal_loop_digits (c_str name) hd [] 0 hfit
    rw [List.append_nil] at h
    have h0 := check_ordinal_from_zero (c_str name) hd hne []
    rw [List.append_nil] at h0
    rw [h0, h]
    exact ⟨rfl, int32_eq_self _ (by omega) (by omega)⟩
  · intro digits rest hsplit hd hover
    have hne : digits ≠ [] := by
      intro h
      rw [h] at hover
      simp [digits_value] at hover
    rw [hstr, hsplit, check_ordinal_from_zero digits hd hne]
    exact check_ordinal_loop_overflow digits hd rest 0 (by omega) hover

/-- The cases of `check_ordinal_within_int` on concrete names: the empty name
gives -1, `"12a"` gives -1, `"12"` gives 12, `"2147483647"` gives 2147483647,
and `"2147483648x"` has no defined result. -/
theorem check_ordinal_within_int_witness :
    raptor_check_ordinal [] = some (-1)
    ∧ raptor_check_ordinal "12a".toList = some (-1)
    ∧ raptor_check_ordinal "12".toList = some 12
    ∧ raptor_check_ordinal "2147483647".toList = some 2147483647
    ∧ raptor_check_ordinal "2147483648x".toList = none :=
  ⟨(check_ordinal_within_int []).1 rfl,
   (check_ordinal_within_int "12a".toList).2.1 "12".toList 'a' [] (by decide) (by decide)
     (by decide) (by decide),
   ((check_ordinal_within_int "12".toList).2.2.1 (by decide) (by decide) (by decide)).1,
   ((check_ordinal_within_int "2147483647".toList).2.2.1 (by decide) (by decide)
     (by decide)).1,
   (check_ordinal_within_int "2147483648x".toList).2.2.2 "2147483648".toList "x".toList
     (by decide) (by decide) (by decide)⟩

/-- Claim C16 fails on the name `"30000000001"`: every character is a digit
and the digits denote 30000000001, whose 32-bit value is -64771071, but the
call has no defined result: after the ninth digit `ordinal` is 300000000 and
`ordinal *= 10` overflows.  The same holds for `"2147483648"`, where
`ordinal += (c - '0')` overflows at the last digit. -/
theorem check_ordinal_overflow_undefined :
    (∀ d ∈ "30000000001".toList, is_digit d)
    ∧ digits_value 0 "30000000001".toList = 30000000001
    ∧ int32 30000000001 = -64771071
    ∧ raptor_check_ordinal "30000000001".toList = none
    ∧ raptor_check_ordinal_loop "01".toList 300000000 = none
    ∧ raptor_check_ordinal "2147483648".toList = none := by
  decide

/-! ## Decimal digits -/

theorem toDigitsCore_eq_toDigits (fuel : Nat) :
    ∀ (n : Nat) (ds : List Char), n < fuel →
      Nat.toDigitsCore 10 fuel n ds = Nat.toDigits 10 n ++ ds := by
  induction fuel using Nat.strong_induction_on with
  | _ fuel ih =>
    intro n ds hn
    cases fuel with
    | zero => omega
    | succ f =>
      unfold Nat.toDigits
      rw [Nat.toDigitsCore, Nat.toDigitsCore]
      by_cases h0 : n / 10 = 0
      · simp [h0]
      · simp only [h0, if_false]
        have hlt : n / 10 < n := by omega
        rw [ih f (by omega) (n / 10) _ (by omega), ih n (by omega) (n / 10) _ hlt]
        simp

theorem toDigits_step (n : Nat) :
    Nat.toDigits 10 n
      = if n / 10 = 0 then [Nat.digitChar (n % 10)]
        else Nat.toDigits 10 (n / 10) ++ [Nat.digitChar (n % 10)] := by
  by_cases h0 : n / 10 = 0
  · rw [if_pos h0]
    unfold Nat.toDigits
    rw [Nat.toDigitsCore]
    simp [h0]
  · rw [if_neg h0]
    have hlt : n / 10 < n := by omega
    conv_lhs => unfold Nat.toDigits
    rw [Nat.toDigitsCore]
    simp only [h0, if_false]
    exact toDigitsCore_eq_toDigits n (n / 10) _ hlt

theorem toDigits_length_step (n : Nat) :
    (Nat.toDigits 10 n).length
      = if n / 10 = 0 then 1 else (Nat.toDigits 10 (n / 10)).length + 1 := by
  rw [toDigits_step n]
  split <;> simp

theorem toDigits_length_pos (n : Nat) : 1 ≤ (Nat.toDigits 10 n).length := by
  rw [toDigits_length_step]
  split <;> omega

theorem toDigits_length_le (n : Nat) (h : n ≤ 2147483648) :
    (Nat.toDigits 10 n).length ≤ 10 :=
  Nat.toDigitsCore_length 10 (by decide) (n + 1) n 10 (by omega) (by decide)

/-- The loop of the default handler adds to `length` one less than the number
of decimal digits of `tmpid`. -/
theorem bnodeid_length_loop_abs (n : Nat) :
    ∀ (tmpid length : Int), tmpid.natAbs = n →
      bnodeid_length_loop tmpid length
        = length + ((Nat.toDigits 10 n).length : Int) - 1 := by
  induction n using Nat.strong_induction_on with
  | _ n ih =>
    intro tmpid length hn
    have habs : (tmpid.tdiv 10).natAbs = n / 10 := by
      rw [Int.natAbs_tdiv, hn]
      rfl
    rw [bnodeid_length_loop, toDigits_length_step n]
    by_cases h0 : tmpid.tdiv 10 = 0
    · have hz : n / 10 = 0 := by
        rw [← habs, h0]
        rfl
      simp [h0, hz]
    · have hz : n / 10 ≠ 0 := by
        intro hz
        apply h0
        rw [hz] at habs
        exact Int.natAbs_eq_zero.mp habs
      have hlt : n / 10 < n := by omega
      simp only [ne_eq, h0, not_false_eq_true, dite_true, hz, if_false]
      rw [ih (n / 10) hlt (tmpid.tdiv 10) (length + 1) habs]
      push_cast
      ring

theorem bnodeid_length_loop_eq (tmpid : Int) (length : Int) :
    bnodeid_length_loop tmpid length
      = length + ((Nat.toDigits 10 tmpid.natAbs).length : Int) - 1 :=
  bnodeid_length_loop_abs tmpid.natAbs tmpid length rfl

/-! ## The default handler -/

theorem default_handler_no_user_id (RAPTOR_MALLOC : Int → Bool)
    (hm : ∀ n, RAPTOR_MALLOC n = true) (world : raptor_world) :
    raptor_world_default_generate_bnodeid_handler RAPTOR_MALLOC world none
      = (some (bnodeid_prefix_chars world
            ++ sprintf_d (int32 (world.default_generate_bnodeid_handler_base + 1))),
         { world with
           default_generate_bnodeid_handler_base :=
             int32 (world.default_generate_bnodeid_handler_base + 1) }) := by
  unfold raptor_world_default_generate_bnodeid_handler bnodeid_prefix_chars
  simp only [hm, Bool.not_true, Bool.false_eq_true, if_false]
  cases world.default_generate_bnodeid_handler_prefix <;> rfl

theorem bnodeid_buffer_length_eq (world : raptor_world) (id : Int) :
    bnodeid_buffer_length world id
      = int32 (2 + ((Nat.toDigits 10 id.natAbs).length : Int) - 1
          + (bnodeid_prefix_length world : Int)) := by
  unfold bnodeid_buffer_length bnodeid_prefix_length
  simp only [bnodeid_length_loop_eq]
  cases world.default_generate_bnodeid_handler_prefix <;> rfl

theorem bnodeid_prefix_chars_length (world : raptor_world) (h : prefix_length_stored world) :
    (bnodeid_prefix_chars world).length = bnodeid_prefix_length world := by
  unfold bnodeid_prefix_chars bnodeid_prefix_length
  cases hp : world.default_generate_bnodeid_handler_prefix with
  | none => rfl
  | some p =>
    simp only [List.length_take]
    have := h p hp
    omega

/-- The computed buffer length against the generated string: for a counter
value that is not negative the string and its NUL fill the buffer exactly, and
for a negative one the buffer is one byte short, the minus sign not being
counted. -/
theorem default_handler_buffer (world : raptor_world) (h : prefix_length_stored world)
    (hlen : world.default_generate_bnodeid_handler_prefix_length ≤ 2147483000)
    (id : Int) (hlo : -2147483648 ≤ id) (hhi : id ≤ 2147483647) :
    (0 ≤ id → bnodeid_buffer_length world id
        = ((bnodeid_prefix_chars world ++ sprintf_d id).length : Int) + 1)
    ∧ (id < 0 → bnodeid_buffer_length world id
        = ((bnodeid_prefix_chars world ++ sprintf_d id).length : Int)) := by
  have hpl := bnodeid_prefix_chars_length world h
  have hpl2 : bnodeid_prefix_length world ≤ 2147483000 := by
    unfold bnodeid_prefix_length
    split <;> omega
  have h1 := toDigits_length_pos id.natAbs
  have h10 := toDigits_length_le id.natAbs (by omega)
  rw [bnodeid_buffer_length_eq, int32_eq_self _ (by omega) (by omega)]
  constructor
  · intro hpos
    have hs : sprintf_d id = Nat.toDigits 10 id.natAbs := by
      unfold sprintf_d
      rw [if_neg (by omega)]
      congr 1
      omega
    rw [hs, List.length_append, hpl]
    push_cast
    ring
  · intro hneg
    have hs : sprintf_d id = '-' :: Nat.toDigits 10 id.natAbs := by
      unfold sprintf_d
      rw [if_pos hneg]
    rw [hs, List.length_append, hpl, List.length_cons]
    push_cast
    ring

/-! ## The sequence of generated identifiers -/

/-- The world that `raptor_world_set_generate_bnodeid_parameters` leaves when
the allocation of the prefix copy succeeds. -/
theorem set_parameters_world (RAPTOR_MALLOC : Int → Bool) (hm : ∀ n, RAPTOR_MALLOC n = true)
    (world : raptor_world) (pfx : Option (List Char)) (base : Int)
    (hlo : -2147483648 < base) (hhi : base ≤ 2147483647) :
    (raptor_world_set_generate_bnodeid_parameters RAPTOR_MALLOC world pfx
        base).generate_bnodeid_handler = world.generate_bnodeid_handler
    ∧ (raptor_world_set_generate_bnodeid_parameters RAPTOR_MALLOC world pfx
        base).default_generate_bnodeid_handler_base = max base 1 - 1
    ∧ bnodeid_prefix_chars
        (raptor_world_set_generate_bnodeid_parameters RAPTOR_MALLOC world pfx base)
      = (match pfx with
          | some p => c_str p
          | none => "genid".toList) := by
  have hb : (if int32 (base - 1) < 0 then 0 else int32 (base - 1)) = max base 1 - 1 := by
    rw [int32_eq_self _ (by omega) (by omega)]
    split <;> omega
  cases pfx with
  | none => exact ⟨rfl, hb, rfl⟩
  | some p =>
    have hw : raptor_world_set_generate_bnodeid_parameters RAPTOR_MALLOC world (some p) base
        = { world with
            default_generate_bnodeid_handler_prefix := some (c_str p),
            default_generate_bnodeid_handler_prefix_length := strlen p,
            default_generate_bnodeid_handler_base :=
              if int32 (base - 1) < 0 then 0 else int32 (base - 1) } := by
      unfold raptor_world_set_generate_bnodeid_parameters
      simp only [hm, Bool.not_true, Bool.false_eq_true, if_false]
    rw [hw]
    refine ⟨rfl, hb, ?_⟩
    simp [bnodeid_prefix_chars, strlen]

/-- One call of `raptor_world_generate_bnodeid` on a world without a handler
of the user. -/
theorem generate_bnodeid_step (RAPTOR_MALLOC : Int → Bool) (hm : ∀ n, RAPTOR_MALLOC n = true)
    (world : raptor_world) (hnone : world.generate_bnodeid_handler = none) :
    raptor_world_generate_bnodeid RAPTOR_MALLOC world
      = (some (bnodeid_prefix_chars world
            ++ sprintf_d (int32 (world.default_generate_bnodeid_handler_base + 1))),
         { world with
           default_generate_bnodeid_handler_base :=
             int32 (world.default_generate_bnodeid_handler_base + 1) }) := by
  have h := default_handler_no_user_id RAPTOR_MALLOC hm world
  unfold raptor_world_generate_bnodeid raptor_world_internal_generate_id
  split
  · rename_i handler hh
    rw [hnone] at hh
    cases hh
  · exact h

/-- After `n` calls the counter has grown by `n`, as long as it fits an `int`,
and nothing else has changed. -/
theorem after_bnodeids_world (RAPTOR_MALLOC : Int → Bool) (hm : ∀ n, RAPTOR_MALLOC n = true)
    (n : Nat) (world : raptor_world) (hnone : world.generate_bnodeid_handler = none)
    (hlo : 0 ≤ world.default_generate_bnodeid_handler_base)
    (hfit : world.default_generate_bnodeid_handler_base + n ≤ 2147483647) :
    (after_bnodeids RAPTOR_MALLOC n world).generate_bnodeid_handler = none
    ∧ (after_bnodeids RAPTOR_MALLOC n world).default_generate_bnodeid_handler_base
        = world.default_generate_bnodeid_handler_base + n
    ∧ bnodeid_prefix_chars (after_bnodeids RAPTOR_MALLOC n world)
        = bnodeid_prefix_chars world := by
  induction n generalizing world with
  | zero => exact ⟨hnone, by simp [after_bnodeids], rfl⟩
  | succ n ih =>
    rw [after_bnodeids, generate_bnodeid_step RAPTOR_MALLOC hm world hnone]
    have hstep : int32 (world.default_generate_bnodeid_handler_base + 1)
        = world.default_generate_bnodeid_handler_base + 1 := by
      apply int32_eq_self <;> omega
    obtain ⟨h1, h2, h3⟩ := ih
      { world with
        default_generate_bnodeid_handler_base :=
          int32 (world.default_generate_bnodeid_handler_base + 1) }
      hnone (by simp only []; omega) (by simp only []; push_cast at hfit ⊢; omega)
    refine ⟨h1, ?_, ?_⟩
    · rw [h2]
      simp only []
      rw [hstep]
      push_cast
      ring
    · rw [h3]
      rfl

/-- C17 as stated fails: with base 2147483647 and no prefix the first call
returns `genid2147483647` and the second `genid-2147483648`, the counter
having wrapped, where the claim has `genid2147483648`; with base
-2147483648 the decrement of `base` wraps to 2147483647, so the first call
returns `genid-2147483648`, where the claim has `genid1`; and when the
allocation of the buffer fails the call returns NULL. -/
theorem bnodeid_counter_wraps :
    (raptor_world_generate_bnodeid (fun _ => true)
        (after_bnodeids (fun _ => true) 0
          (raptor_world_set_generate_bnodeid_parameters (fun _ => true) sample_world none
            2147483647))).1 = some "genid2147483647".toList
    ∧ (raptor_world_generate_bnodeid (fun _ => true)
        (after_bnodeids (fun _ => true) 1
          (raptor_world_set_generate_bnodeid_parameters (fun _ => true) sample_world none
            2147483647))).1 = some "genid-2147483648".toList
    ∧ "genid".toList ++ Nat.toDigits 10 (2147483647 + 2 - 1) = "genid2147483648".toList
    ∧ (raptor_world_generate_bnodeid (fun _ => true)
        (after_bnodeids (fun _ => true) 0
          (raptor_world_set_generate_bnodeid_parameters (fun _ => true) sample_world none
            (-2147483648)))).1 = some "genid-2147483648".toList
    ∧ "genid".toList ++ Nat.toDigits 10 (1 + 1 - 1) = "genid1".toList
    ∧ (raptor_world_generate_bnodeid (fun _ => false)
        (after_bnodeids (fun _ => false) 0
          (raptor_world_set_generate_bnodeid_parameters (fun _ => false) sample_world none
            1))).1 = none := by
  refine ⟨by decide, by decide, by decide, by decide, by decide, by decide⟩

/-- C17, amended: on a world with no handler of the user, for every prefix
(possibly NULL) and every base above -2147483648, after
`raptor_world_set_generate_bnodeid_parameters` the `k`-th call of
`raptor_world_generate_bnodeid` returns the prefix, or `genid` for a NULL
prefix, followed by the decimal digits of `max(base, 1) + k - 1`, as long as
that number is at most 2147483647 and the allocations succeed. -/
theorem bnodeid_sequence (RAPTOR_MALLOC : Int → Bool) (hm : ∀ n, RAPTOR_MALLOC n = true)
    (world : raptor_world) (hnone : world.generate_bnodeid_handler = none)
    (pfx : Option (List Char)) (base : Int) (hlo : -2147483648 < base)
    (hhi : base ≤ 2147483647) (k : Nat) (hk : 1 ≤ k)
    (hfit : max base 1 + k - 1 ≤ 2147483647) :
    (raptor_world_generate_bnodeid RAPTOR_MALLOC
        (after_bnodeids RAPTOR_MALLOC (k - 1)
          (raptor_world_set_generate_bnodeid_parameters RAPTOR_MALLOC world pfx base))).1
      = some ((match pfx with
                | some p => c_str p
                | none => "genid".toList)
              ++ Nat.toDigits 10 (max base 1 + k - 1).toNat) := by
  obtain ⟨h1, h2, h3⟩ := set_parameters_world RAPTOR_MALLOC hm world pfx base hlo hhi
  have hk1 : ((k - 1 : Nat) : Int) = (k : Int) - 1 := by omega
  obtain ⟨g1, g2, g3⟩ := after_bnodeids_world RAPTOR_MALLOC hm (k - 1)
    (raptor_world_set_generate_bnodeid_parameters RAPTOR_MALLOC world pfx base)
    (by rw [h1, hnone]) (by rw [h2]; omega) (by rw [h2, hk1]; omega)
  rw [generate_bnodeid_step RAPTOR_MALLOC hm _ g1]
  simp only []
  rw [g3, h3, g2, h2, hk1]
  have hid : int32 (max base 1 - 1 + ((k : Int) - 1) + 1) = max base 1 + k - 1 := by
    rw [int32_eq_self _ (by omega) (by omega)]
    ring
  rw [hid]
  have hs : sprintf_d (max base 1 + (k : Int) - 1)
      = Nat.toDigits 10 (max base 1 + (k : Int) - 1).toNat := by
    unfold sprintf_d
    rw [if_neg (by omega)]
  rw [hs]

/-- C17, amended, on three calls: with the prefix `b` and base 0 the first
call returns `b1`, and with no prefix and base 41 the second call returns
`genid42`. -/
theorem bnodeid_sequence_witness :
    (raptor_world_generate_bnodeid (fun _ => true)
        (after_bnodeids (fun _ => true) (1 - 1)
          (raptor_world_set_generate_bnodeid_parameters (fun _ => true) sample_world
            (some ['b']) 0))).1 = some (['b'] ++ ['1'])
    ∧ (raptor_world_generate_bnodeid (fun _ => true)
        (after_bnodeids (fun _ => true) (2 - 1)
          (raptor_world_set_generate_bnodeid_parameters (fun _ => true) sample_world
            none 41))).1 = some ("genid".toList ++ ['4', '2']) :=
  ⟨bnodeid_sequence (fun _ => true) (fun _ => rfl) sample_world rfl (some ['b']) 0
      (by decide) (by decide) 1 (by decide) (by decide),
   bnodeid_sequence (fun _ => true) (fun _ => rfl) sample_world rfl none 41
      (by decide) (by decide) 2 (by decide) (by decide)⟩

/-- C19, the code at a failing input: after
`raptor_world_set_generate_bnodeid_parameters(world, NULL, 2147483647)` and
one generated id the counter is 2147483647.  The next call of the default
handler increments it to -2147483648 in 32-bit arithmetic, computes the
buffer length 2 + 9 + 5 = 16 and writes `genid-2147483648`: 16 characters
and the terminating NUL, 17 bytes.  The minus sign is not counted.  For the
call before, with the counter value 2147483647, the length 16 is exact. -/
theorem bnodeid_buffer_one_short :
    (after_bnodeids (fun _ => true) 1
        (raptor_world_set_generate_bnodeid_parameters (fun _ => true) sample_world none
          2147483647)).default_generate_bnodeid_handler_base = 2147483647
    ∧ int32 (2147483647 + 1) = -2147483648
    ∧ (raptor_world_default_generate_bnodeid_handler (fun _ => true)
        (after_bnodeids (fun _ => true) 1
          (raptor_world_set_generate_bnodeid_parameters (fun _ => true) sample_world none
            2147483647)) none).1 = some "genid-2147483648".toList
    ∧ bnodeid_buffer_length
        (after_bnodeids (fun _ => true) 1
          (raptor_world_set_generate_bnodeid_parameters (fun _ => true) sample_world none
            2147483647)) (-2147483648) = 16
    ∧ ("genid-2147483648".toList.length : Int) + 1 = 17
    ∧ bnodeid_buffer_length
        (raptor_world_set_generate_bnodeid_parameters (fun _ => true) sample_world none
          2147483647) 2147483647 = 16
    ∧ ("genid2147483647".toList.length : Int) + 1 = 16 := by
  refine ⟨by decide, by decide, by decide, ?_, by decide, ?_, by decide⟩
  · rw [bnodeid_buffer_length_eq]
    decide
  · rw [bnodeid_buffer_length_eq]
    decide

end Raptor
